import Mathlib

/-!
Verification of the p12 PKCS#12 library (src/src/lib.rs) against its
specification.

Modelling conventions:
* Byte strings are `List Nat` with every byte below 256; machine integers
  are `Nat` with explicit `% 2 ^ w` where overflow matters.
* Rust `&str` values are lists of Unicode scalar values (`List Nat`);
  `str::as_bytes` / `str::from_utf8` are modelled by a concrete UTF-8
  codec (`utf8Encode` / `utf8Decode`).
* The digest / MAC / KDF crates the library consumes (sha1, sha2, hmac,
  pbkdf2) are external collaborators; they are modelled concretely after
  their standards (FIPS 180, RFC 2104, RFC 8018) so the repository's own
  key-derivation code can be evaluated on its test vectors.  The SHA-1
  implementation below is written against Lean kernel reduction (packed
  `Nat` state, raw `Nat.rec` loops): the KDF test vectors take thousands
  of compressions.
* The block-cipher collaborators (AES-256-CBC, RC2-40-CBC, 3DES-CBC, each
  with PKCS#7 padding) stay opaque: they are threaded through the
  embedding as a `CipherPrims` record of functions, mirroring how the
  library calls into the `cipher` crates.  `Option.none` from a decryptor
  models a padding/length failure, exactly the `Result`/`Option` shape of
  `decrypt_padded_vec_mut`.
* Rust panics (`unwrap`, `expect`, infallible slice conversions) are
  modelled explicitly: fallible embedded functions return
  `Except Unit α`, where `Except.error ()` is a panic.
-/

set_option linter.unusedVariables false

namespace P12

deriving instance DecidableEq for Except

/-! ## Byte-level helpers and the SHA-1 / SHA-256 collaborator models -/

/-- Big-endian packing of a byte list together with its length, via a
curried `List.rec` fold (kernel-reduction friendly). -/
def packGo (l : List Nat) : Nat → Nat → Nat × Nat :=
  List.rec (motive := fun _ => Nat → Nat → Nat × Nat)
    (fun accM accL => (accM, accL))
    (fun b _ ih accM accL => ih (accM * 256 + b) (accL + 1)) l

/-- All Merkle–Damgård padded 512-bit blocks of a message packed into one
`Nat` (most significant block first), with the block count: append `0x80`,
zeros to 56 mod 64, then the 64-bit big-endian bit length. -/
def shaPadPack (msg : List Nat) : Nat × Nat :=
  match packGo msg 0 0 with
  | (m, len) =>
    let nblocks := (len + 9 + 63) / 64
    (Nat.shiftLeft (m * 256 + 128) (8 * (64 * nblocks - len - 9)) * 18446744073709551616 + 8 * len,
     nblocks)

/-- Mask for one 512-bit block. -/
def blkMask : Nat := Nat.sub (Nat.shiftLeft 1 512) 1

/-- SHA-1 message schedule step on a sliding window of the last 16 words
(word t-16 at bits 0, t-14 at 64, t-8 at 256, t-3 at 416):
`w_t = rotl1 (w_{t-3} ^^^ w_{t-8} ^^^ w_{t-14} ^^^ w_{t-16})`. -/
def nextW (win : Nat) : Nat :=
  let y := Nat.xor (Nat.xor (Nat.land (Nat.shiftRight win 416) 4294967295)
                            (Nat.land (Nat.shiftRight win 256) 4294967295))
           (Nat.xor (Nat.land (Nat.shiftRight win 64) 4294967295)
                    (Nat.land win 4294967295))
  Nat.mod (Nat.lor (Nat.shiftLeft y 1) (Nat.shiftRight y 31)) 4294967296

/-- Five 32-bit words of SHA-1 state. -/
abbrev St5 := Nat × Nat × Nat × Nat × Nat

/-- SHA-1 rounds 0..15: schedule words read from the packed block (word t
at bits 32*(15-t)), filling the sliding window, with f = Ch and
k = 0x5a827999. -/
def roundsLoad : Nat → Nat → Nat → Nat → Nat → Nat → Nat → Nat → Nat × St5 :=
  fun n blk =>
  Nat.rec (motive := fun _ => Nat → Nat → Nat → Nat → Nat → Nat → Nat × St5)
    (fun win a b c d e => (win, (a, b, c, d, e)))
    (fun m ih win a b c d e =>
      let w := Nat.land (Nat.shiftRight blk (32 * m)) 4294967295
      ih (Nat.lor (Nat.shiftRight win 32) (Nat.shiftLeft w 480))
        (Nat.mod (Nat.lor (Nat.shiftLeft a 5) (Nat.shiftRight a 27)
           + Nat.lor (Nat.land b c) (Nat.land (Nat.xor b 4294967295) d)
           + e + 1518500249 + w) 4294967296)
        a (Nat.mod (Nat.lor (Nat.shiftLeft b 30) (Nat.shiftRight b 2)) 4294967296) c d)
    n

/-- SHA-1 rounds with f = Ch, k = 0x5a827999, generated schedule words. -/
def rounds1g : Nat → Nat → Nat → Nat → Nat → Nat → Nat → Nat × St5 :=
  fun n =>
  Nat.rec (motive := fun _ => Nat → Nat → Nat → Nat → Nat → Nat → Nat × St5)
    (fun win a b c d e => (win, (a, b, c, d, e)))
    (fun _ ih win a b c d e =>
      let w := nextW win
      ih (Nat.lor (Nat.shiftRight win 32) (Nat.shiftLeft w 480))
        (Nat.mod (Nat.lor (Nat.shiftLeft a 5) (Nat.shiftRight a 27)
           + Nat.lor (Nat.land b c) (Nat.land (Nat.xor b 4294967295) d)
           + e + 1518500249 + w) 4294967296)
        a (Nat.mod (Nat.lor (Nat.shiftLeft b 30) (Nat.shiftRight b 2)) 4294967296) c d)
    n

/-- SHA-1 rounds with f = Parity and the given constant k. -/
def rounds2g : Nat → Nat → Nat → Nat → Nat → Nat → Nat → Nat → Nat × St5 :=
  fun n k =>
  Nat.rec (motive := fun _ => Nat → Nat → Nat → Nat → Nat → Nat → Nat × St5)
    (fun win a b c d e => (win, (a, b, c, d, e)))
    (fun _ ih win a b c d e =>
      let w := nextW win
      ih (Nat.lor (Nat.shiftRight win 32) (Nat.shiftLeft w 480))
        (Nat.mod (Nat.lor (Nat.shiftLeft a 5) (Nat.shiftRight a 27)
           + Nat.xor (Nat.xor b c) d
           + e + k + w) 4294967296)
        a (Nat.mod (Nat.lor (Nat.shiftLeft b 30) (Nat.shiftRight b 2)) 4294967296) c d)
    n

/-- SHA-1 rounds with f = Maj, k = 0x8f1bbcdc. -/
def rounds3g : Nat → Nat → Nat → Nat → Nat → Nat → Nat → Nat × St5 :=
  fun n =>
  Nat.rec (motive := fun _ => Nat → Nat → Nat → Nat → Nat → Nat → Nat × St5)
    (fun win a b c d e => (win, (a, b, c, d, e)))
    (fun _ ih win a b c d e =>
      let w := nextW win
      ih (Nat.lor (Nat.shiftRight win 32) (Nat.shiftLeft w 480))
        (Nat.mod (Nat.lor (Nat.shiftLeft a 5) (Nat.shiftRight a 27)
           + Nat.lor (Nat.lor (Nat.land b c) (Nat.land b d)) (Nat.land c d)
           + e + 2400959708 + w) 4294967296)
        a (Nat.mod (Nat.lor (Nat.shiftLeft b 30) (Nat.shiftRight b 2)) 4294967296) c d)
    n

/-- SHA-1 compression of one 512-bit block. -/
def sha1CompressP (st : St5) (blk : Nat) : St5 :=
  match st with
  | (h0, h1, h2, h3, h4) =>
    match roundsLoad 16 blk 0 h0 h1 h2 h3 h4 with
    | (win, (a, b, c, d, e)) =>
      match rounds1g 4 win a b c d e with
      | (win, (a, b, c, d, e)) =>
        match rounds2g 20 1859775393 win a b c d e with
        | (win, (a, b, c, d, e)) =>
          match rounds3g 20 win a b c d e with
          | (win, (a, b, c, d, e)) =>
            match rounds2g 20 3395469782 win a b c d e with
            | (_, (a, b, c, d, e)) =>
              (Nat.mod (h0 + a) 4294967296, Nat.mod (h1 + b) 4294967296,
               Nat.mod (h2 + c) 4294967296, Nat.mod (h3 + d) 4294967296,
               Nat.mod (h4 + e) 4294967296)

/-- Compress the padded blocks, most significant (first) block first. -/
def sha1Go (p : Nat) : Nat → St5 → St5 :=
  Nat.rec (motive := fun _ => St5 → St5)
    (fun st => st)
    (fun n ih st => ih (sha1CompressP st (Nat.land (Nat.shiftRight p (512 * n)) blkMask)))

/-- SHA-1 digest of a byte string (FIPS 180-1), modelling the external
`sha1` crate used by the library. -/
def sha1 (msg : List Nat) : List Nat :=
  match shaPadPack msg with
  | (p, nblocks) =>
    match sha1Go p nblocks (1732584193, 4023233417, 2562383102, 271733878, 3285377520) with
    | (h0, h1, h2, h3, h4) =>
      [Nat.land (Nat.shiftRight h0 24) 255, Nat.land (Nat.shiftRight h0 16) 255,
       Nat.land (Nat.shiftRight h0 8) 255, Nat.land h0 255,
       Nat.land (Nat.shiftRight h1 24) 255, Nat.land (Nat.shiftRight h1 16) 255,
       Nat.land (Nat.shiftRight h1 8) 255, Nat.land h1 255,
       Nat.land (Nat.shiftRight h2 24) 255, Nat.land (Nat.shiftRight h2 16) 255,
       Nat.land (Nat.shiftRight h2 8) 255, Nat.land h2 255,
       Nat.land (Nat.shiftRight h3 24) 255, Nat.land (Nat.shiftRight h3 16) 255,
       Nat.land (Nat.shiftRight h3 8) 255, Nat.land h3 255,
       Nat.land (Nat.shiftRight h4 24) 255, Nat.land (Nat.shiftRight h4 16) 255,
       Nat.land (Nat.shiftRight h4 8) 255, Nat.land h4 255]

/-! ### SHA-256 (FIPS 180-4), modelling the external `sha2` crate -/

/-- 32-bit right rotation. -/
def ror32 (s x : Nat) : Nat :=
  Nat.mod (Nat.lor (Nat.shiftRight x s) (Nat.shiftLeft x (32 - s))) 4294967296

/-- The 64 SHA-256 round constants, word t at bits 32*t. -/
def sha256K : Nat := 25051139735836467913601071899189108501681633092613316132753366958947502841281110980347811086624969305314199562795868290539880502533646505489797110349007385020507326982043050618112420254613810441709594605123090411975756494285771699200369901479195251226368983824020564277645963860728452821576845901498668417244438721537663670541944820957180957595559282976806173113161068298822071065329290006052849814285001949914564097058408480133985233335799884203712730341384999677089997083749077591931498939520449886954646413138343858395935213418018409268340744776361518554939863400075967197509182087778881547827184266701615699472280

/-- Word t of a packed little-word-order schedule. -/
def pword (w t : Nat) : Nat := Nat.land (Nat.shiftRight w (32 * t)) 4294967295

/-- SHA-256 message schedule, packed (word t at bits 32*t). -/
def sha256Sched (blk : Nat) : Nat :=
  let w16 := Nat.rec (motive := fun _ => Nat) 0
    (fun n acc => Nat.lor acc
      (Nat.shiftLeft (Nat.land (Nat.shiftRight blk (32 * (15 - n))) 4294967295) (32 * n))) 16
  Nat.rec (motive := fun _ => Nat) w16
    (fun n acc =>
      let t := 16 + n
      let x15 := pword acc (t - 15)
      let x2 := pword acc (t - 2)
      let s0 := Nat.xor (Nat.xor (ror32 7 x15) (ror32 18 x15)) (Nat.shiftRight x15 3)
      let s1 := Nat.xor (Nat.xor (ror32 17 x2) (ror32 19 x2)) (Nat.shiftRight x2 10)
      Nat.lor acc (Nat.shiftLeft
        (Nat.mod (pword acc (t - 16) + s0 + pword acc (t - 7) + s1) 4294967296)
        (32 * t))) 48

/-- Eight 32-bit words of SHA-256 state. -/
abbrev St8 := Nat × Nat × Nat × Nat × Nat × Nat × Nat × Nat

/-- The 64 SHA-256 rounds over a packed schedule. -/
def sha256Rounds (w : Nat) : Nat → Nat → St8 → St8 :=
  Nat.rec (motive := fun _ => Nat → St8 → St8)
    (fun _ st => st)
    (fun _ ih t st =>
      match st with
      | (a, b, c, d, e, f, g, h) =>
        let s1 := Nat.xor (Nat.xor (ror32 6 e) (ror32 11 e)) (ror32 25 e)
        let ch := Nat.xor (Nat.land e f) (Nat.land (Nat.xor e 4294967295) g)
        let t1 := h + s1 + ch + pword sha256K t + pword w t
        let s0 := Nat.xor (Nat.xor (ror32 2 a) (ror32 13 a)) (ror32 22 a)
        let mj := Nat.xor (Nat.xor (Nat.land a b) (Nat.land a c)) (Nat.land b c)
        ih (t + 1)
          (Nat.mod (t1 + s0 + mj) 4294967296, a, b, c,
           Nat.mod (d + t1) 4294967296, e, f, g))

/-- SHA-256 compression of one 512-bit block. -/
def sha256CompressP (st : St8) (blk : Nat) : St8 :=
  match st with
  | (h0, h1, h2, h3, h4, h5, h6, h7) =>
    match sha256Rounds (sha256Sched blk) 64 0 st with
    | (a, b, c, d, e, f, g, h) =>
      (Nat.mod (h0 + a) 4294967296, Nat.mod (h1 + b) 4294967296,
       Nat.mod (h2 + c) 4294967296, Nat.mod (h3 + d) 4294967296,
       Nat.mod (h4 + e) 4294967296, Nat.mod (h5 + f) 4294967296,
       Nat.mod (h6 + g) 4294967296, Nat.mod (h7 + h) 4294967296)

/-- Compress the padded blocks for SHA-256. -/
def sha256Go (p : Nat) : Nat → St8 → St8 :=
  Nat.rec (motive := fun _ => St8 → St8)
    (fun st => st)
    (fun n ih st => ih (sha256CompressP st (Nat.land (Nat.shiftRight p (512 * n)) blkMask)))

/-- Big-endian bytes of one 32-bit word. -/
def w32bytes (w : Nat) : List Nat :=
  [Nat.land (Nat.shiftRight w 24) 255, Nat.land (Nat.shiftRight w 16) 255,
   Nat.land (Nat.shiftRight w 8) 255, Nat.land w 255]

/-- SHA-256 digest of a byte string (FIPS 180-4), modelling the external
`sha2` crate used by the library. -/
def sha256 (msg : List Nat) : List Nat :=
  match shaPadPack msg with
  | (p, nblocks) =>
    match sha256Go p nblocks
        (1779033703, 3144134277, 1013904242, 2773480762,
         1359893119, 2600822924, 528734635, 1541459225) with
    | (h0, h1, h2, h3, h4, h5, h6, h7) =>
      w32bytes h0 ++ w32bytes h1 ++ w32bytes h2 ++ w32bytes h3 ++
      w32bytes h4 ++ w32bytes h5 ++ w32bytes h6 ++ w32bytes h7

/-! ### HMAC (RFC 2104) and PBKDF2 (RFC 8018), modelling the hmac and
pbkdf2 crates -/

/-- HMAC over a hash with 64-byte block size. -/
def hmac (H : List Nat → List Nat) (key msg : List Nat) : List Nat :=
  let k0 := if 64 < key.length then H key else key
  let kpad := k0 ++ List.replicate (64 - k0.length) 0
  H ((kpad.map (fun b => Nat.xor b 92)) ++ H ((kpad.map (fun b => Nat.xor b 54)) ++ msg))

def hmacSha1 (key msg : List Nat) : List Nat := hmac sha1 key msg

def hmacSha256 (key msg : List Nat) : List Nat := hmac sha256 key msg

/-- Big-endian 4-byte encoding of a block index. -/
def be32 (n : Nat) : List Nat :=
  [Nat.land (Nat.shiftRight n 24) 255, Nat.land (Nat.shiftRight n 16) 255,
   Nat.land (Nat.shiftRight n 8) 255, Nat.land n 255]

/-- xor of two byte strings, pointwise. -/
def xorBytes : List Nat → List Nat → List Nat
  | [], _ => []
  | _, [] => []
  | a :: as_, b :: bs => Nat.xor a b :: xorBytes as_ bs

/-- Inner PBKDF2 iteration: c-1 further applications of the PRF, xored in. -/
def pbkdf2Inner (prf : List Nat → List Nat → List Nat) (pw : List Nat) :
    Nat → List Nat → List Nat → List Nat
  | 0, _, t => t
  | n + 1, u, t =>
    let u2 := prf pw u
    pbkdf2Inner prf pw n u2 (xorBytes t u2)

/-- One PBKDF2 block T_i. -/
def pbkdf2Block (prf : List Nat → List Nat → List Nat) (pw salt : List Nat)
    (c i : Nat) : List Nat :=
  let u1 := prf pw (salt ++ be32 i)
  pbkdf2Inner prf pw (c - 1) u1 u1

/-- Concatenate blocks T_1..T_n. -/
def pbkdf2Blocks (prf : List Nat → List Nat → List Nat) (pw salt : List Nat)
    (c : Nat) : Nat → List Nat
  | 0 => []
  | n + 1 => pbkdf2Blocks prf pw salt c n ++ pbkdf2Block prf pw salt c n.succ

/-- PBKDF2 (RFC 8018) with the given PRF of digest length hLen, modelling
`pbkdf2::pbkdf2_hmac`; zero rounds behaves as one round, as in the crate. -/
def pbkdf2Hmac (prf : List Nat → List Nat → List Nat) (hLen : Nat)
    (pw salt : List Nat) (c dkLen : Nat) : List Nat :=
  (pbkdf2Blocks prf pw salt c ((dkLen + hLen - 1) / hLen)).take dkLen

/-! ## Unicode string model: Rust `&str` as a list of scalar values -/

/-- Rust `char::encode_utf16`: UTF-16 code units of one scalar value. -/
def utf16Char (c : Nat) : List Nat :=
  if c < 65536 then [c]
  else [55296 + (c - 65536) / 1024, 56320 + (c - 65536) % 1024]

/-- Rust `str::encode_utf16` over the scalar values of a string. -/
def utf16unitsOf (s : List Nat) : List Nat := s.flatMap utf16Char

/-- UTF-8 encoding of one scalar value. -/
def utf8Char (c : Nat) : List Nat :=
  if c < 128 then [c]
  else if c < 2048 then
    [192 + c / 64, 128 + c % 64]
  else if c < 65536 then
    [224 + c / 4096, 128 + c / 64 % 64, 128 + c % 64]
  else
    [240 + c / 262144, 128 + c / 4096 % 64, 128 + c / 64 % 64, 128 + c % 64]

/-- Rust `str::as_bytes`: the UTF-8 bytes of a string. -/
def utf8Encode (s : List Nat) : List Nat := s.flatMap utf8Char

/-- Is b a UTF-8 continuation byte, and its payload. -/
def utf8Cont (b : Nat) : Bool := decide (128 ≤ b ∧ b < 192)

/-- Rust `str::from_utf8`, strict (overlongs, surrogates and values above
0x10FFFF rejected): decode bytes to scalar values, `none` on invalid. -/
def utf8Decode : List Nat → Option (List Nat)
  | [] => some []
  | b :: rest =>
    if b < 128 then
      (utf8Decode rest).map (fun s => b :: s)
    else if b < 194 then none
    else if b < 224 then
      match rest with
      | c1 :: r2 =>
        if utf8Cont c1 then
          (utf8Decode r2).map (fun s => ((b - 192) * 64 + (c1 - 128)) :: s)
        else none
      | _ => none
    else if b < 240 then
      match rest with
      | c1 :: c2 :: r2 =>
        if utf8Cont c1 && utf8Cont c2 then
          let v := ((b - 224) * 64 + (c1 - 128)) * 64 + (c2 - 128)
          if 2048 ≤ v ∧ ¬ (55296 ≤ v ∧ v < 57344) then
            (utf8Decode r2).map (fun s => v :: s)
          else none
        else none
      | _ => none
    else if b < 245 then
      match rest with
      | c1 :: c2 :: c3 :: r2 =>
        if utf8Cont c1 && utf8Cont c2 && utf8Cont c3 then
          let v := (((b - 240) * 64 + (c1 - 128)) * 64 + (c2 - 128)) * 64 + (c3 - 128)
          if 65536 ≤ v ∧ v < 1114112 then
            (utf8Decode r2).map (fun s => v :: s)
          else none
        else none
      | _ => none
    else none

/-- The library's `bmp_string` (src/src/lib.rs): UTF-16 big-endian bytes of
the string pushed two per code unit, then two NUL bytes appended
unconditionally. -/
def bmp_string (s : List Nat) : List Nat :=
  (utf16unitsOf s).foldl (fun bytes c => bytes ++ [c / 256, c % 256]) [] ++ [0, 0]

/-! ## The PKCS#12 object model (src/src/lib.rs data types)

Object identifiers are lists of components, as produced by
`ObjectIdentifier::from_slice`. -/

def OID_DATA_CONTENT_TYPE : List Nat := [1, 2, 840, 113549, 1, 7, 1]
def OID_ENCRYPTED_DATA_CONTENT_TYPE : List Nat := [1, 2, 840, 113549, 1, 7, 6]
def OID_FRIENDLY_NAME : List Nat := [1, 2, 840, 113549, 1, 9, 20]
def OID_LOCAL_KEY_ID : List Nat := [1, 2, 840, 113549, 1, 9, 21]
def OID_CERT_TYPE_X509_CERTIFICATE : List Nat := [1, 2, 840, 113549, 1, 9, 22, 1]
def OID_CERT_TYPE_SDSI_CERTIFICATE : List Nat := [1, 2, 840, 113549, 1, 9, 22, 2]
def OID_PBE_WITH_SHA_AND3_KEY_TRIPLE_DESCBC : List Nat := [1, 2, 840, 113549, 1, 12, 1, 3]
def OID_SHA1 : List Nat := [1, 3, 14, 3, 2, 26]
def OID_HMAC_WITH_SHA1 : List Nat := [1, 2, 840, 113549, 2]
def OID_HMAC_WITH_SHA256 : List Nat := [1, 2, 840, 113549, 2, 9]
def OID_PBES2 : List Nat := [1, 2, 840, 113549, 1, 5, 13]
def OID_PBKDF2 : List Nat := [1, 2, 840, 113549, 1, 5, 12]
def OID_SHA2 : List Nat := [2, 16, 840, 1, 101, 3, 4, 2, 1]
def OID_PBE_WITH_SHA1_AND40_BIT_RC2_CBC : List Nat := [1, 2, 840, 113549, 1, 12, 1, 6]
def OID_AES_CBC_PAD : List Nat := [2, 16, 840, 1, 101, 3, 4, 1, 42]
def OID_PKCS8_SHROUDED_KEY_BAG : List Nat := [1, 2, 840, 113549, 1, 12, 10, 1, 2]
def OID_CERT_BAG : List Nat := [1, 2, 840, 113549, 1, 12, 10, 1, 3]

/-- `const ITERATIONS: u64 = 2048`. -/
def ITERATIONS : Nat := 2048

structure Pkcs12PbeParams where
  salt : List Nat
  iterations : Nat
deriving DecidableEq

structure OtherAlgorithmIdentifier where
  algorithm_type : List Nat
  params : Option (List Nat)
deriving DecidableEq

mutual

inductive AlgorithmIdentifier where
  | Sha1 : AlgorithmIdentifier
  | Sha2 : AlgorithmIdentifier
  | HmacWithSha1 (params : Option (List Nat)) : AlgorithmIdentifier
  | HmacWithSha256 (params : Option (List Nat)) : AlgorithmIdentifier
  | PbewithSHAAnd40BitRC2CBC (p : Pkcs12PbeParams) : AlgorithmIdentifier
  | PbeWithSHAAnd3KeyTripleDESCBC (p : Pkcs12PbeParams) : AlgorithmIdentifier
  | Pbes2 (p : Pkcs12Pbes2Params) : AlgorithmIdentifier
  | Pbkdf2 (p : Pbkdf2Params) : AlgorithmIdentifier
  | AesCbcPad (iv : List Nat) : AlgorithmIdentifier
  | OtherAlg (o : OtherAlgorithmIdentifier) : AlgorithmIdentifier

inductive Pkcs12Pbes2Params where
  | mk (key_derivation_function : AlgorithmIdentifier)
       (encryption_scheme : AlgorithmIdentifier) : Pkcs12Pbes2Params

inductive Pbkdf2Params where
  | mk (salt : Pbkdf2Salt) (iteration_count : Nat) (key_length : Option Nat)
       (prf : AlgorithmIdentifier) : Pbkdf2Params

inductive Pbkdf2Salt where
  | Specified (v : List Nat) : Pbkdf2Salt
  | OtherSource (a : AlgorithmIdentifier) : Pbkdf2Salt

end

deriving instance DecidableEq for AlgorithmIdentifier
deriving instance DecidableEq for Pkcs12Pbes2Params
deriving instance DecidableEq for Pbkdf2Params
deriving instance DecidableEq for Pbkdf2Salt

def Pkcs12Pbes2Params.key_derivation_function : Pkcs12Pbes2Params -> AlgorithmIdentifier
  | .mk k _ => k

def Pkcs12Pbes2Params.encryption_scheme : Pkcs12Pbes2Params -> AlgorithmIdentifier
  | .mk _ e => e

def Pbkdf2Params.salt : Pbkdf2Params -> Pbkdf2Salt
  | .mk s _ _ _ => s

def Pbkdf2Params.iteration_count : Pbkdf2Params -> Nat
  | .mk _ i _ _ => i

def Pbkdf2Params.key_length : Pbkdf2Params -> Option Nat
  | .mk _ _ k _ => k

def Pbkdf2Params.prf : Pbkdf2Params -> AlgorithmIdentifier
  | .mk _ _ _ p => p

structure EncryptedContentInfo where
  content_encryption_algorithm : AlgorithmIdentifier
  encrypted_content : List Nat
deriving DecidableEq

structure EncryptedData where
  encrypted_content_info : EncryptedContentInfo
deriving DecidableEq

structure OtherContext where
  content_type : List Nat
  content : List Nat
deriving DecidableEq

inductive ContentInfo where
  | Data (data : List Nat) : ContentInfo
  | EncryptedData (e : EncryptedData) : ContentInfo
  | OtherContext (o : OtherContext) : ContentInfo
deriving DecidableEq

inductive CertBag where
  | X509 (data : List Nat) : CertBag
  | SDSI (s : List Nat) : CertBag
deriving DecidableEq

structure EncryptedPrivateKeyInfo where
  encryption_algorithm : AlgorithmIdentifier
  encrypted_data : List Nat
deriving DecidableEq

structure OtherBag where
  bag_id : List Nat
  bag_value : List Nat
deriving DecidableEq

inductive SafeBagKind where
  | Pkcs8ShroudedKeyBag (e : EncryptedPrivateKeyInfo) : SafeBagKind
  | CertBag (c : CertBag) : SafeBagKind
  | OtherBagKind (o : OtherBag) : SafeBagKind
deriving DecidableEq

structure OtherAttribute where
  oid : List Nat
  data : List (List Nat)
deriving DecidableEq

inductive PKCS12Attribute where
  | FriendlyName (s : List Nat) : PKCS12Attribute
  | LocalKeyId (id : List Nat) : PKCS12Attribute
  | Other (o : OtherAttribute) : PKCS12Attribute
deriving DecidableEq

structure SafeBag where
  bag : SafeBagKind
  attributes : List PKCS12Attribute
deriving DecidableEq

structure DigestInfo where
  digest_algorithm : AlgorithmIdentifier
  digest : List Nat
deriving DecidableEq

structure MacData where
  mac : DigestInfo
  salt : List Nat
  iterations : Nat
deriving DecidableEq

structure PFX where
  version : Nat
  auth_safe : ContentInfo
  mac_data : Option MacData
deriving DecidableEq

/-! ## DER writer, modelling the yasna codec collaborator

Each `write` returns the full DER TLV byte string the yasna writer would
emit (definite lengths, minimal encodings).  SET OF element sorting is not
modelled: the embedded writers emit set elements in the order written,
which is all the claims depend on. -/

/-- Minimal big-endian bytes of n (empty for 0), fuel-driven. -/
def natBEAux : Nat → Nat → List Nat
  | 0, _ => []
  | fuel + 1, n => if n = 0 then [] else natBEAux fuel (n / 256) ++ [n % 256]

def natBEBytes (n : Nat) : List Nat := natBEAux (n + 1) n

/-- DER length octets. -/
def derLen (n : Nat) : List Nat :=
  if n < 128 then [n] else
    let bs := natBEBytes n
    (128 + bs.length) :: bs

/-- One DER TLV. -/
def tlv (tag : Nat) (body : List Nat) : List Nat := tag :: derLen body.length ++ body

/-- Base-128 encoding of one OID component, high bit set on all but the
last octet. -/
def base128Aux : Nat → Nat → List Nat
  | 0, _ => []
  | fuel + 1, n => if n = 0 then [] else base128Aux fuel (n / 128) ++ [128 + n % 128]

def base128 (n : Nat) : List Nat :=
  if n < 128 then [n] else base128Aux (n + 1) (n / 128) ++ [n % 128]

/-- DER encoding of an OBJECT IDENTIFIER given its components. -/
def oidBytes (oid : List Nat) : List Nat :=
  match oid with
  | c0 :: c1 :: rest => tlv 6 (base128 (40 * c0 + c1) ++ rest.flatMap base128)
  | _ => tlv 6 []

/-- DER INTEGER of a nonnegative value (`write_u8`/`write_u32`/`write_u64`). -/
def derInt (n : Nat) : List Nat :=
  if n = 0 then tlv 2 [0] else
    let bs := natBEBytes n
    tlv 2 (if 128 ≤ bs.headD 0 then 0 :: bs else bs)

def derNull : List Nat := [5, 0]

def derOctets (b : List Nat) : List Nat := tlv 4 b

/-- Explicitly tagged `[0]` (constructed context tag 0xA0). -/
def derTagged0 (inner : List Nat) : List Nat := tlv 160 inner

/-- Implicitly tagged `[0]` OCTET STRING (primitive context tag 0x80). -/
def derTagged0Imp (b : List Nat) : List Nat := tlv 128 b

/-- `write_bmp_string`: UTF-16BE content, no added terminator. -/
def derBmpString (s : List Nat) : List Nat :=
  tlv 30 ((utf16unitsOf s).flatMap (fun u => [u / 256, u % 256]))

/-- `write_ia5_string`: ASCII content. -/
def derIa5String (s : List Nat) : List Nat := tlv 22 s

def derSeq (body : List Nat) : List Nat := tlv 48 body

def derSet (body : List Nat) : List Nat := tlv 49 body

/-! ## DER writers of the model types (the `write` methods) -/

def Pkcs12PbeParams.write (p : Pkcs12PbeParams) : List Nat :=
  derSeq (derOctets p.salt ++ derInt p.iterations)

mutual

/-- `AlgorithmIdentifier::write`.  Note: the Hmac variants emit a present
parameter blob with `write_bytes` (an OCTET STRING wrapper), while
`OtherAlg` emits its blob with `write_der` (verbatim). -/
def AlgorithmIdentifier.write : AlgorithmIdentifier → List Nat
  | .Sha1 => derSeq (oidBytes OID_SHA1 ++ derNull)
  | .Sha2 => derSeq (oidBytes OID_SHA2 ++ derNull)
  | .PbewithSHAAnd40BitRC2CBC p =>
      derSeq (oidBytes OID_PBE_WITH_SHA1_AND40_BIT_RC2_CBC ++ p.write)
  | .PbeWithSHAAnd3KeyTripleDESCBC p =>
      derSeq (oidBytes OID_PBE_WITH_SHA_AND3_KEY_TRIPLE_DESCBC ++ p.write)
  | .Pbes2 p => derSeq (oidBytes OID_PBES2 ++ p.write)
  | .OtherAlg o =>
      derSeq (oidBytes o.algorithm_type ++
        (match o.params with | some der => der | none => []))
  | .AesCbcPad iv => derSeq (oidBytes OID_AES_CBC_PAD ++ derOctets iv)
  | .HmacWithSha1 r =>
      derSeq (oidBytes OID_HMAC_WITH_SHA1 ++
        (match r with | some bs => derOctets bs | none => []))
  | .HmacWithSha256 r =>
      derSeq (oidBytes OID_HMAC_WITH_SHA256 ++
        (match r with | some bs => derOctets bs | none => []))
  | .Pbkdf2 p => derSeq (oidBytes OID_PBKDF2 ++ p.write)

/-- `Pkcs12Pbes2Params::write`. -/
def Pkcs12Pbes2Params.write : Pkcs12Pbes2Params → List Nat
  | .mk kdf scheme => derSeq (kdf.write ++ scheme.write)

/-- `Pbkdf2Params::write`. -/
def Pbkdf2Params.write : Pbkdf2Params → List Nat
  | .mk salt ic kl prf =>
      derSeq (salt.write ++ derInt ic ++
        (match kl with | some n => derInt n | none => []) ++ prf.write)

/-- `Pbkdf2Salt::write`. -/
def Pbkdf2Salt.write : Pbkdf2Salt → List Nat
  | .Specified v => derOctets v
  | .OtherSource a => a.write

end

def EncryptedContentInfo.write (e : EncryptedContentInfo) : List Nat :=
  derSeq (oidBytes OID_DATA_CONTENT_TYPE ++
    e.content_encryption_algorithm.write ++ derTagged0Imp e.encrypted_content)

def EncryptedData.write (e : EncryptedData) : List Nat :=
  derSeq (derInt 0 ++ e.encrypted_content_info.write)

def ContentInfo.write : ContentInfo → List Nat
  | .Data data => derSeq (oidBytes OID_DATA_CONTENT_TYPE ++ derTagged0 (derOctets data))
  | .EncryptedData e => derSeq (oidBytes OID_ENCRYPTED_DATA_CONTENT_TYPE ++ derTagged0 e.write)
  | .OtherContext o => derSeq (oidBytes o.content_type ++ derTagged0 o.content)

def CertBag.write : CertBag → List Nat
  | .X509 x509 => derSeq (oidBytes OID_CERT_TYPE_X509_CERTIFICATE ++ derTagged0 (derOctets x509))
  | .SDSI sdsi => derSeq (oidBytes OID_CERT_TYPE_SDSI_CERTIFICATE ++ derTagged0 (derIa5String sdsi))

def EncryptedPrivateKeyInfo.write (e : EncryptedPrivateKeyInfo) : List Nat :=
  derSeq (e.encryption_algorithm.write ++ derOctets e.encrypted_data)

def SafeBagKind.write : SafeBagKind → List Nat
  | .Pkcs8ShroudedKeyBag epk => epk.write
  | .CertBag cb => cb.write
  | .OtherBagKind other => other.bag_value

def SafeBagKind.oid : SafeBagKind → List Nat
  | .Pkcs8ShroudedKeyBag _ => OID_PKCS8_SHROUDED_KEY_BAG
  | .CertBag _ => OID_CERT_BAG
  | .OtherBagKind other => other.bag_id

def PKCS12Attribute.write : PKCS12Attribute → List Nat
  | .FriendlyName name =>
      derSeq (oidBytes OID_FRIENDLY_NAME ++ derSet (derBmpString name))
  | .LocalKeyId id =>
      derSeq (oidBytes OID_LOCAL_KEY_ID ++ derSet (derOctets id))
  | .Other other =>
      derSeq (oidBytes other.oid ++ derSet (other.data.flatMap (fun bytes => bytes)))

def SafeBag.write (sb : SafeBag) : List Nat :=
  derSeq (oidBytes sb.bag.oid ++ derTagged0 sb.bag.write ++
    (if sb.attributes.isEmpty then []
     else derSet ((sb.attributes.map PKCS12Attribute.write).flatMap (fun b => b))))

def DigestInfo.write (d : DigestInfo) : List Nat :=
  derSeq (d.digest_algorithm.write ++ derOctets d.digest)

def MacData.write (m : MacData) : List Nat :=
  derSeq (m.mac.write ++ derOctets m.salt ++ derInt m.iterations)

def PFX.write (p : PFX) : List Nat :=
  derSeq (derInt p.version ++ p.auth_safe.write ++
    (match p.mac_data with | some m => m.write | none => []))

/-- `construct_der(|w| w.write_sequence_of(..))` over pre-rendered elements. -/
def derSeqOf (elems : List (List Nat)) : List Nat := derSeq (elems.flatMap (fun b => b))

/-! ## BER reader, modelling the yasna codec collaborator

The parser functions mirror the `parse` methods; the reader model covers
the definite-length (DER) fragment of BER, which is what the library's own
writer produces.  A reader step returns the parsed value and the unread
rest; `Except.error ()` is an `ASN1Error`. -/

/-- Split one definite-length TLV into tag, body and trailing rest. -/
def splitTLV (l : List Nat) : Except Unit (Nat × List Nat × List Nat) :=
  match l with
  | t :: l1 :: rest =>
    if l1 < 128 then
      if l1 ≤ rest.length then .ok (t, rest.take l1, rest.drop l1) else .error ()
    else
      let n := l1 - 128
      if n = 0 ∨ rest.length < n then .error () else
        let len := (rest.take n).foldl (fun acc b => acc * 256 + b) 0
        let body := rest.drop n
        if len ≤ body.length then .ok (t, body.take len, body.drop len) else .error ()
  | _ => .error ()

/-- The raw bytes of the next TLV together with the rest (`read_der`). -/
def readRawTLV (l : List Nat) : Except Unit (List Nat × List Nat) :=
  match splitTLV l with
  | .ok (_, body, rest) => .ok (l.take (l.length - rest.length), rest)
  | .error _ => .error ()

/-- Decode base-128 subidentifiers of an OID body. -/
def oidGroups : Nat → List Nat → Nat → List Nat → Except Unit (List Nat)
  | 0, _, _, _ => .error ()
  | _ + 1, [], 0, acc => .ok acc.reverse
  | _ + 1, [], _, _ => .error ()
  | fuel + 1, b :: rest, cur, acc =>
    if b < 128 then oidGroups fuel rest 0 ((cur * 128 + b) :: acc)
    else oidGroups fuel rest (cur * 128 + (b - 128)) acc

/-- `read_oid`: OBJECT IDENTIFIER into its component list. -/
def readOid (l : List Nat) : Except Unit (List Nat × List Nat) :=
  match splitTLV l with
  | .ok (6, body, rest) =>
    (match oidGroups (body.length + 1) body 0 [] with
     | .ok (v :: comps) =>
        if v < 40 then .ok (0 :: v :: comps, rest)
        else if v < 80 then .ok (1 :: (v - 40) :: comps, rest)
        else .ok (2 :: (v - 80) :: comps, rest)
     | _ => .error ())
  | _ => .error ()

/-- `read_bytes`: primitive OCTET STRING. -/
def readBytes (l : List Nat) : Except Unit (List Nat × List Nat) :=
  match splitTLV l with
  | .ok (4, body, rest) => .ok (body, rest)
  | _ => .error ()

/-- `read_u64` / `read_u32` / `read_u8`: nonnegative INTEGER bounded by
the given limit. -/
def readUInt (limit : Nat) (l : List Nat) : Except Unit (Nat × List Nat) :=
  match splitTLV l with
  | .ok (2, body, rest) =>
    (match body with
     | [] => .error ()
     | b :: _ =>
       if 128 ≤ b then .error () else
         let v := body.foldl (fun acc x => acc * 256 + x) 0
         if v < limit then .ok (v, rest) else .error ())
  | _ => .error ()

/-- `read_null`. -/
def readNull (l : List Nat) : Except Unit (Unit × List Nat) :=
  match splitTLV l with
  | .ok (5, [], rest) => .ok ((), rest)
  | _ => .error ()

/-- Explicitly tagged `[0]`: unwrap tag 0xA0 and return its body and rest. -/
def readTagged0 (l : List Nat) : Except Unit (List Nat × List Nat) :=
  match splitTLV l with
  | .ok (160, body, rest) => .ok (body, rest)
  | _ => .error ()

/-- Implicitly tagged `[0]` OCTET STRING (primitive context tag 0x80). -/
def readTagged0ImpBytes (l : List Nat) : Except Unit (List Nat × List Nat) :=
  match splitTLV l with
  | .ok (128, body, rest) => .ok (body, rest)
  | _ => .error ()

/-- UTF-16BE code units of a BMPString body. -/
def utf16beUnits : List Nat → Except Unit (List Nat)
  | [] => .ok []
  | hi :: lo :: rest =>
    (utf16beUnits rest).map (fun us => (hi * 256 + lo) :: us)
  | _ => .error ()

/-- Combine UTF-16 code units into scalar values (surrogate pairs). -/
def utf16Combine : Nat → List Nat → Except Unit (List Nat)
  | 0, _ => .error ()
  | _ + 1, [] => .ok []
  | fuel + 1, u :: rest =>
    if u < 55296 ∨ 57344 ≤ u then
      (utf16Combine fuel rest).map (fun s => u :: s)
    else if u < 56320 then
      match rest with
      | u2 :: rest2 =>
        if 56320 ≤ u2 ∧ u2 < 57344 then
          (utf16Combine fuel rest2).map
            (fun s => (65536 + (u - 55296) * 1024 + (u2 - 56320)) :: s)
        else .error ()
      | [] => .error ()
    else .error ()

/-- `read_bmp_string`: BMPString into scalar values. -/
def readBmpString (l : List Nat) : Except Unit (List Nat × List Nat) :=
  match splitTLV l with
  | .ok (30, body, rest) =>
    (match utf16beUnits body with
     | .ok us =>
       (match utf16Combine (us.length + 1) us with
        | .ok s => .ok (s, rest)
        | .error _ => .error ())
     | .error _ => .error ())
  | _ => .error ()

/-- `read_ia5_string`. -/
def readIa5String (l : List Nat) : Except Unit (List Nat × List Nat) :=
  match splitTLV l with
  | .ok (22, body, rest) =>
    if body.all (fun b => b < 128) then .ok (body, rest) else .error ()
  | _ => .error ()

/-! ## Parsers of the model types (the `parse` methods)

Recursion through nested `AlgorithmIdentifier`s is fuel-driven; every
entry point supplies fuel larger than the input length. -/

/-- `Pkcs12PbeParams::parse`. -/
def Pkcs12PbeParams.parse (l : List Nat) : Except Unit (Pkcs12PbeParams × List Nat) :=
  match splitTLV l with
  | .ok (48, body, rest) =>
    (match readBytes body with
     | .ok (salt, b1) =>
       (match readUInt 18446744073709551616 b1 with
        | .ok (iterations, b2) =>
          if b2.isEmpty then .ok ({ salt := salt, iterations := iterations }, rest)
          else .error ()
        | .error _ => .error ())
     | .error _ => .error ())
  | _ => .error ()

mutual

/-- `AlgorithmIdentifier::parse`: dispatch on the leading OID, then read
the variant's parameters; unknown OIDs keep an optional raw DER blob. -/
def AlgorithmIdentifier.parse : Nat → List Nat → Except Unit (AlgorithmIdentifier × List Nat)
  | 0, _ => .error ()
  | fuel + 1, l =>
    match splitTLV l with
    | .ok (48, body, rest) =>
      (match readOid body with
       | .ok (algorithm_type, b1) =>
         if algorithm_type = OID_SHA1 then
           (if b1.isEmpty then .ok (.Sha1, rest)
            else match readNull b1 with
            | .ok (_, b2) => if b2.isEmpty then .ok (.Sha1, rest) else .error ()
            | .error _ => .error ())
         else if algorithm_type = OID_SHA2 then
           (if b1.isEmpty then .ok (.Sha2, rest)
            else match readNull b1 with
            | .ok (_, b2) => if b2.isEmpty then .ok (.Sha2, rest) else .error ()
            | .error _ => .error ())
         else if algorithm_type = OID_PBE_WITH_SHA1_AND40_BIT_RC2_CBC then
           (match Pkcs12PbeParams.parse b1 with
            | .ok (p, b2) =>
              if b2.isEmpty then .ok (.PbewithSHAAnd40BitRC2CBC p, rest) else .error ()
            | .error _ => .error ())
         else if algorithm_type = OID_PBE_WITH_SHA_AND3_KEY_TRIPLE_DESCBC then
           (match Pkcs12PbeParams.parse b1 with
            | .ok (p, b2) =>
              if b2.isEmpty then .ok (.PbeWithSHAAnd3KeyTripleDESCBC p, rest) else .error ()
            | .error _ => .error ())
         else if algorithm_type = OID_PBES2 then
           (match Pkcs12Pbes2Params.parse fuel b1 with
            | .ok (p, b2) => if b2.isEmpty then .ok (.Pbes2 p, rest) else .error ()
            | .error _ => .error ())
         else if algorithm_type = OID_PBKDF2 then
           (match Pbkdf2Params.parse fuel b1 with
            | .ok (p, b2) => if b2.isEmpty then .ok (.Pbkdf2 p, rest) else .error ()
            | .error _ => .error ())
         else if algorithm_type = OID_HMAC_WITH_SHA1 then
           (if b1.isEmpty then .ok (.HmacWithSha1 none, rest)
            else match readRawTLV b1 with
            | .ok (der, b2) =>
              if b2.isEmpty then .ok (.HmacWithSha1 (some der), rest) else .error ()
            | .error _ => .error ())
         else if algorithm_type = OID_HMAC_WITH_SHA256 then
           (if b1.isEmpty then .ok (.HmacWithSha256 none, rest)
            else match readRawTLV b1 with
            | .ok (der, b2) =>
              if b2.isEmpty then .ok (.HmacWithSha256 (some der), rest) else .error ()
            | .error _ => .error ())
         else if algorithm_type = OID_AES_CBC_PAD then
           (match readBytes b1 with
            | .ok (iv, b2) => if b2.isEmpty then .ok (.AesCbcPad iv, rest) else .error ()
            | .error _ => .error ())
         else
           (if b1.isEmpty then
              .ok (.OtherAlg { algorithm_type := algorithm_type, params := none }, rest)
            else match readRawTLV b1 with
            | .ok (der, b2) =>
              if b2.isEmpty then
                .ok (.OtherAlg { algorithm_type := algorithm_type, params := some der }, rest)
              else .error ()
            | .error _ => .error ())
       | .error _ => .error ())
    | _ => .error ()

/-- `Pkcs12Pbes2Params::parse`. -/
def Pkcs12Pbes2Params.parse : Nat → List Nat → Except Unit (Pkcs12Pbes2Params × List Nat)
  | 0, _ => .error ()
  | fuel + 1, l =>
    match splitTLV l with
    | .ok (48, body, rest) =>
      (match AlgorithmIdentifier.parse fuel body with
       | .ok (kdf, b1) =>
         (match AlgorithmIdentifier.parse fuel b1 with
          | .ok (scheme, b2) =>
            if b2.isEmpty then .ok (.mk kdf scheme, rest) else .error ()
          | .error _ => .error ())
       | .error _ => .error ())
    | _ => .error ()

/-- `Pbkdf2Params::parse`: `key_length` is `read_optional(read_u64)` and
`prf` is `read_default(HmacWithSha1(None), ..)`. -/
def Pbkdf2Params.parse : Nat → List Nat → Except Unit (Pbkdf2Params × List Nat)
  | 0, _ => .error ()
  | fuel + 1, l =>
    match splitTLV l with
    | .ok (48, body, rest) =>
      (match Pbkdf2Salt.parse fuel body with
       | .ok (salt, b1) =>
         (match readUInt 18446744073709551616 b1 with
          | .ok (ic, b2) =>
            let kl : Except Unit (Option Nat × List Nat) :=
              match b2 with
              | 2 :: _ =>
                (match readUInt 18446744073709551616 b2 with
                 | .ok (n, b3) => .ok (some n, b3)
                 | .error _ => .error ())
              | _ => .ok (none, b2)
            (match kl with
             | .ok (key_length, b3) =>
               if b3.isEmpty then
                 .ok (.mk salt ic key_length (.HmacWithSha1 none), rest)
               else
                 (match AlgorithmIdentifier.parse fuel b3 with
                  | .ok (prf, b4) =>
                    if b4.isEmpty then .ok (.mk salt ic key_length prf, rest)
                    else .error ()
                  | .error _ => .error ())
             | .error _ => .error ())
          | .error _ => .error ())
       | .error _ => .error ())
    | _ => .error ()

/-- `Pbkdf2Salt::parse`: lookahead on the OCTET STRING tag. -/
def Pbkdf2Salt.parse : Nat → List Nat → Except Unit (Pbkdf2Salt × List Nat)
  | 0, _ => .error ()
  | fuel + 1, l =>
    match l with
    | 4 :: _ =>
      (match readBytes l with
       | .ok (v, rest) => .ok (.Specified v, rest)
       | .error _ => .error ())
    | _ =>
      (match AlgorithmIdentifier.parse fuel l with
       | .ok (a, rest) => .ok (.OtherSource a, rest)
       | .error _ => .error ())

end

/-- Repeated application of a reader until the input is exhausted
(`collect_sequence_of` / `collect_set_of` body loop). -/
def parseMany {α : Type} (f : List Nat → Except Unit (α × List Nat)) :
    Nat → List Nat → Except Unit (List α)
  | 0, _ => .error ()
  | _ + 1, [] => .ok []
  | fuel + 1, l =>
    match f l with
    | .ok (a, rest) =>
      (match parseMany f fuel rest with
       | .ok as_ => .ok (a :: as_)
       | .error _ => .error ())
    | .error _ => .error ()

/-- `collect_set_of`: a SET OF TLV whose body is parsed by f. -/
def collectSetOf {α : Type} (f : List Nat → Except Unit (α × List Nat))
    (l : List Nat) : Except Unit (List α × List Nat) :=
  match splitTLV l with
  | .ok (49, body, rest) =>
    (match parseMany f (body.length + 1) body with
     | .ok as_ => .ok (as_, rest)
     | .error _ => .error ())
  | _ => .error ()

/-- `EncryptedContentInfo::parse`. -/
def EncryptedContentInfo.parse (l : List Nat) :
    Except Unit (EncryptedContentInfo × List Nat) :=
  match splitTLV l with
  | .ok (48, body, rest) =>
    (match readOid body with
     | .ok (_, b1) =>
       (match AlgorithmIdentifier.parse (b1.length + 1) b1 with
        | .ok (alg, b2) =>
          (match readTagged0ImpBytes b2 with
           | .ok (content, b3) =>
             if b3.isEmpty then
               .ok ({ content_encryption_algorithm := alg, encrypted_content := content }, rest)
             else .error ()
           | .error _ => .error ())
        | .error _ => .error ())
     | .error _ => .error ())
  | _ => .error ()

/-- `EncryptedData::parse` (the version byte is read and dropped). -/
def EncryptedData.parse (l : List Nat) : Except Unit (EncryptedData × List Nat) :=
  match splitTLV l with
  | .ok (48, body, rest) =>
    (match readUInt 256 body with
     | .ok (_, b1) =>
       (match EncryptedContentInfo.parse b1 with
        | .ok (eci, b2) =>
          if b2.isEmpty then .ok ({ encrypted_content_info := eci }, rest) else .error ()
        | .error _ => .error ())
     | .error _ => .error ())
  | _ => .error ()

/-- `ContentInfo::parse`. -/
def ContentInfo.parse (l : List Nat) : Except Unit (ContentInfo × List Nat) :=
  match splitTLV l with
  | .ok (48, body, rest) =>
    (match readOid body with
     | .ok (content_type, b1) =>
       if content_type = OID_DATA_CONTENT_TYPE then
         (match readTagged0 b1 with
          | .ok (inner, b2) =>
            (match readBytes inner with
             | .ok (data, i2) =>
               if i2.isEmpty ∧ b2.isEmpty then .ok (.Data data, rest) else .error ()
             | .error _ => .error ())
          | .error _ => .error ())
       else if content_type = OID_ENCRYPTED_DATA_CONTENT_TYPE then
         (match readTagged0 b1 with
          | .ok (inner, b2) =>
            (match EncryptedData.parse inner with
             | .ok (e, i2) =>
               if i2.isEmpty ∧ b2.isEmpty then .ok (.EncryptedData e, rest) else .error ()
             | .error _ => .error ())
          | .error _ => .error ())
       else
         (match readTagged0 b1 with
          | .ok (inner, b2) =>
            (match readRawTLV inner with
             | .ok (content, i2) =>
               if i2.isEmpty ∧ b2.isEmpty then
                 .ok (.OtherContext { content_type := content_type, content := content }, rest)
               else .error ()
             | .error _ => .error ())
          | .error _ => .error ())
     | .error _ => .error ())
  | _ => .error ()

/-- `CertBag::parse`. -/
def CertBag.parse (l : List Nat) : Except Unit (CertBag × List Nat) :=
  match splitTLV l with
  | .ok (48, body, rest) =>
    (match readOid body with
     | .ok (oid, b1) =>
       if oid = OID_CERT_TYPE_X509_CERTIFICATE then
         (match readTagged0 b1 with
          | .ok (inner, b2) =>
            (match readBytes inner with
             | .ok (x509, i2) =>
               if i2.isEmpty ∧ b2.isEmpty then .ok (.X509 x509, rest) else .error ()
             | .error _ => .error ())
          | .error _ => .error ())
       else if oid = OID_CERT_TYPE_SDSI_CERTIFICATE then
         (match readTagged0 b1 with
          | .ok (inner, b2) =>
            (match readIa5String inner with
             | .ok (sdsi, i2) =>
               if i2.isEmpty ∧ b2.isEmpty then .ok (.SDSI sdsi, rest) else .error ()
             | .error _ => .error ())
          | .error _ => .error ())
       else .error ()
     | .error _ => .error ())
  | _ => .error ()

/-- `EncryptedPrivateKeyInfo::parse`. -/
def EncryptedPrivateKeyInfo.parse (l : List Nat) :
    Except Unit (EncryptedPrivateKeyInfo × List Nat) :=
  match splitTLV l with
  | .ok (48, body, rest) =>
    (match AlgorithmIdentifier.parse (body.length + 1) body with
     | .ok (alg, b1) =>
       (match readBytes b1 with
        | .ok (data, b2) =>
          if b2.isEmpty then
            .ok ({ encryption_algorithm := alg, encrypted_data := data }, rest)
          else .error ()
        | .error _ => .error ())
     | .error _ => .error ())
  | _ => .error ()

/-- `SafeBagKind::parse`, given the bag id already read. -/
def SafeBagKind.parse (bag_id : List Nat) (l : List Nat) :
    Except Unit (SafeBagKind × List Nat) :=
  if bag_id = OID_CERT_BAG then
    (match CertBag.parse l with
     | .ok (cb, rest) => .ok (.CertBag cb, rest)
     | .error _ => .error ())
  else if bag_id = OID_PKCS8_SHROUDED_KEY_BAG then
    (match EncryptedPrivateKeyInfo.parse l with
     | .ok (e, rest) => .ok (.Pkcs8ShroudedKeyBag e, rest)
     | .error _ => .error ())
  else
    (match readRawTLV l with
     | .ok (bag_value, rest) =>
       .ok (.OtherBagKind { bag_id := bag_id, bag_value := bag_value }, rest)
     | .error _ => .error ())

/-- `PKCS12Attribute::parse`; `Vec::pop` takes the last collected value and
an empty value set is `Invalid`. -/
def PKCS12Attribute.parse (l : List Nat) : Except Unit (PKCS12Attribute × List Nat) :=
  match splitTLV l with
  | .ok (48, body, rest) =>
    (match readOid body with
     | .ok (oid, b1) =>
       if oid = OID_FRIENDLY_NAME then
         (match collectSetOf readBmpString b1 with
          | .ok (names, b2) =>
            (match names.getLast? with
             | some name =>
               if b2.isEmpty then .ok (.FriendlyName name, rest) else .error ()
             | none => .error ())
          | .error _ => .error ())
       else if oid = OID_LOCAL_KEY_ID then
         (match collectSetOf readBytes b1 with
          | .ok (ids, b2) =>
            (match ids.getLast? with
             | some id =>
               if b2.isEmpty then .ok (.LocalKeyId id, rest) else .error ()
             | none => .error ())
          | .error _ => .error ())
       else
         (match collectSetOf readRawTLV b1 with
          | .ok (data, b2) =>
            if b2.isEmpty then .ok (.Other { oid := oid, data := data }, rest)
            else .error ()
          | .error _ => .error ())
     | .error _ => .error ())
  | _ => .error ()

/-- `SafeBag::parse`. -/
def SafeBag.parse (l : List Nat) : Except Unit (SafeBag × List Nat) :=
  match splitTLV l with
  | .ok (48, body, rest) =>
    (match readOid body with
     | .ok (oid, b1) =>
       (match readTagged0 b1 with
        | .ok (inner, b2) =>
          (match SafeBagKind.parse oid inner with
           | .ok (bag, i2) =>
             if i2.isEmpty then
               (if b2.isEmpty then .ok ({ bag := bag, attributes := [] }, rest)
                else match collectSetOf PKCS12Attribute.parse b2 with
                | .ok (attrs, b3) =>
                  if b3.isEmpty then .ok ({ bag := bag, attributes := attrs }, rest)
                  else .error ()
                | .error _ => .error ())
             else .error ()
           | .error _ => .error ())
        | .error _ => .error ())
     | .error _ => .error ())
  | _ => .error ()

/-- `yasna::parse_ber(data, |r| r.collect_sequence_of(f))`: a SEQUENCE
consuming the whole input. -/
def parseSeqOfAll {α : Type} (f : List Nat → Except Unit (α × List Nat))
    (l : List Nat) : Except Unit (List α) :=
  match splitTLV l with
  | .ok (48, body, rest) =>
    if rest.isEmpty then parseMany f (body.length + 1) body else .error ()
  | _ => .error ()

/-! ## The PKCS#12 KDF (`pbepkcs12sha`, RFC 7292 B.2), from src/src/lib.rs -/

/-- Iterated hashing: `for _ in 0..iterations { ai = sha::<D>(&ai) }`. -/
def iterHash (H : List Nat → List Nat) : Nat → List Nat → List Nat
  | 0, x => x
  | n + 1, x => iterHash H n (H x)

/-- `pbepkcs12shacore`: hash `d || i` `iterations` times, append the result
to the accumulator, and also return it. -/
def pbepkcs12shacore (H : List Nat → List Nat) (d i a : List Nat) (iterations : Nat) :
    List Nat × List Nat :=
  let ai := iterHash H iterations (d ++ i)
  (a ++ ai, ai)

/-- `iter().cycle().take(n)`; an empty source yields nothing. -/
def cycleTake (l : List Nat) (n : Nat) : List Nat :=
  if l.isEmpty then [] else (List.range n).map (fun k => l.getD (k % l.length) 0)

/-- `get_len`: round up to a multiple of V = 64. -/
def get_len (s : Nat) : Nat := 64 * ((s + 64 - 1) / 64)

/-- The borrow-propagating byte loop over `i` reversed, zipped with the
cycled reversed `b`, with the carry reset to 1 at the start of every
64-byte chunk; both `overflowing_add`s taken literally from the source. -/
def kdfAddLoop (brev : List Nat) : List Nat → Nat → Nat → List Nat
  | [], _, _ => []
  | ii :: restRev, i3, inc0 =>
    let inc := if i3 % 64 = 0 then 1 else inc0
    let bi := brev.getD (i3 % 64) 0
    let ii2 := (ii + bi) % 256
    let inc2 := decide (256 ≤ ii + bi)
    let ii3 := (ii2 + inc) % 256
    let inc3 := decide (256 ≤ ii2 + inc)
    ii3 :: kdfAddLoop brev restRev (i3 + 1) (if inc2 || inc3 then 1 else 0)

/-- The update of `i` between chunks: `b` is `ai` cycled to 64 bytes, added
into each 64-byte block of `i` from the right with an extra 1. -/
def kdfUpdate (i ai : List Nat) : List Nat :=
  let b := cycleTake ai 64
  (kdfAddLoop b.reverse i.reverse 0 1).reverse

/-- The `for _ in 1..c` loop of `pbepkcs12sha`: each round hashes, extends
the accumulator and updates `i`. -/
def pbeMainLoop (H : List Nat → List Nat) (d : List Nat) (r : Nat) :
    Nat → List Nat × List Nat → List Nat × List Nat
  | 0, st => st
  | n + 1, (i, a) =>
    match pbepkcs12shacore H d i a r with
    | (a2, ai) => pbeMainLoop H d r n (kdfUpdate i ai, a2)

/-- `pbepkcs12sha` (src/src/lib.rs): the PKCS#12 key derivation function,
generic over the digest `H`; U = 20 and V = 64 are the source's hardcoded
constants (also under SHA-256).  The chunk count `c` is computed by the
source as `(size + U - 1) / U` in `u64`: the addition wraps at 2^64 (the
release-build semantics; a debug build would panic there instead), so the
sum is reduced mod 2^64 here. -/
def pbepkcs12sha (H : List Nat → List Nat) (pass salt : List Nat)
    (iterations : Nat) (id : Nat) (size : Nat) : List Nat :=
  let d := List.replicate 64 id
  let s := cycleTake salt (get_len salt.length)
  let p := cycleTake pass (get_len pass.length)
  let i := s ++ p
  let c := ((size + 20 - 1) % 18446744073709551616) / 20
  match pbeMainLoop H d iterations (c - 1) (i, []) with
  | (i2, a) =>
    match pbepkcs12shacore H d i2 a iterations with
    | (aF, _) => aF.take size

/-- Identity on byte lists; evaluating the packed checksum first forces
the list into literal form, keeping kernel reduction shallow.  Purely an
evaluation device (see `forceList_eq`). -/
def forceList (l : List Nat) : List Nat := cond (Nat.beq (packGo l 0 0).1 0) l l

/-- Forced-evaluation twin of `iterHash sha1`, used to compute the KDF
test-vector hash chains in bounded-depth chunks. -/
def sha1IterF (n : Nat) : List Nat → List Nat :=
  Nat.rec (motive := fun _ => List Nat → List Nat) (fun x => x)
    (fun _ ih x => ih (forceList (sha1 x))) n

/-! ## PBE engines, MAC and PFX operations (src/src/lib.rs)

`CipherPrims` models the block-cipher collaborators.  A decryptor returns
`none` for a cipher construction error or a PKCS#7 padding error,
mirroring `new_from_slices(..).ok()` / `decrypt_padded_vec_mut(..).ok()`;
an encryptor returns `none` only for a construction error. -/

structure CipherPrims where
  aesDec : List Nat → List Nat → List Nat → Option (List Nat)
  rc2Dec : List Nat → List Nat → List Nat → Option (List Nat)
  rc2Enc : List Nat → List Nat → List Nat → Option (List Nat)
  tdesDec : List Nat → List Nat → List Nat → Option (List Nat)
  tdesEnc : List Nat → List Nat → List Nat → Option (List Nat)

/-- `pbe_with_sha1_and40_bit_rc2_cbc`: RC2-40-CBC decrypt with a derived
5-byte key and 8-byte IV. -/
def pbe_with_sha1_and40_bit_rc2_cbc (prims : CipherPrims)
    (data password salt : List Nat) (iterations : Nat) : Option (List Nat) :=
  let dk := pbepkcs12sha sha1 password salt iterations 1 5
  let iv := pbepkcs12sha sha1 password salt iterations 2 8
  prims.rc2Dec dk iv data

/-- `pbe_with_sha_and40_bit_rc2_cbc_encrypt`, generic over the digest. -/
def pbe_with_sha_and40_bit_rc2_cbc_encrypt (prims : CipherPrims)
    (H : List Nat → List Nat) (data password salt : List Nat)
    (iterations : Nat) : Option (List Nat) :=
  let dk := pbepkcs12sha H password salt iterations 1 5
  let iv := pbepkcs12sha H password salt iterations 2 8
  prims.rc2Enc dk iv data

/-- `pbe_with_sha_and3_key_triple_des_cbc`: 3DES-EDE3-CBC decrypt with a
derived 24-byte key and 8-byte IV. -/
def pbe_with_sha_and3_key_triple_des_cbc (prims : CipherPrims)
    (data password salt : List Nat) (iterations : Nat) : Option (List Nat) :=
  let dk := pbepkcs12sha sha1 password salt iterations 1 24
  let iv := pbepkcs12sha sha1 password salt iterations 2 8
  prims.tdesDec dk iv data

/-- `pbe_with_sha_and3_key_triple_des_cbc_encrypt`. -/
def pbe_with_sha_and3_key_triple_des_cbc_encrypt (prims : CipherPrims)
    (data password salt : List Nat) (iterations : Nat) : Option (List Nat) :=
  let dk := pbepkcs12sha sha1 password salt iterations 1 24
  let iv := pbepkcs12sha sha1 password salt iterations 2 8
  prims.tdesEnc dk iv data

/-- `pbes2_decrypt` (src/src/lib.rs lines 502-533).  `Except.error ()` is
a panic: the source converts the key and IV slices with infallible `into()`
(panicking if the key is not 32 bytes or the IV not 16) and unwraps the
padding result with `expect("failed")`. -/
def pbes2_decrypt (prims : CipherPrims)
    (key_derivation_function encryption_scheme : AlgorithmIdentifier)
    (cipher_text password : List Nat) : Except Unit (Option (List Nat)) :=
  match key_derivation_function with
  | .Pbkdf2 params =>
    (match params.salt with
     | .Specified salt =>
       let key? : Option (List Nat) :=
         match params.prf with
         | .HmacWithSha1 _ =>
             some (pbkdf2Hmac hmacSha1 20 password salt
               (params.iteration_count % 4294967296) (params.key_length.getD 32))
         | .HmacWithSha256 _ =>
             some (pbkdf2Hmac hmacSha256 32 password salt
               (params.iteration_count % 4294967296) (params.key_length.getD 32))
         | _ => none
       (match key? with
        | none => .ok none
        | some key =>
          match encryption_scheme with
          | .AesCbcPad iv =>
            if key.length = 32 ∧ iv.length = 16 then
              match prims.aesDec key iv cipher_text with
              | some result => .ok (some result)
              | none => .error ()
            else .error ()
          | _ => .ok none)
     | _ => .ok none)
  | _ => .ok none

/-- `AlgorithmIdentifier::decrypt_pbe`.  The `OtherAlg` arm's
`debug_assert!(false)` is compiled out in release builds, leaving `None`. -/
def AlgorithmIdentifier.decrypt_pbe (prims : CipherPrims) :
    AlgorithmIdentifier → List Nat → List Nat → Except Unit (Option (List Nat))
  | .Sha1, _, _ => .ok none
  | .Sha2, _, _ => .ok none
  | .HmacWithSha1 _, _, _ => .ok none
  | .HmacWithSha256 _, _, _ => .ok none
  | .Pbkdf2 _, _, _ => .ok none
  | .AesCbcPad _, _, _ => .ok none
  | .Pbes2 p, ciphertext, password =>
      pbes2_decrypt prims p.key_derivation_function p.encryption_scheme ciphertext password
  | .PbewithSHAAnd40BitRC2CBC param, ciphertext, password =>
    (match utf8Decode password with
     | none => .ok none
     | some str =>
       .ok (pbe_with_sha1_and40_bit_rc2_cbc prims ciphertext (bmp_string str)
             param.salt param.iterations))
  | .PbeWithSHAAnd3KeyTripleDESCBC param, ciphertext, password =>
    (match utf8Decode password with
     | none => .ok none
     | some str =>
       .ok (pbe_with_sha_and3_key_triple_des_cbc prims ciphertext (bmp_string str)
             param.salt param.iterations))
  | .OtherAlg _, _, _ => .ok none

/-- `EncryptedContentInfo::data`. -/
def EncryptedContentInfo.data (prims : CipherPrims) (e : EncryptedContentInfo)
    (password : List Nat) : Except Unit (Option (List Nat)) :=
  AlgorithmIdentifier.decrypt_pbe prims e.content_encryption_algorithm
    e.encrypted_content password

/-- `EncryptedData::data`. -/
def EncryptedData.data (prims : CipherPrims) (e : EncryptedData)
    (password : List Nat) : Except Unit (Option (List Nat)) :=
  e.encrypted_content_info.data prims password

/-- `ContentInfo::data`: `Data` is the plaintext for any password,
`EncryptedData` decrypts, `OtherContext` yields `None`. -/
def ContentInfo.data (prims : CipherPrims) :
    ContentInfo → List Nat → Except Unit (Option (List Nat))
  | .Data d, _ => .ok (some d)
  | .EncryptedData encrypted, password => encrypted.data prims password
  | .OtherContext _, _ => .ok none

/-- `EncryptedPrivateKeyInfo::decrypt`. -/
def EncryptedPrivateKeyInfo.decrypt (prims : CipherPrims)
    (e : EncryptedPrivateKeyInfo) (password : List Nat) :
    Except Unit (Option (List Nat)) :=
  AlgorithmIdentifier.decrypt_pbe prims e.encryption_algorithm e.encrypted_data password

/-- `MacData::verify_mac`: derive the MAC key by the digest algorithm of
the stored DigestInfo and compare the HMAC; any other algorithm is
rejected (its debug assertion is compiled out). -/
def MacData.verify_mac (m : MacData) (data password : List Nat) : Bool :=
  match m.mac.digest_algorithm with
  | .Sha1 =>
    let key := pbepkcs12sha sha1 password m.salt m.iterations 3 20
    decide (hmacSha1 key data = m.mac.digest)
  | .Sha2 =>
    let key := pbepkcs12sha sha256 password m.salt m.iterations 3 32
    decide (hmacSha256 key data = m.mac.digest)
  | _ => false

/-- `MacData::new`: fresh 8-byte salt from the random source, 2048
iterations, 20-byte PKCS12-SHA/SHA-1 key with id 3 over the BMP-encoded
password, HMAC-SHA-1 digest.  `none` models the `from_utf8(..).unwrap()`
panic on a non-UTF-8 password. -/
def MacData.new (rng : Nat → Nat) (data password : List Nat) : Option MacData :=
  let salt := (List.range 8).map rng
  match utf8Decode password with
  | none => none
  | some pwStr =>
    let bmp := bmp_string pwStr
    let key := pbepkcs12sha sha1 bmp salt ITERATIONS 3 20
    some { mac := { digest_algorithm := .Sha1, digest := hmacSha1 key data },
           salt := salt, iterations := ITERATIONS }

/-- `PFX::verify_mac` (src/src/lib.rs lines 997-1006): BMP-encode the
password, feed it both to `auth_safe.data` and to the MAC check; absent
`mac_data` means `true`. -/
def PFX.verify_mac (prims : CipherPrims) (p : PFX) (password : List Nat) :
    Except Unit Bool :=
  let bmp_password := bmp_string password
  match p.mac_data with
  | some mac_data =>
    (match ContentInfo.data prims p.auth_safe bmp_password with
     | .error _ => .error ()
     | .ok (some data) => .ok (mac_data.verify_mac data bmp_password)
     | .ok none => .ok false)
  | none => .ok true

/-- Rust `Result`-with-panics outcome of the accessor methods. -/
inductive RustRes (α : Type) where
  | ok (v : α) : RustRes α
  | err : RustRes α
  | panicked : RustRes α
deriving DecidableEq

/-- The inner loop of `PFX::bags` over the outer `ContentInfo`s. -/
def bagsLoop (prims : CipherPrims) (password : List Nat) :
    List ContentInfo → List SafeBag → RustRes (List SafeBag)
  | [], acc => .ok acc
  | content :: rest, acc =>
    match ContentInfo.data prims content password with
    | .error _ => .panicked
    | .ok none => .err
    | .ok (some data) =>
      match parseSeqOfAll SafeBag.parse data with
      | .error _ => .err
      | .ok safe_bags => bagsLoop prims password rest (acc ++ safe_bags)

/-- `PFX::bags`: decrypt the authenticated safe, parse it as a SEQUENCE OF
ContentInfo, then decrypt and parse each as a SEQUENCE OF SafeBag. -/
def PFX.bags (prims : CipherPrims) (p : PFX) (password : List Nat) :
    RustRes (List SafeBag) :=
  let pw := utf8Encode password
  match ContentInfo.data prims p.auth_safe pw with
  | .error _ => .panicked
  | .ok none => .err
  | .ok (some data) =>
    match parseSeqOfAll ContentInfo.parse data with
    | .error _ => .err
    | .ok contents => bagsLoop prims pw contents []

/-- `SafeBagKind::get_key`. -/
def SafeBagKind.get_key (prims : CipherPrims) (k : SafeBagKind)
    (password : List Nat) : Except Unit (Option (List Nat)) :=
  match k with
  | .Pkcs8ShroudedKeyBag kb => kb.decrypt prims password
  | _ => .ok none

/-- The collection loop of `PFX::key_bags`. -/
def keyBagsLoop (prims : CipherPrims) (password : List Nat) :
    List SafeBag → List (List Nat) → RustRes (List (List Nat))
  | [], acc => .ok acc
  | sb :: rest, acc =>
    match sb.bag.get_key prims password with
    | .error _ => .panicked
    | .ok (some key) => keyBagsLoop prims password rest (acc ++ [key])
    | .ok none => keyBagsLoop prims password rest acc

/-- `PFX::key_bags`: each shrouded key bag decrypted with the raw UTF-8
password bytes. -/
def PFX.key_bags (prims : CipherPrims) (p : PFX) (password : List Nat) :
    RustRes (List (List Nat)) :=
  let bmp_password := utf8Encode password
  match p.bags prims password with
  | .panicked => .panicked
  | .err => .err
  | .ok safe_bags => keyBagsLoop prims bmp_password safe_bags []

/-! ## Builder pipeline (`PFX::new`, `PFX::new_with_cas`)

A `DataEncryptorM` models one `DataEncryptor` implementation (trait
object view): each operation covers `Encryptor::new()` (drawing its
randomness) followed by the corresponding `encrypt` method. -/

structure DataEncryptorM where
  encrypt_keybag : List Nat → List Nat → Option SafeBagKind
  encrypt : List Nat → List Nat → Option EncryptedContentInfo

/-- `EncryptedContentInfo::from_safe_bags`: DER-encode the bag sequence and
encrypt it. -/
def EncryptedContentInfo.from_safe_bags (E : DataEncryptorM)
    (safe_bags : List SafeBag) (password : List Nat) : Option EncryptedContentInfo :=
  E.encrypt (derSeqOf (safe_bags.map SafeBag.write)) password

/-- `EncryptedData::from_safe_bags`. -/
def EncryptedData.from_safe_bags (E : DataEncryptorM)
    (safe_bags : List SafeBag) (password : List Nat) : Option EncryptedData :=
  (EncryptedContentInfo.from_safe_bags E safe_bags password).map
    (fun eci => { encrypted_content_info := eci })

/-- `PFX::new_with_cas` (src/src/lib.rs lines 858-910).  `rng` feeds
`MacData::new`'s 8-byte salt.  The `Except.error ()` outcomes are the
source's `unwrap()` panics: a failing cert-bundle encryption
(`ok_or_else(..).unwrap()`) and a non-UTF-8 password inside
`MacData::new`. -/
def PFX.new_with_cas (E : DataEncryptorM) (rng : Nat → Nat)
    (cert_der key_der : List Nat) (ca_der_list : List (List Nat))
    (password name : List Nat) : Except Unit (Option PFX) :=
  match E.encrypt_keybag key_der (utf8Encode password) with
  | none => .ok none
  | some key_bag_inner =>
    let friendly_name := PKCS12Attribute.FriendlyName name
    let local_key_id := PKCS12Attribute.LocalKeyId (sha1 cert_der)
    let key_bag : SafeBag :=
      { bag := key_bag_inner, attributes := [friendly_name, local_key_id] }
    let cert_bag : SafeBag :=
      { bag := .CertBag (.X509 cert_der), attributes := [friendly_name, local_key_id] }
    let cert_bags := cert_bag ::
      ca_der_list.map (fun ca => { bag := SafeBagKind.CertBag (.X509 ca), attributes := [] })
    match EncryptedData.from_safe_bags E cert_bags (utf8Encode password) with
    | none => .error ()
    | some ed =>
      let contents := derSeqOf [(ContentInfo.EncryptedData ed).write,
        (ContentInfo.Data (derSeqOf [key_bag.write])).write]
      match MacData.new rng contents (utf8Encode password) with
      | none => .error ()
      | some mac_data =>
        .ok (some { version := 3, auth_safe := .Data contents, mac_data := some mac_data })

/-- `PFX::new`: wrap the optional CA into a list and defer. -/
def PFX.new (E : DataEncryptorM) (rng : Nat → Nat)
    (cert_der key_der : List Nat) (ca_der : Option (List Nat))
    (password name : List Nat) : Except Unit (Option PFX) :=
  PFX.new_with_cas E rng cert_der key_der
    (match ca_der with | some ca => [ca] | none => []) password name

/-- `PbeWithShaAnd40BitRc2CbcEncryptor::encrypt_keybag_key_deriver`: the
legacy key-bag path shrouds the key with
pbeWithSHAAnd3-KeyTripleDES-CBC under a fresh 8-byte salt and 2048
iterations (the key-deriver argument is ignored by the source). -/
def PbeWithShaAnd40BitRc2CbcEncryptor.encrypt_keybag_key_deriver
    (prims : CipherPrims) (rng : Nat → Nat) (data password : List Nat) :
    Option SafeBagKind :=
  match utf8Decode password with
  | none => none
  | some str =>
    let bmp := bmp_string str
    let salt := (List.range 8).map rng
    match pbe_with_sha_and3_key_triple_des_cbc_encrypt prims data bmp salt ITERATIONS with
    | none => none
    | some encrypted_data =>
      some (.Pkcs8ShroudedKeyBag
        { encryption_algorithm :=
            .PbeWithSHAAnd3KeyTripleDESCBC { salt := salt, iterations := ITERATIONS },
          encrypted_data := encrypted_data })

/-- `PbeWithShaAnd40BitRc2CbcEncryptor::encrypt_key_deriver`: the legacy
cert-bundle path encrypts with pbeWithSHAAnd40BitRC2-CBC (digest fixed to
SHA-1 at the call site) under a fresh 8-byte salt and 2048 iterations. -/
def PbeWithShaAnd40BitRc2CbcEncryptor.encrypt_key_deriver
    (prims : CipherPrims) (rng : Nat → Nat) (data password : List Nat) :
    Option EncryptedContentInfo :=
  match utf8Decode password with
  | none => none
  | some str =>
    let bmp := bmp_string str
    let salt := (List.range 8).map rng
    match pbe_with_sha_and40_bit_rc2_cbc_encrypt prims sha1 data bmp salt ITERATIONS with
    | none => none
    | some encrypted_content =>
      some { content_encryption_algorithm :=
               .PbewithSHAAnd40BitRC2CBC { salt := salt, iterations := ITERATIONS },
             encrypted_content := encrypted_content }

/-! ## Concrete objects used by the claim theorems and witnesses -/

/-- Spec-side UTF-16 big-endian byte encoding, written independently of
the source's loop for the refinement claim about `bmp_string`. -/
def utf16beSpec (s : List Nat) : List Nat :=
  s.flatMap (fun c =>
    if c < 65536 then [c / 256, c % 256]
    else [(55296 + (c - 65536) / 1024) / 256, (55296 + (c - 65536) / 1024) % 256,
          (56320 + (c - 65536) % 1024) / 256, (56320 + (c - 65536) % 1024) % 256])

/-- Parse one `AlgorithmIdentifier` with sufficient fuel. -/
def AlgorithmIdentifier.from_der (l : List Nat) :
    Except Unit (AlgorithmIdentifier × List Nat) :=
  AlgorithmIdentifier.parse (l.length + 1) l

/-- A constant random source for witnesses. -/
def zeroRng : Nat → Nat := fun _ => 0

/-- Cipher primitives whose decryptors all report failure: the AES-CBC
decryptor models the generic wrong-key outcome, an invalid PKCS#7
padding. -/
def noneAesPrims : CipherPrims :=
  { aesDec := fun _ _ _ => none, rc2Dec := fun _ _ _ => none,
    rc2Enc := fun _ _ _ => none, tdesDec := fun _ _ _ => none,
    tdesEnc := fun _ _ _ => none }

/-- Cipher primitives whose encryptors return fixed ciphertexts. -/
def constEncPrims : CipherPrims :=
  { noneAesPrims with tdesEnc := fun _ _ _ => some [7], rc2Enc := fun _ _ _ => some [8] }

/-- A trivial data encryptor for builder witnesses. -/
def trivEnc : DataEncryptorM :=
  { encrypt_keybag := fun _ _ =>
      some (.Pkcs8ShroudedKeyBag { encryption_algorithm := .Sha1, encrypted_data := [] }),
    encrypt := fun _ _ =>
      some { content_encryption_algorithm := .Sha1, encrypted_content := [1] } }

/-- A well-formed PBES2 algorithm identifier of the shape the modern
builder emits (PBKDF2 with a specified salt and an HMAC PRF, AES-CBC with
a 16-byte IV); the iteration count is kept at 1 to keep evaluation small. -/
def algPbes2Sample : AlgorithmIdentifier :=
  .Pbes2 (.mk (.Pbkdf2 (.mk (.Specified [1, 2, 3, 4, 5, 6, 7, 8]) 1 none (.HmacWithSha1 none)))
              (.AesCbcPad (List.replicate 16 0)))

/-- The authenticated-safe body of a modern-pipeline-shaped PFX: a DER
SEQUENCE of an EncryptedData (PBES2) and a Data content info. -/
def pfxSampleContents : List Nat :=
  derSeqOf [(ContentInfo.EncryptedData
               { encrypted_content_info :=
                   { content_encryption_algorithm := algPbes2Sample,
                     encrypted_content := List.replicate 16 1 } }).write,
            (ContentInfo.Data (derSeqOf [])).write]

/-- A PFX of the shape the modern pipeline produces. -/
def pfxSample : PFX :=
  { version := 3, auth_safe := .Data pfxSampleContents,
    mac_data := some { mac := { digest_algorithm := .Sha1, digest := List.replicate 20 0 },
                       salt := List.replicate 8 0, iterations := 2048 } }

/-! # Theorems -/

theorem forceList_eq (l : List Nat) : forceList l = l := by
  unfold forceList; cases Nat.beq (packGo l 0 0).1 0 <;> rfl

theorem sha1IterF_eq_iterHash : ∀ (n : Nat) (x : List Nat),
    sha1IterF n x = iterHash sha1 n x := by
  intro n
  induction n with
  | zero => intro x; rfl
  | succ n ih =>
    intro x
    show sha1IterF n (forceList (sha1 x)) = iterHash sha1 n (sha1 x)
    rw [forceList_eq, ih]

theorem iterHash_add (H : List Nat → List Nat) (m n : Nat) (x : List Nat) :
    iterHash H (m + n) x = iterHash H n (iterHash H m x) := by
  induction m generalizing x with
  | zero => simp [iterHash]
  | succ m ih =>
    rw [Nat.succ_add]
    show iterHash H (m + n) (H x) = _
    rw [ih]
    rfl

/-- Unfolding of the KDF at output size 24 (two 20-byte chunks). -/
theorem pbepkcs12sha_c2_shape (H : List Nat → List Nat) (pass salt : List Nat) (r : Nat) :
    pbepkcs12sha H pass salt r 1 24 =
      ((iterHash H r (List.replicate 64 1 ++
          (cycleTake salt (get_len salt.length) ++ cycleTake pass (get_len pass.length)))) ++
        iterHash H r (List.replicate 64 1 ++
          kdfUpdate (cycleTake salt (get_len salt.length) ++ cycleTake pass (get_len pass.length))
            (iterHash H r (List.replicate 64 1 ++
              (cycleTake salt (get_len salt.length) ++ cycleTake pass (get_len pass.length)))))).take 24 := by
  rfl

/-- Unfolding of the KDF at output size 8 (one 20-byte chunk). -/
theorem pbepkcs12sha_c1_shape (H : List Nat → List Nat) (pass salt : List Nat) (r : Nat) :
    pbepkcs12sha H pass salt r 2 8 =
      (iterHash H r (List.replicate 64 2 ++
        (cycleTake salt (get_len salt.length) ++ cycleTake pass (get_len pass.length)))).take 8 := by
  rfl

theorem sha1_length (m : List Nat) : (sha1 m).length = 20 := by
  unfold sha1
  split
  split
  simp

theorem sha256_length (m : List Nat) : (sha256 m).length = 32 := by
  unfold sha256
  split
  split
  simp [w32bytes]

theorem iterHash_len_ge (H : List Nat → List Nat)
    (hH : ∀ b, 20 ≤ (H b).length) :
    ∀ (r : Nat) (x : List Nat), 20 ≤ x.length → 20 ≤ (iterHash H r x).length := by
  intro r
  induction r with
  | zero => intro x hx; exact hx
  | succ r ih =>
    intro x _
    show 20 ≤ (iterHash H r (H x)).length
    exact ih (H x) (hH x)

theorem pbeMainLoop_len (H : List Nat → List Nat) (d : List Nat) (r : Nat)
    (hH : ∀ b, 20 ≤ (H b).length) (hd : 20 ≤ d.length) :
    ∀ (n : Nat) (i a : List Nat),
      a.length + 20 * n ≤ (pbeMainLoop H d r n (i, a)).2.length := by
  intro n
  induction n with
  | zero => intro i a; simp [pbeMainLoop]
  | succ n ih =>
    intro i a
    have hai : 20 ≤ (iterHash H r (d ++ i)).length := by
      apply iterHash_len_ge H hH
      rw [List.length_append]
      omega
    have step : pbeMainLoop H d r (n + 1) (i, a) =
        pbeMainLoop H d r n (kdfUpdate i (iterHash H r (d ++ i)),
          a ++ iterHash H r (d ++ i)) := rfl
    rw [step]
    have := ih (kdfUpdate i (iterHash H r (d ++ i))) (a ++ iterHash H r (d ++ i))
    rw [List.length_append] at this
    omega

/-- Output-length invariant of the KDF for any hash with digests of at
least 20 bytes: the result has exactly `size` bytes, provided the u64
chunk-count computation `size + U - 1` does not wrap. -/
theorem pbepkcs12sha_length (H : List Nat → List Nat)
    (hH : ∀ b, 20 ≤ (H b).length) (pass salt : List Nat)
    (iterations id size : Nat) (hsz : size + 19 < 18446744073709551616) :
    (pbepkcs12sha H pass salt iterations id size).length = size := by
  unfold pbepkcs12sha
  dsimp only
  rw [show (size + 20 - 1) % 18446744073709551616 = size + 20 - 1 from
    Nat.mod_eq_of_lt (by omega)]
  have hd : 20 ≤ (List.replicate 64 id).length := by simp
  rcases hL : pbeMainLoop H (List.replicate 64 id) iterations ((size + 20 - 1) / 20 - 1)
      (cycleTake salt (get_len salt.length) ++ cycleTake pass (get_len pass.length), [])
    with ⟨i2, a2⟩
  have ha2 : 20 * ((size + 20 - 1) / 20 - 1) ≤ a2.length := by
    have := pbeMainLoop_len H (List.replicate 64 id) iterations hH hd
      ((size + 20 - 1) / 20 - 1)
      (cycleTake salt (get_len salt.length) ++ cycleTake pass (get_len pass.length)) []
    rw [hL] at this
    simpa using this
  dsimp only [pbepkcs12shacore]
  have hai : 20 ≤ (iterHash H iterations (List.replicate 64 id ++ i2)).length := by
    apply iterHash_len_ge H hH
    rw [List.length_append]
    omega
  rw [List.length_take, List.length_append]
  have hdiv : size ≤ 20 * ((size + 20 - 1) / 20) := by
    have h1 := Nat.div_add_mod (size + 19) 20
    have h2 : (size + 19) % 20 < 20 := Nat.mod_lt _ (by omega)
    omega
  have hc : (size + 20 - 1) / 20 = (size + 19) / 20 := by norm_num
  rcases Nat.eq_zero_or_pos ((size + 20 - 1) / 20) with h0 | hpos
  · have : size = 0 := by
      rw [hc] at h0
      have h1 := Nat.div_add_mod (size + 19) 20
      have h2 : (size + 19) % 20 < 20 := Nat.mod_lt _ (by omega)
      omega
    omega
  · have : 20 * ((size + 20 - 1) / 20 - 1) + 20 = 20 * ((size + 20 - 1) / 20) := by
      omega
    omega

theorem bmp_foldl_eq (us : List Nat) :
    ∀ acc : List Nat,
      us.foldl (fun bytes c => bytes ++ [c / 256, c % 256]) acc =
        acc ++ us.flatMap (fun u => [u / 256, u % 256]) := by
  induction us with
  | nil => intro acc; simp
  | cons u us ih => intro acc; simp [List.foldl, ih]

theorem utf16_flat_eq (s : List Nat) :
    (utf16unitsOf s).flatMap (fun u => [u / 256, u % 256]) = utf16beSpec s := by
  induction s with
  | nil => rfl
  | cons c cs ih =>
    simp only [utf16unitsOf, utf16beSpec, List.flatMap_cons] at ih ⊢
    rw [List.flatMap_append]
    congr 1
    by_cases h : c < 65536
    · simp [utf16Char, h]
    · simp [utf16Char, h]

set_option maxRecDepth 1000000

/-! ## SHA-1 iteration chains for the KDF test vectors (claim C3)

Each 2048-fold hash chain is established in 64-hash chunks (evaluated
through the forced twin `sha1IterF`) and glued with `iterHash_add`. -/

theorem sha1ChainAc01 : iterHash sha1 64 [1, 1, 1, 1, 1, 1, 1, 1, 1, 1, 1, 1, 1, 1, 1, 1, 1, 1, 1, 1, 1, 1, 1, 1, 1, 1, 1, 1, 1, 1, 1, 1, 1, 1, 1, 1, 1, 1, 1, 1, 1, 1, 1, 1, 1, 1, 1, 1, 1, 1, 1, 1, 1, 1, 1, 1, 1, 1, 1, 1, 1, 1, 1, 1, 154, 244, 112, 41, 88, 168, 233, 92, 154, 244, 112, 41, 88, 168, 233, 92, 154, 244, 112, 41, 88, 168, 233, 92, 154, 244, 112, 41, 88, 168, 233, 92, 154, 244, 112, 41, 88, 168, 233, 92, 154, 244, 112, 41, 88, 168, 233, 92, 154, 244, 112, 41, 88, 168, 233, 92, 154, 244, 112, 41, 88, 168, 233, 92, 0, 0, 0, 0, 0, 0, 0, 0, 0, 0, 0, 0, 0, 0, 0, 0, 0, 0, 0, 0, 0, 0, 0, 0, 0, 0, 0, 0, 0, 0, 0, 0, 0, 0, 0, 0, 0, 0, 0, 0, 0, 0, 0, 0, 0, 0, 0, 0, 0, 0, 0, 0, 0, 0, 0, 0, 0, 0, 0, 0, 0, 0, 0, 0] = [204, 118, 57, 48, 221, 0, 121, 69, 236, 40, 240, 110, 114, 186, 89, 254, 192, 51, 228, 245] := by
  rw [← sha1IterF_eq_iterHash]; decide

theorem sha1ChainAc02 : iterHash sha1 64 [204, 118, 57, 48, 221, 0, 121, 69, 236, 40, 240, 110, 114, 186, 89, 254, 192, 51, 228, 245] = [24, 21, 53, 50, 152, 69, 62, 71, 76, 222, 249, 169, 238, 120, 99, 240, 111, 80, 220, 64] := by
  rw [← sha1IterF_eq_iterHash]; decide

theorem sha1ChainAc03 : iterHash sha1 64 [24, 21, 53, 50, 152, 69, 62, 71, 76, 222, 249, 169, 238, 120, 99, 240, 111, 80, 220, 64] = [95, 110, 10, 210, 224, 0, 248, 152, 215, 189, 85, 104, 15, 155, 183, 173, 153, 11, 158, 212] := by
  rw [← sha1IterF_eq_iterHash]; decide

theorem sha1ChainAc04 : iterHash sha1 64 [95, 110, 10, 210, 224, 0, 248, 152, 215, 189, 85, 104, 15, 155, 183, 173, 153, 11, 158, 212] = [185, 231, 14, 244, 18, 86, 53, 29, 52, 133, 66, 127, 167, 220, 120, 74, 10, 18, 100, 76] := by
  rw [← sha1IterF_eq_iterHash]; decide

theorem sha1ChainAc05 : iterHash sha1 64 [185, 231, 14, 244, 18, 86, 53, 29, 52, 133, 66, 127, 167, 220, 120, 74, 10, 18, 100, 76] = [248, 150, 250, 210, 6, 202, 212, 85, 94, 246, 175, 150, 50, 179, 64, 9, 130, 215, 190, 45] := by
  rw [← sha1IterF_eq_iterHash]; decide

theorem sha1ChainAc06 : iterHash sha1 64 [248, 150, 250, 210, 6, 202, 212, 85, 94, 246, 175, 150, 50, 179, 64, 9, 130, 215, 190, 45] = [7, 216, 51, 212, 167, 53, 107, 120, 133, 186, 148, 104, 195, 145, 172, 156, 184, 207, 35, 11] := by
  rw [← sha1IterF_eq_iterHash]; decide

theorem sha1ChainAc07 : iterHash sha1 64 [7, 216, 51, 212, 167, 53, 107, 120, 133, 186, 148, 104, 195, 145, 172, 156, 184, 207, 35, 11] = [200, 153, 87, 167, 4, 87, 9, 117, 8, 59, 88, 229, 140, 39, 174, 177, 226, 165, 102, 213] := by
  rw [← sha1IterF_eq_iterHash]; decide

theorem sha1ChainAc08 : iterHash sha1 64 [200, 153, 87, 167, 4, 87, 9, 117, 8, 59, 88, 229, 140, 39, 174, 177, 226, 165, 102, 213] = [52, 65, 6, 4, 209, 95, 95, 123, 146, 168, 30, 41, 154, 174, 233, 164, 63, 37, 196, 35] := by
  rw [← sha1IterF_eq_iterHash]; decide

theorem sha1ChainAc09 : iterHash sha1 64 [52, 65, 6, 4, 209, 95, 95, 123, 146, 168, 30, 41, 154, 174, 233, 164, 63, 37, 196, 35] = [253, 72, 154, 151, 194, 224, 90, 53, 61, 111, 75, 194, 30, 88, 242, 78, 229, 125, 223, 158] := by
  rw [← sha1IterF_eq_iterHash]; decide

theorem sha1ChainAc10 : iterHash sha1 64 [253, 72, 154, 151, 194, 224, 90, 53, 61, 111, 75, 194, 30, 88, 242, 78, 229, 125, 223, 158] = [132, 53, 140, 124, 219, 202, 95, 255, 40, 1, 158, 90, 123, 77, 50, 13, 121, 164, 95, 86] := by
  rw [← sha1IterF_eq_iterHash]; decide

theorem sha1ChainAc11 : iterHash sha1 64 [132, 53, 140, 124, 219, 202, 95, 255, 40, 1, 158, 90, 123, 77, 50, 13, 121, 164, 95, 86] = [120, 188, 8, 102, 149, 122, 17, 143, 45, 133, 185, 137, 119, 68, 98, 74, 215, 27, 92, 230] := by
  rw [← sha1IterF_eq_iterHash]; decide

theorem sha1ChainAc12 : iterHash sha1 64 [120, 188, 8, 102, 149, 122, 17, 143, 45, 133, 185, 137, 119, 68, 98, 74, 215, 27, 92, 230] = [107, 107, 111, 1, 164, 211, 18, 226, 127, 156, 157, 127, 54, 170, 213, 89, 231, 57, 101, 110] := by
  rw [← sha1IterF_eq_iterHash]; decide

theorem sha1ChainAc13 : iterHash sha1 64 [107, 107, 111, 1, 164, 211, 18, 226, 127, 156, 157, 127, 54, 170, 213, 89, 231, 57, 101, 110] = [36, 143, 230, 15, 119, 230, 126, 217, 46, 78, 149, 68, 190, 225, 115, 204, 160, 181, 225, 78] := by
  rw [← sha1IterF_eq_iterHash]; decide

theorem sha1ChainAc14 : iterHash sha1 64 [36, 143, 230, 15, 119, 230, 126, 217, 46, 78, 149, 68, 190, 225, 115, 204, 160, 181, 225, 78] = [234, 115, 113, 231, 166, 250, 175, 99, 96, 247, 149, 254, 244, 251, 53, 238, 212, 85, 62, 64] := by
  rw [← sha1IterF_eq_iterHash]; decide

theorem sha1ChainAc15 : iterHash sha1 64 [234, 115, 113, 231, 166, 250, 175, 99, 96, 247, 149, 254, 244, 251, 53, 238, 212, 85, 62, 64] = [211, 218, 94, 40, 188, 123, 0, 127, 223, 90, 216, 135, 217, 253, 229, 76, 204, 166, 203, 177] := by
  rw [← sha1IterF_eq_iterHash]; decide

theorem sha1ChainAc16 : iterHash sha1 64 [211, 218, 94, 40, 188, 123, 0, 127, 223, 90, 216, 135, 217, 253, 229, 76, 204, 166, 203, 177] = [108, 212, 254, 177, 149, 155, 162, 191, 124, 107, 142, 218, 195, 15, 159, 44, 175, 155, 198, 83] := by
  rw [← sha1IterF_eq_iterHash]; decide

theorem sha1ChainAc17 : iterHash sha1 64 [108, 212, 254, 177, 149, 155, 162, 191, 124, 107, 142, 218, 195, 15, 159, 44, 175, 155, 198, 83] = [218, 48, 23, 44, 44, 115, 230, 161, 230, 79, 142, 92, 193, 174, 185, 176, 222, 186, 170, 241] := by
  rw [← sha1IterF_eq_iterHash]; decide

theorem sha1ChainAc18 : iterHash sha1 64 [218, 48, 23, 44, 44, 115, 230, 161, 230, 79, 142, 92, 193, 174, 185, 176, 222, 186, 170, 241] = [210, 254, 63, 247, 239, 12, 38, 198, 41, 77, 70, 192, 166, 66, 136, 33, 113, 69, 146, 119] := by
  rw [← sha1IterF_eq_iterHash]; decide

theorem sha1ChainAc19 : iterHash sha1 64 [210, 254, 63, 247, 239, 12, 38, 198, 41, 77, 70, 192, 166, 66, 136, 33, 113, 69, 146, 119] = [206, 106, 114, 118, 143, 70, 101, 61, 152, 228, 160, 231, 90, 16, 3, 228, 75, 65, 83, 4] := by
  rw [← sha1IterF_eq_iterHash]; decide

theorem sha1ChainAc20 : iterHash sha1 64 [206, 106, 114, 118, 143, 70, 101, 61, 152, 228, 160, 231, 90, 16, 3, 228, 75, 65, 83, 4] = [98, 93, 34, 146, 213, 185, 165, 72, 187, 234, 223, 255, 30, 180, 69, 191, 88, 1, 213, 249] := by
  rw [← sha1IterF_eq_iterHash]; decide

theorem sha1ChainAc21 : iterHash sha1 64 [98, 93, 34, 146, 213, 185, 165, 72, 187, 234, 223, 255, 30, 180, 69, 191, 88, 1, 213, 249] = [70, 201, 106, 236, 32, 189, 236, 100, 117, 125, 178, 187, 160, 93, 177, 79, 54, 135, 148, 6] := by
  rw [← sha1IterF_eq_iterHash]; decide

theorem sha1ChainAc22 : iterHash sha1 64 [70, 201, 106, 236, 32, 189, 236, 100, 117, 125, 178, 187, 160, 93, 177, 79, 54, 135, 148, 6] = [20, 97, 124, 138, 175, 8, 55, 166, 149, 84, 186, 233, 152, 34, 183, 226, 52, 107, 21, 251] := by
  rw [← sha1IterF_eq_iterHash]; decide

theorem sha1ChainAc23 : iterHash sha1 64 [20, 97, 124, 138, 175, 8, 55, 166, 149, 84, 186, 233, 152, 34, 183, 226, 52, 107, 21, 251] = [218, 104, 65, 130, 172, 136, 2, 139, 247, 69, 25, 96, 126, 54, 235, 77, 251, 145, 228, 64] := by
  rw [← sha1IterF_eq_iterHash]; decide

theorem sha1ChainAc24 : iterHash sha1 64 [218, 104, 65, 130, 172, 136, 2, 139, 247, 69, 25, 96, 126, 54, 235, 77, 251, 145, 228, 64] = [142, 229, 65, 134, 146, 239, 65, 174, 151, 177, 147, 208, 15, 19, 60, 131, 99, 65, 158, 175] := by
  rw [← sha1IterF_eq_iterHash]; decide

theorem sha1ChainAc25 : iterHash sha1 64 [142, 229, 65, 134, 146, 239, 65, 174, 151, 177, 147, 208, 15, 19, 60, 131, 99, 65, 158, 175] = [34, 169, 144, 40, 134, 30, 185, 133, 133, 228, 64, 156, 44, 214, 16, 85, 138, 123, 165, 225] := by
  rw [← sha1IterF_eq_iterHash]; decide

theorem sha1ChainAc26 : iterHash sha1 64 [34, 169, 144, 40, 134, 30, 185, 133, 133, 228, 64, 156, 44, 214, 16, 85, 138, 123, 165, 225] = [118, 191, 98, 208, 129, 97, 224, 126, 63, 245, 173, 147, 127, 64, 188, 13, 163, 44, 116, 222] := by
  rw [← sha1IterF_eq_iterHash]; decide

theorem sha1ChainAc27 : iterHash sha1 64 [118, 191, 98, 208, 129, 97, 224, 126, 63, 245, 173, 147, 127, 64, 188, 13, 163, 44, 116, 222] = [104, 159, 176, 11, 57, 40, 19, 145, 81, 244, 195, 253, 118, 246, 102, 21, 87, 5, 190, 6] := by
  rw [← sha1IterF_eq_iterHash]; decide

theorem sha1ChainAc28 : iterHash sha1 64 [104, 159, 176, 11, 57, 40, 19, 145, 81, 244, 195, 253, 118, 246, 102, 21, 87, 5, 190, 6] = [45, 116, 179, 48, 85, 235, 29, 165, 168, 164, 157, 110, 39, 164, 167, 255, 72, 19, 73, 253] := by
  rw [← sha1IterF_eq_iterHash]; decide

theorem sha1ChainAc29 : iterHash sha1 64 [45, 116, 179, 48, 85, 235, 29, 165, 168, 164, 157, 110, 39, 164, 167, 255, 72, 19, 73, 253] = [50, 1, 227, 8, 185, 253, 6, 92, 94, 108, 201, 219, 136, 60, 50, 22, 209, 147, 18, 252] := by
  rw [← sha1IterF_eq_iterHash]; decide

theorem sha1ChainAc30 : iterHash sha1 64 [50, 1, 227, 8, 185, 253, 6, 92, 94, 108, 201, 219, 136, 60, 50, 22, 209, 147, 18, 252] = [52, 230, 77, 12, 197, 43, 69, 125, 117, 22, 80, 159, 64, 36, 90, 30, 227, 250, 229, 121] := by
  rw [← sha1IterF_eq_iterHash]; decide

theorem sha1ChainAc31 : iterHash sha1 64 [52, 230, 77, 12, 197, 43, 69, 125, 117, 22, 80, 159, 64, 36, 90, 30, 227, 250, 229, 121] = [163, 124, 233, 47, 140, 98, 112, 127, 232, 194, 53, 57, 55, 1, 223, 249, 154, 62, 104, 29] := by
  rw [← sha1IterF_eq_iterHash]; decide

theorem sha1ChainAc32 : iterHash sha1 64 [163, 124, 233, 47, 140, 98, 112, 127, 232, 194, 53, 57, 55, 1, 223, 249, 154, 62, 104, 29] = [194, 41, 74, 166, 208, 41, 48, 235, 92, 233, 195, 41, 236, 203, 154, 238, 28, 177, 54, 186] := by
  rw [← sha1IterF_eq_iterHash]; decide

/-- Glued 2048-fold SHA-1 iteration for one KDF chunk. -/
theorem sha1ChainA : iterHash sha1 2048 [1, 1, 1, 1, 1, 1, 1, 1, 1, 1, 1, 1, 1, 1, 1, 1, 1, 1, 1, 1, 1, 1, 1, 1, 1, 1, 1, 1, 1, 1, 1, 1, 1, 1, 1, 1, 1, 1, 1, 1, 1, 1, 1, 1, 1, 1, 1, 1, 1, 1, 1, 1, 1, 1, 1, 1, 1, 1, 1, 1, 1, 1, 1, 1, 154, 244, 112, 41, 88, 168, 233, 92, 154, 244, 112, 41, 88, 168, 233, 92, 154, 244, 112, 41, 88, 168, 233, 92, 154, 244, 112, 41, 88, 168, 233, 92, 154, 244, 112, 41, 88, 168, 233, 92, 154, 244, 112, 41, 88, 168, 233, 92, 154, 244, 112, 41, 88, 168, 233, 92, 154, 244, 112, 41, 88, 168, 233, 92, 0, 0, 0, 0, 0, 0, 0, 0, 0, 0, 0, 0, 0, 0, 0, 0, 0, 0, 0, 0, 0, 0, 0, 0, 0, 0, 0, 0, 0, 0, 0, 0, 0, 0, 0, 0, 0, 0, 0, 0, 0, 0, 0, 0, 0, 0, 0, 0, 0, 0, 0, 0, 0, 0, 0, 0, 0, 0, 0, 0, 0, 0, 0, 0] = [194, 41, 74, 166, 208, 41, 48, 235, 92, 233, 195, 41, 236, 203, 154, 238, 28, 177, 54, 186] := by
  have a1 : iterHash sha1 64 [1, 1, 1, 1, 1, 1, 1, 1, 1, 1, 1, 1, 1, 1, 1, 1, 1, 1, 1, 1, 1, 1, 1, 1, 1, 1, 1, 1, 1, 1, 1, 1, 1, 1, 1, 1, 1, 1, 1, 1, 1, 1, 1, 1, 1, 1, 1, 1, 1, 1, 1, 1, 1, 1, 1, 1, 1, 1, 1, 1, 1, 1, 1, 1, 154, 244, 112, 41, 88, 168, 233, 92, 154, 244, 112, 41, 88, 168, 233, 92, 154, 244, 112, 41, 88, 168, 233, 92, 154, 244, 112, 41, 88, 168, 233, 92, 154, 244, 112, 41, 88, 168, 233, 92, 154, 244, 112, 41, 88, 168, 233, 92, 154, 244, 112, 41, 88, 168, 233, 92, 154, 244, 112, 41, 88, 168, 233, 92, 0, 0, 0, 0, 0, 0, 0, 0, 0, 0, 0, 0, 0, 0, 0, 0, 0, 0, 0, 0, 0, 0, 0, 0, 0, 0, 0, 0, 0, 0, 0, 0, 0, 0, 0, 0, 0, 0, 0, 0, 0, 0, 0, 0, 0, 0, 0, 0, 0, 0, 0, 0, 0, 0, 0, 0, 0, 0, 0, 0, 0, 0, 0, 0] = [204, 118, 57, 48, 221, 0, 121, 69, 236, 40, 240, 110, 114, 186, 89, 254, 192, 51, 228, 245] := sha1ChainAc01
  have a2 : iterHash sha1 128 [1, 1, 1, 1, 1, 1, 1, 1, 1, 1, 1, 1, 1, 1, 1, 1, 1, 1, 1, 1, 1, 1, 1, 1, 1, 1, 1, 1, 1, 1, 1, 1, 1, 1, 1, 1, 1, 1, 1, 1, 1, 1, 1, 1, 1, 1, 1, 1, 1, 1, 1, 1, 1, 1, 1, 1, 1, 1, 1, 1, 1, 1, 1, 1, 154, 244, 112, 41, 88, 168, 233, 92, 154, 244, 112, 41, 88, 168, 233, 92, 154, 244, 112, 41, 88, 168, 233, 92, 154, 244, 112, 41, 88, 168, 233, 92, 154, 244, 112, 41, 88, 168, 233, 92, 154, 244, 112, 41, 88, 168, 233, 92, 154, 244, 112, 41, 88, 168, 233, 92, 154, 244, 112, 41, 88, 168, 233, 92, 0, 0, 0, 0, 0, 0, 0, 0, 0, 0, 0, 0, 0, 0, 0, 0, 0, 0, 0, 0, 0, 0, 0, 0, 0, 0, 0, 0, 0, 0, 0, 0, 0, 0, 0, 0, 0, 0, 0, 0, 0, 0, 0, 0, 0, 0, 0, 0, 0, 0, 0, 0, 0, 0, 0, 0, 0, 0, 0, 0, 0, 0, 0, 0] = [24, 21, 53, 50, 152, 69, 62, 71, 76, 222, 249, 169, 238, 120, 99, 240, 111, 80, 220, 64] := by
    rw [show (128 : Nat) = 64 + 64 from rfl, iterHash_add, a1, sha1ChainAc02]
  have a3 : iterHash sha1 192 [1, 1, 1, 1, 1, 1, 1, 1, 1, 1, 1, 1, 1, 1, 1, 1, 1, 1, 1, 1, 1, 1, 1, 1, 1, 1, 1, 1, 1, 1, 1, 1, 1, 1, 1, 1, 1, 1, 1, 1, 1, 1, 1, 1, 1, 1, 1, 1, 1, 1, 1, 1, 1, 1, 1, 1, 1, 1, 1, 1, 1, 1, 1, 1, 154, 244, 112, 41, 88, 168, 233, 92, 154, 244, 112, 41, 88, 168, 233, 92, 154, 244, 112, 41, 88, 168, 233, 92, 154, 244, 112, 41, 88, 168, 233, 92, 154, 244, 112, 41, 88, 168, 233, 92, 154, 244, 112, 41, 88, 168, 233, 92, 154, 244, 112, 41, 88, 168, 233, 92, 154, 244, 112, 41, 88, 168, 233, 92, 0, 0, 0, 0, 0, 0, 0, 0, 0, 0, 0, 0, 0, 0, 0, 0, 0, 0, 0, 0, 0, 0, 0, 0, 0, 0, 0, 0, 0, 0, 0, 0, 0, 0, 0, 0, 0, 0, 0, 0, 0, 0, 0, 0, 0, 0, 0, 0, 0, 0, 0, 0, 0, 0, 0, 0, 0, 0, 0, 0, 0, 0, 0, 0] = [95, 110, 10, 210, 224, 0, 248, 152, 215, 189, 85, 104, 15, 155, 183, 173, 153, 11, 158, 212] := by
    rw [show (192 : Nat) = 128 + 64 from rfl, iterHash_add, a2, sha1ChainAc03]
  have a4 : iterHash sha1 256 [1, 1, 1, 1, 1, 1, 1, 1, 1, 1, 1, 1, 1, 1, 1, 1, 1, 1, 1, 1, 1, 1, 1, 1, 1, 1, 1, 1, 1, 1, 1, 1, 1, 1, 1, 1, 1, 1, 1, 1, 1, 1, 1, 1, 1, 1, 1, 1, 1, 1, 1, 1, 1, 1, 1, 1, 1, 1, 1, 1, 1, 1, 1, 1, 154, 244, 112, 41, 88, 168, 233, 92, 154, 244, 112, 41, 88, 168, 233, 92, 154, 244, 112, 41, 88, 168, 233, 92, 154, 244, 112, 41, 88, 168, 233, 92, 154, 244, 112, 41, 88, 168, 233, 92, 154, 244, 112, 41, 88, 168, 233, 92, 154, 244, 112, 41, 88, 168, 233, 92, 154, 244, 112, 41, 88, 168, 233, 92, 0, 0, 0, 0, 0, 0, 0, 0, 0, 0, 0, 0, 0, 0, 0, 0, 0, 0, 0, 0, 0, 0, 0, 0, 0, 0, 0, 0, 0, 0, 0, 0, 0, 0, 0, 0, 0, 0, 0, 0, 0, 0, 0, 0, 0, 0, 0, 0, 0, 0, 0, 0, 0, 0, 0, 0, 0, 0, 0, 0, 0, 0, 0, 0] = [185, 231, 14, 244, 18, 86, 53, 29, 52, 133, 66, 127, 167, 220, 120, 74, 10, 18, 100, 76] := by
    rw [show (256 : Nat) = 192 + 64 from rfl, iterHash_add, a3, sha1ChainAc04]
  have a5 : iterHash sha1 320 [1, 1, 1, 1, 1, 1, 1, 1, 1, 1, 1, 1, 1, 1, 1, 1, 1, 1, 1, 1, 1, 1, 1, 1, 1, 1, 1, 1, 1, 1, 1, 1, 1, 1, 1, 1, 1, 1, 1, 1, 1, 1, 1, 1, 1, 1, 1, 1, 1, 1, 1, 1, 1, 1, 1, 1, 1, 1, 1, 1, 1, 1, 1, 1, 154, 244, 112, 41, 88, 168, 233, 92, 154, 244, 112, 41, 88, 168, 233, 92, 154, 244, 112, 41, 88, 168, 233, 92, 154, 244, 112, 41, 88, 168, 233, 92, 154, 244, 112, 41, 88, 168, 233, 92, 154, 244, 112, 41, 88, 168, 233, 92, 154, 244, 112, 41, 88, 168, 233, 92, 154, 244, 112, 41, 88, 168, 233, 92, 0, 0, 0, 0, 0, 0, 0, 0, 0, 0, 0, 0, 0, 0, 0, 0, 0, 0, 0, 0, 0, 0, 0, 0, 0, 0, 0, 0, 0, 0, 0, 0, 0, 0, 0, 0, 0, 0, 0, 0, 0, 0, 0, 0, 0, 0, 0, 0, 0, 0, 0, 0, 0, 0, 0, 0, 0, 0, 0, 0, 0, 0, 0, 0] = [248, 150, 250, 210, 6, 202, 212, 85, 94, 246, 175, 150, 50, 179, 64, 9, 130, 215, 190, 45] := by
    rw [show (320 : Nat) = 256 + 64 from rfl, iterHash_add, a4, sha1ChainAc05]
  have a6 : iterHash sha1 384 [1, 1, 1, 1, 1, 1, 1, 1, 1, 1, 1, 1, 1, 1, 1, 1, 1, 1, 1, 1, 1, 1, 1, 1, 1, 1, 1, 1, 1, 1, 1, 1, 1, 1, 1, 1, 1, 1, 1, 1, 1, 1, 1, 1, 1, 1, 1, 1, 1, 1, 1, 1, 1, 1, 1, 1, 1, 1, 1, 1, 1, 1, 1, 1, 154, 244, 112, 41, 88, 168, 233, 92, 154, 244, 112, 41, 88, 168, 233, 92, 154, 244, 112, 41, 88, 168, 233, 92, 154, 244, 112, 41, 88, 168, 233, 92, 154, 244, 112, 41, 88, 168, 233, 92, 154, 244, 112, 41, 88, 168, 233, 92, 154, 244, 112, 41, 88, 168, 233, 92, 154, 244, 112, 41, 88, 168, 233, 92, 0, 0, 0, 0, 0, 0, 0, 0, 0, 0, 0, 0, 0, 0, 0, 0, 0, 0, 0, 0, 0, 0, 0, 0, 0, 0, 0, 0, 0, 0, 0, 0, 0, 0, 0, 0, 0, 0, 0, 0, 0, 0, 0, 0, 0, 0, 0, 0, 0, 0, 0, 0, 0, 0, 0, 0, 0, 0, 0, 0, 0, 0, 0, 0] = [7, 216, 51, 212, 167, 53, 107, 120, 133, 186, 148, 104, 195, 145, 172, 156, 184, 207, 35, 11] := by
    rw [show (384 : Nat) = 320 + 64 from rfl, iterHash_add, a5, sha1ChainAc06]
  have a7 : iterHash sha1 448 [1, 1, 1, 1, 1, 1, 1, 1, 1, 1, 1, 1, 1, 1, 1, 1, 1, 1, 1, 1, 1, 1, 1, 1, 1, 1, 1, 1, 1, 1, 1, 1, 1, 1, 1, 1, 1, 1, 1, 1, 1, 1, 1, 1, 1, 1, 1, 1, 1, 1, 1, 1, 1, 1, 1, 1, 1, 1, 1, 1, 1, 1, 1, 1, 154, 244, 112, 41, 88, 168, 233, 92, 154, 244, 112, 41, 88, 168, 233, 92, 154, 244, 112, 41, 88, 168, 233, 92, 154, 244, 112, 41, 88, 168, 233, 92, 154, 244, 112, 41, 88, 168, 233, 92, 154, 244, 112, 41, 88, 168, 233, 92, 154, 244, 112, 41, 88, 168, 233, 92, 154, 244, 112, 41, 88, 168, 233, 92, 0, 0, 0, 0, 0, 0, 0, 0, 0, 0, 0, 0, 0, 0, 0, 0, 0, 0, 0, 0, 0, 0, 0, 0, 0, 0, 0, 0, 0, 0, 0, 0, 0, 0, 0, 0, 0, 0, 0, 0, 0, 0, 0, 0, 0, 0, 0, 0, 0, 0, 0, 0, 0, 0, 0, 0, 0, 0, 0, 0, 0, 0, 0, 0] = [200, 153, 87, 167, 4, 87, 9, 117, 8, 59, 88, 229, 140, 39, 174, 177, 226, 165, 102, 213] := by
    rw [show (448 : Nat) = 384 + 64 from rfl, iterHash_add, a6, sha1ChainAc07]
  have a8 : iterHash sha1 512 [1, 1, 1, 1, 1, 1, 1, 1, 1, 1, 1, 1, 1, 1, 1, 1, 1, 1, 1, 1, 1, 1, 1, 1, 1, 1, 1, 1, 1, 1, 1, 1, 1, 1, 1, 1, 1, 1, 1, 1, 1, 1, 1, 1, 1, 1, 1, 1, 1, 1, 1, 1, 1, 1, 1, 1, 1, 1, 1, 1, 1, 1, 1, 1, 154, 244, 112, 41, 88, 168, 233, 92, 154, 244, 112, 41, 88, 168, 233, 92, 154, 244, 112, 41, 88, 168, 233, 92, 154, 244, 112, 41, 88, 168, 233, 92, 154, 244, 112, 41, 88, 168, 233, 92, 154, 244, 112, 41, 88, 168, 233, 92, 154, 244, 112, 41, 88, 168, 233, 92, 154, 244, 112, 41, 88, 168, 233, 92, 0, 0, 0, 0, 0, 0, 0, 0, 0, 0, 0, 0, 0, 0, 0, 0, 0, 0, 0, 0, 0, 0, 0, 0, 0, 0, 0, 0, 0, 0, 0, 0, 0, 0, 0, 0, 0, 0, 0, 0, 0, 0, 0, 0, 0, 0, 0, 0, 0, 0, 0, 0, 0, 0, 0, 0, 0, 0, 0, 0, 0, 0, 0, 0] = [52, 65, 6, 4, 209, 95, 95, 123, 146, 168, 30, 41, 154, 174, 233, 164, 63, 37, 196, 35] := by
    rw [show (512 : Nat) = 448 + 64 from rfl, iterHash_add, a7, sha1ChainAc08]
  have a9 : iterHash sha1 576 [1, 1, 1, 1, 1, 1, 1, 1, 1, 1, 1, 1, 1, 1, 1, 1, 1, 1, 1, 1, 1, 1, 1, 1, 1, 1, 1, 1, 1, 1, 1, 1, 1, 1, 1, 1, 1, 1, 1, 1, 1, 1, 1, 1, 1, 1, 1, 1, 1, 1, 1, 1, 1, 1, 1, 1, 1, 1, 1, 1, 1, 1, 1, 1, 154, 244, 112, 41, 88, 168, 233, 92, 154, 244, 112, 41, 88, 168, 233, 92, 154, 244, 112, 41, 88, 168, 233, 92, 154, 244, 112, 41, 88, 168, 233, 92, 154, 244, 112, 41, 88, 168, 233, 92, 154, 244, 112, 41, 88, 168, 233, 92, 154, 244, 112, 41, 88, 168, 233, 92, 154, 244, 112, 41, 88, 168, 233, 92, 0, 0, 0, 0, 0, 0, 0, 0, 0, 0, 0, 0, 0, 0, 0, 0, 0, 0, 0, 0, 0, 0, 0, 0, 0, 0, 0, 0, 0, 0, 0, 0, 0, 0, 0, 0, 0, 0, 0, 0, 0, 0, 0, 0, 0, 0, 0, 0, 0, 0, 0, 0, 0, 0, 0, 0, 0, 0, 0, 0, 0, 0, 0, 0] = [253, 72, 154, 151, 194, 224, 90, 53, 61, 111, 75, 194, 30, 88, 242, 78, 229, 125, 223, 158] := by
    rw [show (576 : Nat) = 512 + 64 from rfl, iterHash_add, a8, sha1ChainAc09]
  have a10 : iterHash sha1 640 [1, 1, 1, 1, 1, 1, 1, 1, 1, 1, 1, 1, 1, 1, 1, 1, 1, 1, 1, 1, 1, 1, 1, 1, 1, 1, 1, 1, 1, 1, 1, 1, 1, 1, 1, 1, 1, 1, 1, 1, 1, 1, 1, 1, 1, 1, 1, 1, 1, 1, 1, 1, 1, 1, 1, 1, 1, 1, 1, 1, 1, 1, 1, 1, 154, 244, 112, 41, 88, 168, 233, 92, 154, 244, 112, 41, 88, 168, 233, 92, 154, 244, 112, 41, 88, 168, 233, 92, 154, 244, 112, 41, 88, 168, 233, 92, 154, 244, 112, 41, 88, 168, 233, 92, 154, 244, 112, 41, 88, 168, 233, 92, 154, 244, 112, 41, 88, 168, 233, 92, 154, 244, 112, 41, 88, 168, 233, 92, 0, 0, 0, 0, 0, 0, 0, 0, 0, 0, 0, 0, 0, 0, 0, 0, 0, 0, 0, 0, 0, 0, 0, 0, 0, 0, 0, 0, 0, 0, 0, 0, 0, 0, 0, 0, 0, 0, 0, 0, 0, 0, 0, 0, 0, 0, 0, 0, 0, 0, 0, 0, 0, 0, 0, 0, 0, 0, 0, 0, 0, 0, 0, 0] = [132, 53, 140, 124, 219, 202, 95, 255, 40, 1, 158, 90, 123, 77, 50, 13, 121, 164, 95, 86] := by
    rw [show (640 : Nat) = 576 + 64 from rfl, iterHash_add, a9, sha1ChainAc10]
  have a11 : iterHash sha1 704 [1, 1, 1, 1, 1, 1, 1, 1, 1, 1, 1, 1, 1, 1, 1, 1, 1, 1, 1, 1, 1, 1, 1, 1, 1, 1, 1, 1, 1, 1, 1, 1, 1, 1, 1, 1, 1, 1, 1, 1, 1, 1, 1, 1, 1, 1, 1, 1, 1, 1, 1, 1, 1, 1, 1, 1, 1, 1, 1, 1, 1, 1, 1, 1, 154, 244, 112, 41, 88, 168, 233, 92, 154, 244, 112, 41, 88, 168, 233, 92, 154, 244, 112, 41, 88, 168, 233, 92, 154, 244, 112, 41, 88, 168, 233, 92, 154, 244, 112, 41, 88, 168, 233, 92, 154, 244, 112, 41, 88, 168, 233, 92, 154, 244, 112, 41, 88, 168, 233, 92, 154, 244, 112, 41, 88, 168, 233, 92, 0, 0, 0, 0, 0, 0, 0, 0, 0, 0, 0, 0, 0, 0, 0, 0, 0, 0, 0, 0, 0, 0, 0, 0, 0, 0, 0, 0, 0, 0, 0, 0, 0, 0, 0, 0, 0, 0, 0, 0, 0, 0, 0, 0, 0, 0, 0, 0, 0, 0, 0, 0, 0, 0, 0, 0, 0, 0, 0, 0, 0, 0, 0, 0] = [120, 188, 8, 102, 149, 122, 17, 143, 45, 133, 185, 137, 119, 68, 98, 74, 215, 27, 92, 230] := by
    rw [show (704 : Nat) = 640 + 64 from rfl, iterHash_add, a10, sha1ChainAc11]
  have a12 : iterHash sha1 768 [1, 1, 1, 1, 1, 1, 1, 1, 1, 1, 1, 1, 1, 1, 1, 1, 1, 1, 1, 1, 1, 1, 1, 1, 1, 1, 1, 1, 1, 1, 1, 1, 1, 1, 1, 1, 1, 1, 1, 1, 1, 1, 1, 1, 1, 1, 1, 1, 1, 1, 1, 1, 1, 1, 1, 1, 1, 1, 1, 1, 1, 1, 1, 1, 154, 244, 112, 41, 88, 168, 233, 92, 154, 244, 112, 41, 88, 168, 233, 92, 154, 244, 112, 41, 88, 168, 233, 92, 154, 244, 112, 41, 88, 168, 233, 92, 154, 244, 112, 41, 88, 168, 233, 92, 154, 244, 112, 41, 88, 168, 233, 92, 154, 244, 112, 41, 88, 168, 233, 92, 154, 244, 112, 41, 88, 168, 233, 92, 0, 0, 0, 0, 0, 0, 0, 0, 0, 0, 0, 0, 0, 0, 0, 0, 0, 0, 0, 0, 0, 0, 0, 0, 0, 0, 0, 0, 0, 0, 0, 0, 0, 0, 0, 0, 0, 0, 0, 0, 0, 0, 0, 0, 0, 0, 0, 0, 0, 0, 0, 0, 0, 0, 0, 0, 0, 0, 0, 0, 0, 0, 0, 0] = [107, 107, 111, 1, 164, 211, 18, 226, 127, 156, 157, 127, 54, 170, 213, 89, 231, 57, 101, 110] := by
    rw [show (768 : Nat) = 704 + 64 from rfl, iterHash_add, a11, sha1ChainAc12]
  have a13 : iterHash sha1 832 [1, 1, 1, 1, 1, 1, 1, 1, 1, 1, 1, 1, 1, 1, 1, 1, 1, 1, 1, 1, 1, 1, 1, 1, 1, 1, 1, 1, 1, 1, 1, 1, 1, 1, 1, 1, 1, 1, 1, 1, 1, 1, 1, 1, 1, 1, 1, 1, 1, 1, 1, 1, 1, 1, 1, 1, 1, 1, 1, 1, 1, 1, 1, 1, 154, 244, 112, 41, 88, 168, 233, 92, 154, 244, 112, 41, 88, 168, 233, 92, 154, 244, 112, 41, 88, 168, 233, 92, 154, 244, 112, 41, 88, 168, 233, 92, 154, 244, 112, 41, 88, 168, 233, 92, 154, 244, 112, 41, 88, 168, 233, 92, 154, 244, 112, 41, 88, 168, 233, 92, 154, 244, 112, 41, 88, 168, 233, 92, 0, 0, 0, 0, 0, 0, 0, 0, 0, 0, 0, 0, 0, 0, 0, 0, 0, 0, 0, 0, 0, 0, 0, 0, 0, 0, 0, 0, 0, 0, 0, 0, 0, 0, 0, 0, 0, 0, 0, 0, 0, 0, 0, 0, 0, 0, 0, 0, 0, 0, 0, 0, 0, 0, 0, 0, 0, 0, 0, 0, 0, 0, 0, 0] = [36, 143, 230, 15, 119, 230, 126, 217, 46, 78, 149, 68, 190, 225, 115, 204, 160, 181, 225, 78] := by
    rw [show (832 : Nat) = 768 + 64 from rfl, iterHash_add, a12, sha1ChainAc13]
  have a14 : iterHash sha1 896 [1, 1, 1, 1, 1, 1, 1, 1, 1, 1, 1, 1, 1, 1, 1, 1, 1, 1, 1, 1, 1, 1, 1, 1, 1, 1, 1, 1, 1, 1, 1, 1, 1, 1, 1, 1, 1, 1, 1, 1, 1, 1, 1, 1, 1, 1, 1, 1, 1, 1, 1, 1, 1, 1, 1, 1, 1, 1, 1, 1, 1, 1, 1, 1, 154, 244, 112, 41, 88, 168, 233, 92, 154, 244, 112, 41, 88, 168, 233, 92, 154, 244, 112, 41, 88, 168, 233, 92, 154, 244, 112, 41, 88, 168, 233, 92, 154, 244, 112, 41, 88, 168, 233, 92, 154, 244, 112, 41, 88, 168, 233, 92, 154, 244, 112, 41, 88, 168, 233, 92, 154, 244, 112, 41, 88, 168, 233, 92, 0, 0, 0, 0, 0, 0, 0, 0, 0, 0, 0, 0, 0, 0, 0, 0, 0, 0, 0, 0, 0, 0, 0, 0, 0, 0, 0, 0, 0, 0, 0, 0, 0, 0, 0, 0, 0, 0, 0, 0, 0, 0, 0, 0, 0, 0, 0, 0, 0, 0, 0, 0, 0, 0, 0, 0, 0, 0, 0, 0, 0, 0, 0, 0] = [234, 115, 113, 231, 166, 250, 175, 99, 96, 247, 149, 254, 244, 251, 53, 238, 212, 85, 62, 64] := by
    rw [show (896 : Nat) = 832 + 64 from rfl, iterHash_add, a13, sha1ChainAc14]
  have a15 : iterHash sha1 960 [1, 1, 1, 1, 1, 1, 1, 1, 1, 1, 1, 1, 1, 1, 1, 1, 1, 1, 1, 1, 1, 1, 1, 1, 1, 1, 1, 1, 1, 1, 1, 1, 1, 1, 1, 1, 1, 1, 1, 1, 1, 1, 1, 1, 1, 1, 1, 1, 1, 1, 1, 1, 1, 1, 1, 1, 1, 1, 1, 1, 1, 1, 1, 1, 154, 244, 112, 41, 88, 168, 233, 92, 154, 244, 112, 41, 88, 168, 233, 92, 154, 244, 112, 41, 88, 168, 233, 92, 154, 244, 112, 41, 88, 168, 233, 92, 154, 244, 112, 41, 88, 168, 233, 92, 154, 244, 112, 41, 88, 168, 233, 92, 154, 244, 112, 41, 88, 168, 233, 92, 154, 244, 112, 41, 88, 168, 233, 92, 0, 0, 0, 0, 0, 0, 0, 0, 0, 0, 0, 0, 0, 0, 0, 0, 0, 0, 0, 0, 0, 0, 0, 0, 0, 0, 0, 0, 0, 0, 0, 0, 0, 0, 0, 0, 0, 0, 0, 0, 0, 0, 0, 0, 0, 0, 0, 0, 0, 0, 0, 0, 0, 0, 0, 0, 0, 0, 0, 0, 0, 0, 0, 0] = [211, 218, 94, 40, 188, 123, 0, 127, 223, 90, 216, 135, 217, 253, 229, 76, 204, 166, 203, 177] := by
    rw [show (960 : Nat) = 896 + 64 from rfl, iterHash_add, a14, sha1ChainAc15]
  have a16 : iterHash sha1 1024 [1, 1, 1, 1, 1, 1, 1, 1, 1, 1, 1, 1, 1, 1, 1, 1, 1, 1, 1, 1, 1, 1, 1, 1, 1, 1, 1, 1, 1, 1, 1, 1, 1, 1, 1, 1, 1, 1, 1, 1, 1, 1, 1, 1, 1, 1, 1, 1, 1, 1, 1, 1, 1, 1, 1, 1, 1, 1, 1, 1, 1, 1, 1, 1, 154, 244, 112, 41, 88, 168, 233, 92, 154, 244, 112, 41, 88, 168, 233, 92, 154, 244, 112, 41, 88, 168, 233, 92, 154, 244, 112, 41, 88, 168, 233, 92, 154, 244, 112, 41, 88, 168, 233, 92, 154, 244, 112, 41, 88, 168, 233, 92, 154, 244, 112, 41, 88, 168, 233, 92, 154, 244, 112, 41, 88, 168, 233, 92, 0, 0, 0, 0, 0, 0, 0, 0, 0, 0, 0, 0, 0, 0, 0, 0, 0, 0, 0, 0, 0, 0, 0, 0, 0, 0, 0, 0, 0, 0, 0, 0, 0, 0, 0, 0, 0, 0, 0, 0, 0, 0, 0, 0, 0, 0, 0, 0, 0, 0, 0, 0, 0, 0, 0, 0, 0, 0, 0, 0, 0, 0, 0, 0] = [108, 212, 254, 177, 149, 155, 162, 191, 124, 107, 142, 218, 195, 15, 159, 44, 175, 155, 198, 83] := by
    rw [show (1024 : Nat) = 960 + 64 from rfl, iterHash_add, a15, sha1ChainAc16]
  have a17 : iterHash sha1 1088 [1, 1, 1, 1, 1, 1, 1, 1, 1, 1, 1, 1, 1, 1, 1, 1, 1, 1, 1, 1, 1, 1, 1, 1, 1, 1, 1, 1, 1, 1, 1, 1, 1, 1, 1, 1, 1, 1, 1, 1, 1, 1, 1, 1, 1, 1, 1, 1, 1, 1, 1, 1, 1, 1, 1, 1, 1, 1, 1, 1, 1, 1, 1, 1, 154, 244, 112, 41, 88, 168, 233, 92, 154, 244, 112, 41, 88, 168, 233, 92, 154, 244, 112, 41, 88, 168, 233, 92, 154, 244, 112, 41, 88, 168, 233, 92, 154, 244, 112, 41, 88, 168, 233, 92, 154, 244, 112, 41, 88, 168, 233, 92, 154, 244, 112, 41, 88, 168, 233, 92, 154, 244, 112, 41, 88, 168, 233, 92, 0, 0, 0, 0, 0, 0, 0, 0, 0, 0, 0, 0, 0, 0, 0, 0, 0, 0, 0, 0, 0, 0, 0, 0, 0, 0, 0, 0, 0, 0, 0, 0, 0, 0, 0, 0, 0, 0, 0, 0, 0, 0, 0, 0, 0, 0, 0, 0, 0, 0, 0, 0, 0, 0, 0, 0, 0, 0, 0, 0, 0, 0, 0, 0] = [218, 48, 23, 44, 44, 115, 230, 161, 230, 79, 142, 92, 193, 174, 185, 176, 222, 186, 170, 241] := by
    rw [show (1088 : Nat) = 1024 + 64 from rfl, iterHash_add, a16, sha1ChainAc17]
  have a18 : iterHash sha1 1152 [1, 1, 1, 1, 1, 1, 1, 1, 1, 1, 1, 1, 1, 1, 1, 1, 1, 1, 1, 1, 1, 1, 1, 1, 1, 1, 1, 1, 1, 1, 1, 1, 1, 1, 1, 1, 1, 1, 1, 1, 1, 1, 1, 1, 1, 1, 1, 1, 1, 1, 1, 1, 1, 1, 1, 1, 1, 1, 1, 1, 1, 1, 1, 1, 154, 244, 112, 41, 88, 168, 233, 92, 154, 244, 112, 41, 88, 168, 233, 92, 154, 244, 112, 41, 88, 168, 233, 92, 154, 244, 112, 41, 88, 168, 233, 92, 154, 244, 112, 41, 88, 168, 233, 92, 154, 244, 112, 41, 88, 168, 233, 92, 154, 244, 112, 41, 88, 168, 233, 92, 154, 244, 112, 41, 88, 168, 233, 92, 0, 0, 0, 0, 0, 0, 0, 0, 0, 0, 0, 0, 0, 0, 0, 0, 0, 0, 0, 0, 0, 0, 0, 0, 0, 0, 0, 0, 0, 0, 0, 0, 0, 0, 0, 0, 0, 0, 0, 0, 0, 0, 0, 0, 0, 0, 0, 0, 0, 0, 0, 0, 0, 0, 0, 0, 0, 0, 0, 0, 0, 0, 0, 0] = [210, 254, 63, 247, 239, 12, 38, 198, 41, 77, 70, 192, 166, 66, 136, 33, 113, 69, 146, 119] := by
    rw [show (1152 : Nat) = 1088 + 64 from rfl, iterHash_add, a17, sha1ChainAc18]
  have a19 : iterHash sha1 1216 [1, 1, 1, 1, 1, 1, 1, 1, 1, 1, 1, 1, 1, 1, 1, 1, 1, 1, 1, 1, 1, 1, 1, 1, 1, 1, 1, 1, 1, 1, 1, 1, 1, 1, 1, 1, 1, 1, 1, 1, 1, 1, 1, 1, 1, 1, 1, 1, 1, 1, 1, 1, 1, 1, 1, 1, 1, 1, 1, 1, 1, 1, 1, 1, 154, 244, 112, 41, 88, 168, 233, 92, 154, 244, 112, 41, 88, 168, 233, 92, 154, 244, 112, 41, 88, 168, 233, 92, 154, 244, 112, 41, 88, 168, 233, 92, 154, 244, 112, 41, 88, 168, 233, 92, 154, 244, 112, 41, 88, 168, 233, 92, 154, 244, 112, 41, 88, 168, 233, 92, 154, 244, 112, 41, 88, 168, 233, 92, 0, 0, 0, 0, 0, 0, 0, 0, 0, 0, 0, 0, 0, 0, 0, 0, 0, 0, 0, 0, 0, 0, 0, 0, 0, 0, 0, 0, 0, 0, 0, 0, 0, 0, 0, 0, 0, 0, 0, 0, 0, 0, 0, 0, 0, 0, 0, 0, 0, 0, 0, 0, 0, 0, 0, 0, 0, 0, 0, 0, 0, 0, 0, 0] = [206, 106, 114, 118, 143, 70, 101, 61, 152, 228, 160, 231, 90, 16, 3, 228, 75, 65, 83, 4] := by
    rw [show (1216 : Nat) = 1152 + 64 from rfl, iterHash_add, a18, sha1ChainAc19]
  have a20 : iterHash sha1 1280 [1, 1, 1, 1, 1, 1, 1, 1, 1, 1, 1, 1, 1, 1, 1, 1, 1, 1, 1, 1, 1, 1, 1, 1, 1, 1, 1, 1, 1, 1, 1, 1, 1, 1, 1, 1, 1, 1, 1, 1, 1, 1, 1, 1, 1, 1, 1, 1, 1, 1, 1, 1, 1, 1, 1, 1, 1, 1, 1, 1, 1, 1, 1, 1, 154, 244, 112, 41, 88, 168, 233, 92, 154, 244, 112, 41, 88, 168, 233, 92, 154, 244, 112, 41, 88, 168, 233, 92, 154, 244, 112, 41, 88, 168, 233, 92, 154, 244, 112, 41, 88, 168, 233, 92, 154, 244, 112, 41, 88, 168, 233, 92, 154, 244, 112, 41, 88, 168, 233, 92, 154, 244, 112, 41, 88, 168, 233, 92, 0, 0, 0, 0, 0, 0, 0, 0, 0, 0, 0, 0, 0, 0, 0, 0, 0, 0, 0, 0, 0, 0, 0, 0, 0, 0, 0, 0, 0, 0, 0, 0, 0, 0, 0, 0, 0, 0, 0, 0, 0, 0, 0, 0, 0, 0, 0, 0, 0, 0, 0, 0, 0, 0, 0, 0, 0, 0, 0, 0, 0, 0, 0, 0] = [98, 93, 34, 146, 213, 185, 165, 72, 187, 234, 223, 255, 30, 180, 69, 191, 88, 1, 213, 249] := by
    rw [show (1280 : Nat) = 1216 + 64 from rfl, iterHash_add, a19, sha1ChainAc20]
  have a21 : iterHash sha1 1344 [1, 1, 1, 1, 1, 1, 1, 1, 1, 1, 1, 1, 1, 1, 1, 1, 1, 1, 1, 1, 1, 1, 1, 1, 1, 1, 1, 1, 1, 1, 1, 1, 1, 1, 1, 1, 1, 1, 1, 1, 1, 1, 1, 1, 1, 1, 1, 1, 1, 1, 1, 1, 1, 1, 1, 1, 1, 1, 1, 1, 1, 1, 1, 1, 154, 244, 112, 41, 88, 168, 233, 92, 154, 244, 112, 41, 88, 168, 233, 92, 154, 244, 112, 41, 88, 168, 233, 92, 154, 244, 112, 41, 88, 168, 233, 92, 154, 244, 112, 41, 88, 168, 233, 92, 154, 244, 112, 41, 88, 168, 233, 92, 154, 244, 112, 41, 88, 168, 233, 92, 154, 244, 112, 41, 88, 168, 233, 92, 0, 0, 0, 0, 0, 0, 0, 0, 0, 0, 0, 0, 0, 0, 0, 0, 0, 0, 0, 0, 0, 0, 0, 0, 0, 0, 0, 0, 0, 0, 0, 0, 0, 0, 0, 0, 0, 0, 0, 0, 0, 0, 0, 0, 0, 0, 0, 0, 0, 0, 0, 0, 0, 0, 0, 0, 0, 0, 0, 0, 0, 0, 0, 0] = [70, 201, 106, 236, 32, 189, 236, 100, 117, 125, 178, 187, 160, 93, 177, 79, 54, 135, 148, 6] := by
    rw [show (1344 : Nat) = 1280 + 64 from rfl, iterHash_add, a20, sha1ChainAc21]
  have a22 : iterHash sha1 1408 [1, 1, 1, 1, 1, 1, 1, 1, 1, 1, 1, 1, 1, 1, 1, 1, 1, 1, 1, 1, 1, 1, 1, 1, 1, 1, 1, 1, 1, 1, 1, 1, 1, 1, 1, 1, 1, 1, 1, 1, 1, 1, 1, 1, 1, 1, 1, 1, 1, 1, 1, 1, 1, 1, 1, 1, 1, 1, 1, 1, 1, 1, 1, 1, 154, 244, 112, 41, 88, 168, 233, 92, 154, 244, 112, 41, 88, 168, 233, 92, 154, 244, 112, 41, 88, 168, 233, 92, 154, 244, 112, 41, 88, 168, 233, 92, 154, 244, 112, 41, 88, 168, 233, 92, 154, 244, 112, 41, 88, 168, 233, 92, 154, 244, 112, 41, 88, 168, 233, 92, 154, 244, 112, 41, 88, 168, 233, 92, 0, 0, 0, 0, 0, 0, 0, 0, 0, 0, 0, 0, 0, 0, 0, 0, 0, 0, 0, 0, 0, 0, 0, 0, 0, 0, 0, 0, 0, 0, 0, 0, 0, 0, 0, 0, 0, 0, 0, 0, 0, 0, 0, 0, 0, 0, 0, 0, 0, 0, 0, 0, 0, 0, 0, 0, 0, 0, 0, 0, 0, 0, 0, 0] = [20, 97, 124, 138, 175, 8, 55, 166, 149, 84, 186, 233, 152, 34, 183, 226, 52, 107, 21, 251] := by
    rw [show (1408 : Nat) = 1344 + 64 from rfl, iterHash_add, a21, sha1ChainAc22]
  have a23 : iterHash sha1 1472 [1, 1, 1, 1, 1, 1, 1, 1, 1, 1, 1, 1, 1, 1, 1, 1, 1, 1, 1, 1, 1, 1, 1, 1, 1, 1, 1, 1, 1, 1, 1, 1, 1, 1, 1, 1, 1, 1, 1, 1, 1, 1, 1, 1, 1, 1, 1, 1, 1, 1, 1, 1, 1, 1, 1, 1, 1, 1, 1, 1, 1, 1, 1, 1, 154, 244, 112, 41, 88, 168, 233, 92, 154, 244, 112, 41, 88, 168, 233, 92, 154, 244, 112, 41, 88, 168, 233, 92, 154, 244, 112, 41, 88, 168, 233, 92, 154, 244, 112, 41, 88, 168, 233, 92, 154, 244, 112, 41, 88, 168, 233, 92, 154, 244, 112, 41, 88, 168, 233, 92, 154, 244, 112, 41, 88, 168, 233, 92, 0, 0, 0, 0, 0, 0, 0, 0, 0, 0, 0, 0, 0, 0, 0, 0, 0, 0, 0, 0, 0, 0, 0, 0, 0, 0, 0, 0, 0, 0, 0, 0, 0, 0, 0, 0, 0, 0, 0, 0, 0, 0, 0, 0, 0, 0, 0, 0, 0, 0, 0, 0, 0, 0, 0, 0, 0, 0, 0, 0, 0, 0, 0, 0] = [218, 104, 65, 130, 172, 136, 2, 139, 247, 69, 25, 96, 126, 54, 235, 77, 251, 145, 228, 64] := by
    rw [show (1472 : Nat) = 1408 + 64 from rfl, iterHash_add, a22, sha1ChainAc23]
  have a24 : iterHash sha1 1536 [1, 1, 1, 1, 1, 1, 1, 1, 1, 1, 1, 1, 1, 1, 1, 1, 1, 1, 1, 1, 1, 1, 1, 1, 1, 1, 1, 1, 1, 1, 1, 1, 1, 1, 1, 1, 1, 1, 1, 1, 1, 1, 1, 1, 1, 1, 1, 1, 1, 1, 1, 1, 1, 1, 1, 1, 1, 1, 1, 1, 1, 1, 1, 1, 154, 244, 112, 41, 88, 168, 233, 92, 154, 244, 112, 41, 88, 168, 233, 92, 154, 244, 112, 41, 88, 168, 233, 92, 154, 244, 112, 41, 88, 168, 233, 92, 154, 244, 112, 41, 88, 168, 233, 92, 154, 244, 112, 41, 88, 168, 233, 92, 154, 244, 112, 41, 88, 168, 233, 92, 154, 244, 112, 41, 88, 168, 233, 92, 0, 0, 0, 0, 0, 0, 0, 0, 0, 0, 0, 0, 0, 0, 0, 0, 0, 0, 0, 0, 0, 0, 0, 0, 0, 0, 0, 0, 0, 0, 0, 0, 0, 0, 0, 0, 0, 0, 0, 0, 0, 0, 0, 0, 0, 0, 0, 0, 0, 0, 0, 0, 0, 0, 0, 0, 0, 0, 0, 0, 0, 0, 0, 0] = [142, 229, 65, 134, 146, 239, 65, 174, 151, 177, 147, 208, 15, 19, 60, 131, 99, 65, 158, 175] := by
    rw [show (1536 : Nat) = 1472 + 64 from rfl, iterHash_add, a23, sha1ChainAc24]
  have a25 : iterHash sha1 1600 [1, 1, 1, 1, 1, 1, 1, 1, 1, 1, 1, 1, 1, 1, 1, 1, 1, 1, 1, 1, 1, 1, 1, 1, 1, 1, 1, 1, 1, 1, 1, 1, 1, 1, 1, 1, 1, 1, 1, 1, 1, 1, 1, 1, 1, 1, 1, 1, 1, 1, 1, 1, 1, 1, 1, 1, 1, 1, 1, 1, 1, 1, 1, 1, 154, 244, 112, 41, 88, 168, 233, 92, 154, 244, 112, 41, 88, 168, 233, 92, 154, 244, 112, 41, 88, 168, 233, 92, 154, 244, 112, 41, 88, 168, 233, 92, 154, 244, 112, 41, 88, 168, 233, 92, 154, 244, 112, 41, 88, 168, 233, 92, 154, 244, 112, 41, 88, 168, 233, 92, 154, 244, 112, 41, 88, 168, 233, 92, 0, 0, 0, 0, 0, 0, 0, 0, 0, 0, 0, 0, 0, 0, 0, 0, 0, 0, 0, 0, 0, 0, 0, 0, 0, 0, 0, 0, 0, 0, 0, 0, 0, 0, 0, 0, 0, 0, 0, 0, 0, 0, 0, 0, 0, 0, 0, 0, 0, 0, 0, 0, 0, 0, 0, 0, 0, 0, 0, 0, 0, 0, 0, 0] = [34, 169, 144, 40, 134, 30, 185, 133, 133, 228, 64, 156, 44, 214, 16, 85, 138, 123, 165, 225] := by
    rw [show (1600 : Nat) = 1536 + 64 from rfl, iterHash_add, a24, sha1ChainAc25]
  have a26 : iterHash sha1 1664 [1, 1, 1, 1, 1, 1, 1, 1, 1, 1, 1, 1, 1, 1, 1, 1, 1, 1, 1, 1, 1, 1, 1, 1, 1, 1, 1, 1, 1, 1, 1, 1, 1, 1, 1, 1, 1, 1, 1, 1, 1, 1, 1, 1, 1, 1, 1, 1, 1, 1, 1, 1, 1, 1, 1, 1, 1, 1, 1, 1, 1, 1, 1, 1, 154, 244, 112, 41, 88, 168, 233, 92, 154, 244, 112, 41, 88, 168, 233, 92, 154, 244, 112, 41, 88, 168, 233, 92, 154, 244, 112, 41, 88, 168, 233, 92, 154, 244, 112, 41, 88, 168, 233, 92, 154, 244, 112, 41, 88, 168, 233, 92, 154, 244, 112, 41, 88, 168, 233, 92, 154, 244, 112, 41, 88, 168, 233, 92, 0, 0, 0, 0, 0, 0, 0, 0, 0, 0, 0, 0, 0, 0, 0, 0, 0, 0, 0, 0, 0, 0, 0, 0, 0, 0, 0, 0, 0, 0, 0, 0, 0, 0, 0, 0, 0, 0, 0, 0, 0, 0, 0, 0, 0, 0, 0, 0, 0, 0, 0, 0, 0, 0, 0, 0, 0, 0, 0, 0, 0, 0, 0, 0] = [118, 191, 98, 208, 129, 97, 224, 126, 63, 245, 173, 147, 127, 64, 188, 13, 163, 44, 116, 222] := by
    rw [show (1664 : Nat) = 1600 + 64 from rfl, iterHash_add, a25, sha1ChainAc26]
  have a27 : iterHash sha1 1728 [1, 1, 1, 1, 1, 1, 1, 1, 1, 1, 1, 1, 1, 1, 1, 1, 1, 1, 1, 1, 1, 1, 1, 1, 1, 1, 1, 1, 1, 1, 1, 1, 1, 1, 1, 1, 1, 1, 1, 1, 1, 1, 1, 1, 1, 1, 1, 1, 1, 1, 1, 1, 1, 1, 1, 1, 1, 1, 1, 1, 1, 1, 1, 1, 154, 244, 112, 41, 88, 168, 233, 92, 154, 244, 112, 41, 88, 168, 233, 92, 154, 244, 112, 41, 88, 168, 233, 92, 154, 244, 112, 41, 88, 168, 233, 92, 154, 244, 112, 41, 88, 168, 233, 92, 154, 244, 112, 41, 88, 168, 233, 92, 154, 244, 112, 41, 88, 168, 233, 92, 154, 244, 112, 41, 88, 168, 233, 92, 0, 0, 0, 0, 0, 0, 0, 0, 0, 0, 0, 0, 0, 0, 0, 0, 0, 0, 0, 0, 0, 0, 0, 0, 0, 0, 0, 0, 0, 0, 0, 0, 0, 0, 0, 0, 0, 0, 0, 0, 0, 0, 0, 0, 0, 0, 0, 0, 0, 0, 0, 0, 0, 0, 0, 0, 0, 0, 0, 0, 0, 0, 0, 0] = [104, 159, 176, 11, 57, 40, 19, 145, 81, 244, 195, 253, 118, 246, 102, 21, 87, 5, 190, 6] := by
    rw [show (1728 : Nat) = 1664 + 64 from rfl, iterHash_add, a26, sha1ChainAc27]
  have a28 : iterHash sha1 1792 [1, 1, 1, 1, 1, 1, 1, 1, 1, 1, 1, 1, 1, 1, 1, 1, 1, 1, 1, 1, 1, 1, 1, 1, 1, 1, 1, 1, 1, 1, 1, 1, 1, 1, 1, 1, 1, 1, 1, 1, 1, 1, 1, 1, 1, 1, 1, 1, 1, 1, 1, 1, 1, 1, 1, 1, 1, 1, 1, 1, 1, 1, 1, 1, 154, 244, 112, 41, 88, 168, 233, 92, 154, 244, 112, 41, 88, 168, 233, 92, 154, 244, 112, 41, 88, 168, 233, 92, 154, 244, 112, 41, 88, 168, 233, 92, 154, 244, 112, 41, 88, 168, 233, 92, 154, 244, 112, 41, 88, 168, 233, 92, 154, 244, 112, 41, 88, 168, 233, 92, 154, 244, 112, 41, 88, 168, 233, 92, 0, 0, 0, 0, 0, 0, 0, 0, 0, 0, 0, 0, 0, 0, 0, 0, 0, 0, 0, 0, 0, 0, 0, 0, 0, 0, 0, 0, 0, 0, 0, 0, 0, 0, 0, 0, 0, 0, 0, 0, 0, 0, 0, 0, 0, 0, 0, 0, 0, 0, 0, 0, 0, 0, 0, 0, 0, 0, 0, 0, 0, 0, 0, 0] = [45, 116, 179, 48, 85, 235, 29, 165, 168, 164, 157, 110, 39, 164, 167, 255, 72, 19, 73, 253] := by
    rw [show (1792 : Nat) = 1728 + 64 from rfl, iterHash_add, a27, sha1ChainAc28]
  have a29 : iterHash sha1 1856 [1, 1, 1, 1, 1, 1, 1, 1, 1, 1, 1, 1, 1, 1, 1, 1, 1, 1, 1, 1, 1, 1, 1, 1, 1, 1, 1, 1, 1, 1, 1, 1, 1, 1, 1, 1, 1, 1, 1, 1, 1, 1, 1, 1, 1, 1, 1, 1, 1, 1, 1, 1, 1, 1, 1, 1, 1, 1, 1, 1, 1, 1, 1, 1, 154, 244, 112, 41, 88, 168, 233, 92, 154, 244, 112, 41, 88, 168, 233, 92, 154, 244, 112, 41, 88, 168, 233, 92, 154, 244, 112, 41, 88, 168, 233, 92, 154, 244, 112, 41, 88, 168, 233, 92, 154, 244, 112, 41, 88, 168, 233, 92, 154, 244, 112, 41, 88, 168, 233, 92, 154, 244, 112, 41, 88, 168, 233, 92, 0, 0, 0, 0, 0, 0, 0, 0, 0, 0, 0, 0, 0, 0, 0, 0, 0, 0, 0, 0, 0, 0, 0, 0, 0, 0, 0, 0, 0, 0, 0, 0, 0, 0, 0, 0, 0, 0, 0, 0, 0, 0, 0, 0, 0, 0, 0, 0, 0, 0, 0, 0, 0, 0, 0, 0, 0, 0, 0, 0, 0, 0, 0, 0] = [50, 1, 227, 8, 185, 253, 6, 92, 94, 108, 201, 219, 136, 60, 50, 22, 209, 147, 18, 252] := by
    rw [show (1856 : Nat) = 1792 + 64 from rfl, iterHash_add, a28, sha1ChainAc29]
  have a30 : iterHash sha1 1920 [1, 1, 1, 1, 1, 1, 1, 1, 1, 1, 1, 1, 1, 1, 1, 1, 1, 1, 1, 1, 1, 1, 1, 1, 1, 1, 1, 1, 1, 1, 1, 1, 1, 1, 1, 1, 1, 1, 1, 1, 1, 1, 1, 1, 1, 1, 1, 1, 1, 1, 1, 1, 1, 1, 1, 1, 1, 1, 1, 1, 1, 1, 1, 1, 154, 244, 112, 41, 88, 168, 233, 92, 154, 244, 112, 41, 88, 168, 233, 92, 154, 244, 112, 41, 88, 168, 233, 92, 154, 244, 112, 41, 88, 168, 233, 92, 154, 244, 112, 41, 88, 168, 233, 92, 154, 244, 112, 41, 88, 168, 233, 92, 154, 244, 112, 41, 88, 168, 233, 92, 154, 244, 112, 41, 88, 168, 233, 92, 0, 0, 0, 0, 0, 0, 0, 0, 0, 0, 0, 0, 0, 0, 0, 0, 0, 0, 0, 0, 0, 0, 0, 0, 0, 0, 0, 0, 0, 0, 0, 0, 0, 0, 0, 0, 0, 0, 0, 0, 0, 0, 0, 0, 0, 0, 0, 0, 0, 0, 0, 0, 0, 0, 0, 0, 0, 0, 0, 0, 0, 0, 0, 0] = [52, 230, 77, 12, 197, 43, 69, 125, 117, 22, 80, 159, 64, 36, 90, 30, 227, 250, 229, 121] := by
    rw [show (1920 : Nat) = 1856 + 64 from rfl, iterHash_add, a29, sha1ChainAc30]
  have a31 : iterHash sha1 1984 [1, 1, 1, 1, 1, 1, 1, 1, 1, 1, 1, 1, 1, 1, 1, 1, 1, 1, 1, 1, 1, 1, 1, 1, 1, 1, 1, 1, 1, 1, 1, 1, 1, 1, 1, 1, 1, 1, 1, 1, 1, 1, 1, 1, 1, 1, 1, 1, 1, 1, 1, 1, 1, 1, 1, 1, 1, 1, 1, 1, 1, 1, 1, 1, 154, 244, 112, 41, 88, 168, 233, 92, 154, 244, 112, 41, 88, 168, 233, 92, 154, 244, 112, 41, 88, 168, 233, 92, 154, 244, 112, 41, 88, 168, 233, 92, 154, 244, 112, 41, 88, 168, 233, 92, 154, 244, 112, 41, 88, 168, 233, 92, 154, 244, 112, 41, 88, 168, 233, 92, 154, 244, 112, 41, 88, 168, 233, 92, 0, 0, 0, 0, 0, 0, 0, 0, 0, 0, 0, 0, 0, 0, 0, 0, 0, 0, 0, 0, 0, 0, 0, 0, 0, 0, 0, 0, 0, 0, 0, 0, 0, 0, 0, 0, 0, 0, 0, 0, 0, 0, 0, 0, 0, 0, 0, 0, 0, 0, 0, 0, 0, 0, 0, 0, 0, 0, 0, 0, 0, 0, 0, 0] = [163, 124, 233, 47, 140, 98, 112, 127, 232, 194, 53, 57, 55, 1, 223, 249, 154, 62, 104, 29] := by
    rw [show (1984 : Nat) = 1920 + 64 from rfl, iterHash_add, a30, sha1ChainAc31]
  have a32 : iterHash sha1 2048 [1, 1, 1, 1, 1, 1, 1, 1, 1, 1, 1, 1, 1, 1, 1, 1, 1, 1, 1, 1, 1, 1, 1, 1, 1, 1, 1, 1, 1, 1, 1, 1, 1, 1, 1, 1, 1, 1, 1, 1, 1, 1, 1, 1, 1, 1, 1, 1, 1, 1, 1, 1, 1, 1, 1, 1, 1, 1, 1, 1, 1, 1, 1, 1, 154, 244, 112, 41, 88, 168, 233, 92, 154, 244, 112, 41, 88, 168, 233, 92, 154, 244, 112, 41, 88, 168, 233, 92, 154, 244, 112, 41, 88, 168, 233, 92, 154, 244, 112, 41, 88, 168, 233, 92, 154, 244, 112, 41, 88, 168, 233, 92, 154, 244, 112, 41, 88, 168, 233, 92, 154, 244, 112, 41, 88, 168, 233, 92, 0, 0, 0, 0, 0, 0, 0, 0, 0, 0, 0, 0, 0, 0, 0, 0, 0, 0, 0, 0, 0, 0, 0, 0, 0, 0, 0, 0, 0, 0, 0, 0, 0, 0, 0, 0, 0, 0, 0, 0, 0, 0, 0, 0, 0, 0, 0, 0, 0, 0, 0, 0, 0, 0, 0, 0, 0, 0, 0, 0, 0, 0, 0, 0] = [194, 41, 74, 166, 208, 41, 48, 235, 92, 233, 195, 41, 236, 203, 154, 238, 28, 177, 54, 186] := by
    rw [show (2048 : Nat) = 1984 + 64 from rfl, iterHash_add, a31, sha1ChainAc32]
  exact a32

theorem sha1ChainBc01 : iterHash sha1 64 [1, 1, 1, 1, 1, 1, 1, 1, 1, 1, 1, 1, 1, 1, 1, 1, 1, 1, 1, 1, 1, 1, 1, 1, 1, 1, 1, 1, 1, 1, 1, 1, 1, 1, 1, 1, 1, 1, 1, 1, 1, 1, 1, 1, 1, 1, 1, 1, 1, 1, 1, 1, 1, 1, 1, 1, 1, 1, 1, 1, 1, 1, 1, 1, 93, 29, 186, 208, 40, 210, 26, 71, 247, 222, 51, 83, 69, 116, 132, 74, 183, 165, 166, 228, 26, 210, 52, 3, 107, 29, 161, 20, 181, 146, 172, 134, 135, 192, 11, 23, 117, 90, 32, 23, 93, 29, 186, 208, 40, 210, 26, 71, 247, 222, 51, 83, 69, 116, 132, 74, 183, 165, 166, 228, 26, 210, 52, 3, 194, 41, 74, 166, 208, 41, 48, 235, 92, 233, 195, 41, 236, 203, 154, 238, 28, 177, 54, 186, 194, 41, 74, 166, 208, 41, 48, 235, 92, 233, 195, 41, 236, 203, 154, 238, 28, 177, 54, 186, 194, 41, 74, 166, 208, 41, 48, 235, 92, 233, 195, 41, 236, 203, 154, 238, 28, 177, 54, 186, 194, 41, 74, 167] = [11, 210, 35, 136, 21, 194, 185, 162, 230, 106, 64, 218, 189, 126, 139, 157, 251, 211, 149, 25] := by
  rw [← sha1IterF_eq_iterHash]; decide

theorem sha1ChainBc02 : iterHash sha1 64 [11, 210, 35, 136, 21, 194, 185, 162, 230, 106, 64, 218, 189, 126, 139, 157, 251, 211, 149, 25] = [178, 123, 45, 123, 43, 241, 77, 223, 38, 160, 18, 44, 251, 124, 171, 227, 7, 8, 150, 47] := by
  rw [← sha1IterF_eq_iterHash]; decide

theorem sha1ChainBc03 : iterHash sha1 64 [178, 123, 45, 123, 43, 241, 77, 223, 38, 160, 18, 44, 251, 124, 171, 227, 7, 8, 150, 47] = [73, 149, 52, 35, 56, 56, 51, 47, 113, 223, 68, 148, 229, 164, 155, 53, 176, 12, 114, 112] := by
  rw [← sha1IterF_eq_iterHash]; decide

theorem sha1ChainBc04 : iterHash sha1 64 [73, 149, 52, 35, 56, 56, 51, 47, 113, 223, 68, 148, 229, 164, 155, 53, 176, 12, 114, 112] = [112, 64, 238, 105, 136, 204, 103, 29, 141, 243, 27, 46, 126, 184, 126, 242, 127, 41, 79, 85] := by
  rw [← sha1IterF_eq_iterHash]; decide

theorem sha1ChainBc05 : iterHash sha1 64 [112, 64, 238, 105, 136, 204, 103, 29, 141, 243, 27, 46, 126, 184, 126, 242, 127, 41, 79, 85] = [10, 222, 40, 123, 54, 253, 7, 237, 240, 252, 237, 130, 8, 14, 185, 26, 185, 174, 68, 76] := by
  rw [← sha1IterF_eq_iterHash]; decide

theorem sha1ChainBc06 : iterHash sha1 64 [10, 222, 40, 123, 54, 253, 7, 237, 240, 252, 237, 130, 8, 14, 185, 26, 185, 174, 68, 76] = [235, 74, 235, 111, 73, 64, 22, 51, 240, 221, 59, 77, 149, 212, 23, 34, 88, 191, 219, 71] := by
  rw [← sha1IterF_eq_iterHash]; decide

theorem sha1ChainBc07 : iterHash sha1 64 [235, 74, 235, 111, 73, 64, 22, 51, 240, 221, 59, 77, 149, 212, 23, 34, 88, 191, 219, 71] = [225, 24, 184, 159, 109, 132, 119, 176, 240, 171, 157, 11, 61, 157, 237, 104, 246, 36, 84, 6] := by
  rw [← sha1IterF_eq_iterHash]; decide

theorem sha1ChainBc08 : iterHash sha1 64 [225, 24, 184, 159, 109, 132, 119, 176, 240, 171, 157, 11, 61, 157, 237, 104, 246, 36, 84, 6] = [179, 101, 152, 52, 197, 40, 29, 31, 127, 58, 210, 137, 0, 125, 234, 239, 201, 234, 101, 99] := by
  rw [← sha1IterF_eq_iterHash]; decide

theorem sha1ChainBc09 : iterHash sha1 64 [179, 101, 152, 52, 197, 40, 29, 31, 127, 58, 210, 137, 0, 125, 234, 239, 201, 234, 101, 99] = [126, 243, 113, 76, 115, 203, 206, 7, 29, 124, 41, 95, 137, 226, 115, 31, 51, 220, 191, 162] := by
  rw [← sha1IterF_eq_iterHash]; decide

theorem sha1ChainBc10 : iterHash sha1 64 [126, 243, 113, 76, 115, 203, 206, 7, 29, 124, 41, 95, 137, 226, 115, 31, 51, 220, 191, 162] = [194, 150, 240, 200, 216, 8, 242, 13, 144, 125, 222, 144, 231, 228, 222, 29, 28, 214, 203, 170] := by
  rw [← sha1IterF_eq_iterHash]; decide

theorem sha1ChainBc11 : iterHash sha1 64 [194, 150, 240, 200, 216, 8, 242, 13, 144, 125, 222, 144, 231, 228, 222, 29, 28, 214, 203, 170] = [247, 123, 185, 40, 185, 111, 167, 53, 15, 156, 217, 55, 129, 20, 108, 81, 0, 156, 85, 157] := by
  rw [← sha1IterF_eq_iterHash]; decide

theorem sha1ChainBc12 : iterHash sha1 64 [247, 123, 185, 40, 185, 111, 167, 53, 15, 156, 217, 55, 129, 20, 108, 81, 0, 156, 85, 157] = [253, 35, 97, 120, 27, 101, 33, 17, 172, 20, 39, 149, 111, 38, 153, 175, 232, 112, 123, 170] := by
  rw [← sha1IterF_eq_iterHash]; decide

theorem sha1ChainBc13 : iterHash sha1 64 [253, 35, 97, 120, 27, 101, 33, 17, 172, 20, 39, 149, 111, 38, 153, 175, 232, 112, 123, 170] = [197, 206, 198, 100, 108, 204, 9, 109, 198, 189, 1, 44, 229, 255, 188, 65, 101, 144, 121, 205] := by
  rw [← sha1IterF_eq_iterHash]; decide

theorem sha1ChainBc14 : iterHash sha1 64 [197, 206, 198, 100, 108, 204, 9, 109, 198, 189, 1, 44, 229, 255, 188, 65, 101, 144, 121, 205] = [215, 244, 223, 97, 1, 84, 99, 153, 193, 125, 125, 101, 61, 64, 82, 58, 86, 79, 90, 11] := by
  rw [← sha1IterF_eq_iterHash]; decide

theorem sha1ChainBc15 : iterHash sha1 64 [215, 244, 223, 97, 1, 84, 99, 153, 193, 125, 125, 101, 61, 64, 82, 58, 86, 79, 90, 11] = [67, 27, 182, 191, 86, 35, 73, 149, 56, 55, 215, 186, 253, 141, 75, 68, 3, 229, 235, 17] := by
  rw [← sha1IterF_eq_iterHash]; decide

theorem sha1ChainBc16 : iterHash sha1 64 [67, 27, 182, 191, 86, 35, 73, 149, 56, 55, 215, 186, 253, 141, 75, 68, 3, 229, 235, 17] = [213, 68, 158, 201, 35, 73, 178, 48, 238, 39, 66, 111, 91, 214, 36, 182, 204, 196, 220, 23] := by
  rw [← sha1IterF_eq_iterHash]; decide

theorem sha1ChainBc17 : iterHash sha1 64 [213, 68, 158, 201, 35, 73, 178, 48, 238, 39, 66, 111, 91, 214, 36, 182, 204, 196, 220, 23] = [209, 114, 7, 39, 17, 209, 240, 38, 74, 249, 30, 219, 29, 90, 139, 212, 134, 110, 145, 240] := by
  rw [← sha1IterF_eq_iterHash]; decide

theorem sha1ChainBc18 : iterHash sha1 64 [209, 114, 7, 39, 17, 209, 240, 38, 74, 249, 30, 219, 29, 90, 139, 212, 134, 110, 145, 240] = [74, 160, 186, 157, 44, 198, 46, 49, 249, 167, 222, 31, 16, 142, 202, 41, 27, 47, 98, 58] := by
  rw [← sha1IterF_eq_iterHash]; decide

theorem sha1ChainBc19 : iterHash sha1 64 [74, 160, 186, 157, 44, 198, 46, 49, 249, 167, 222, 31, 16, 142, 202, 41, 27, 47, 98, 58] = [123, 57, 187, 139, 39, 4, 104, 148, 185, 158, 34, 146, 222, 65, 7, 247, 51, 163, 249, 89] := by
  rw [← sha1IterF_eq_iterHash]; decide

theorem sha1ChainBc20 : iterHash sha1 64 [123, 57, 187, 139, 39, 4, 104, 148, 185, 158, 34, 146, 222, 65, 7, 247, 51, 163, 249, 89] = [126, 157, 110, 1, 197, 64, 167, 71, 195, 72, 106, 207, 74, 45, 95, 136, 85, 129, 130, 126] := by
  rw [← sha1IterF_eq_iterHash]; decide

theorem sha1ChainBc21 : iterHash sha1 64 [126, 157, 110, 1, 197, 64, 167, 71, 195, 72, 106, 207, 74, 45, 95, 136, 85, 129, 130, 126] = [42, 71, 64, 92, 31, 10, 250, 97, 55, 191, 66, 95, 83, 23, 159, 186, 38, 5, 125, 146] := by
  rw [← sha1IterF_eq_iterHash]; decide

theorem sha1ChainBc22 : iterHash sha1 64 [42, 71, 64, 92, 31, 10, 250, 97, 55, 191, 66, 95, 83, 23, 159, 186, 38, 5, 125, 146] = [71, 60, 82, 62, 212, 19, 225, 18, 140, 98, 202, 129, 64, 72, 23, 86, 96, 57, 115, 47] := by
  rw [← sha1IterF_eq_iterHash]; decide

theorem sha1ChainBc23 : iterHash sha1 64 [71, 60, 82, 62, 212, 19, 225, 18, 140, 98, 202, 129, 64, 72, 23, 86, 96, 57, 115, 47] = [58, 125, 198, 147, 242, 146, 28, 241, 239, 125, 86, 221, 46, 133, 126, 39, 252, 106, 22, 151] := by
  rw [← sha1IterF_eq_iterHash]; decide

theorem sha1ChainBc24 : iterHash sha1 64 [58, 125, 198, 147, 242, 146, 28, 241, 239, 125, 86, 221, 46, 133, 126, 39, 252, 106, 22, 151] = [139, 177, 207, 62, 50, 54, 46, 74, 40, 44, 50, 98, 11, 19, 63, 178, 176, 184, 219, 186] := by
  rw [← sha1IterF_eq_iterHash]; decide

theorem sha1ChainBc25 : iterHash sha1 64 [139, 177, 207, 62, 50, 54, 46, 74, 40, 44, 50, 98, 11, 19, 63, 178, 176, 184, 219, 186] = [44, 105, 95, 112, 248, 76, 174, 20, 22, 162, 226, 90, 191, 77, 151, 140, 84, 167, 237, 18] := by
  rw [← sha1IterF_eq_iterHash]; decide

theorem sha1ChainBc26 : iterHash sha1 64 [44, 105, 95, 112, 248, 76, 174, 20, 22, 162, 226, 90, 191, 77, 151, 140, 84, 167, 237, 18] = [87, 47, 44, 116, 229, 51, 191, 242, 23, 243, 203, 41, 107, 206, 159, 6, 12, 97, 245, 100] := by
  rw [← sha1IterF_eq_iterHash]; decide

theorem sha1ChainBc27 : iterHash sha1 64 [87, 47, 44, 116, 229, 51, 191, 242, 23, 243, 203, 41, 107, 206, 159, 6, 12, 97, 245, 100] = [5, 176, 227, 183, 59, 9, 1, 5, 21, 184, 19, 43, 103, 16, 98, 85, 192, 32, 183, 235] := by
  rw [← sha1IterF_eq_iterHash]; decide

theorem sha1ChainBc28 : iterHash sha1 64 [5, 176, 227, 183, 59, 9, 1, 5, 21, 184, 19, 43, 103, 16, 98, 85, 192, 32, 183, 235] = [76, 63, 199, 238, 112, 31, 171, 96, 220, 237, 164, 246, 140, 132, 141, 168, 29, 15, 100, 189] := by
  rw [← sha1IterF_eq_iterHash]; decide

theorem sha1ChainBc29 : iterHash sha1 64 [76, 63, 199, 238, 112, 31, 171, 96, 220, 237, 164, 246, 140, 132, 141, 168, 29, 15, 100, 189] = [59, 88, 135, 34, 53, 39, 31, 189, 78, 190, 177, 217, 102, 184, 108, 35, 9, 94, 55, 214] := by
  rw [← sha1IterF_eq_iterHash]; decide

theorem sha1ChainBc30 : iterHash sha1 64 [59, 88, 135, 34, 53, 39, 31, 189, 78, 190, 177, 217, 102, 184, 108, 35, 9, 94, 55, 214] = [216, 135, 115, 84, 176, 139, 231, 253, 36, 81, 68, 53, 28, 41, 148, 58, 221, 84, 169, 43] := by
  rw [← sha1IterF_eq_iterHash]; decide

theorem sha1ChainBc31 : iterHash sha1 64 [216, 135, 115, 84, 176, 139, 231, 253, 36, 81, 68, 53, 28, 41, 148, 58, 221, 84, 169, 43] = [33, 186, 181, 78, 232, 66, 243, 17, 90, 23, 80, 137, 48, 1, 114, 40, 16, 71, 21, 35] := by
  rw [← sha1IterF_eq_iterHash]; decide

theorem sha1ChainBc32 : iterHash sha1 64 [33, 186, 181, 78, 232, 66, 243, 17, 90, 23, 80, 137, 48, 1, 114, 40, 16, 71, 21, 35] = [234, 116, 101, 87, 113, 49, 238, 126, 99, 54, 108, 66, 190, 105, 69, 17, 132, 145, 167, 194] := by
  rw [← sha1IterF_eq_iterHash]; decide

/-- Glued 2048-fold SHA-1 iteration for one KDF chunk. -/
theorem sha1ChainB : iterHash sha1 2048 [1, 1, 1, 1, 1, 1, 1, 1, 1, 1, 1, 1, 1, 1, 1, 1, 1, 1, 1, 1, 1, 1, 1, 1, 1, 1, 1, 1, 1, 1, 1, 1, 1, 1, 1, 1, 1, 1, 1, 1, 1, 1, 1, 1, 1, 1, 1, 1, 1, 1, 1, 1, 1, 1, 1, 1, 1, 1, 1, 1, 1, 1, 1, 1, 93, 29, 186, 208, 40, 210, 26, 71, 247, 222, 51, 83, 69, 116, 132, 74, 183, 165, 166, 228, 26, 210, 52, 3, 107, 29, 161, 20, 181, 146, 172, 134, 135, 192, 11, 23, 117, 90, 32, 23, 93, 29, 186, 208, 40, 210, 26, 71, 247, 222, 51, 83, 69, 116, 132, 74, 183, 165, 166, 228, 26, 210, 52, 3, 194, 41, 74, 166, 208, 41, 48, 235, 92, 233, 195, 41, 236, 203, 154, 238, 28, 177, 54, 186, 194, 41, 74, 166, 208, 41, 48, 235, 92, 233, 195, 41, 236, 203, 154, 238, 28, 177, 54, 186, 194, 41, 74, 166, 208, 41, 48, 235, 92, 233, 195, 41, 236, 203, 154, 238, 28, 177, 54, 186, 194, 41, 74, 167] = [234, 116, 101, 87, 113, 49, 238, 126, 99, 54, 108, 66, 190, 105, 69, 17, 132, 145, 167, 194] := by
  have a1 : iterHash sha1 64 [1, 1, 1, 1, 1, 1, 1, 1, 1, 1, 1, 1, 1, 1, 1, 1, 1, 1, 1, 1, 1, 1, 1, 1, 1, 1, 1, 1, 1, 1, 1, 1, 1, 1, 1, 1, 1, 1, 1, 1, 1, 1, 1, 1, 1, 1, 1, 1, 1, 1, 1, 1, 1, 1, 1, 1, 1, 1, 1, 1, 1, 1, 1, 1, 93, 29, 186, 208, 40, 210, 26, 71, 247, 222, 51, 83, 69, 116, 132, 74, 183, 165, 166, 228, 26, 210, 52, 3, 107, 29, 161, 20, 181, 146, 172, 134, 135, 192, 11, 23, 117, 90, 32, 23, 93, 29, 186, 208, 40, 210, 26, 71, 247, 222, 51, 83, 69, 116, 132, 74, 183, 165, 166, 228, 26, 210, 52, 3, 194, 41, 74, 166, 208, 41, 48, 235, 92, 233, 195, 41, 236, 203, 154, 238, 28, 177, 54, 186, 194, 41, 74, 166, 208, 41, 48, 235, 92, 233, 195, 41, 236, 203, 154, 238, 28, 177, 54, 186, 194, 41, 74, 166, 208, 41, 48, 235, 92, 233, 195, 41, 236, 203, 154, 238, 28, 177, 54, 186, 194, 41, 74, 167] = [11, 210, 35, 136, 21, 194, 185, 162, 230, 106, 64, 218, 189, 126, 139, 157, 251, 211, 149, 25] := sha1ChainBc01
  have a2 : iterHash sha1 128 [1, 1, 1, 1, 1, 1, 1, 1, 1, 1, 1, 1, 1, 1, 1, 1, 1, 1, 1, 1, 1, 1, 1, 1, 1, 1, 1, 1, 1, 1, 1, 1, 1, 1, 1, 1, 1, 1, 1, 1, 1, 1, 1, 1, 1, 1, 1, 1, 1, 1, 1, 1, 1, 1, 1, 1, 1, 1, 1, 1, 1, 1, 1, 1, 93, 29, 186, 208, 40, 210, 26, 71, 247, 222, 51, 83, 69, 116, 132, 74, 183, 165, 166, 228, 26, 210, 52, 3, 107, 29, 161, 20, 181, 146, 172, 134, 135, 192, 11, 23, 117, 90, 32, 23, 93, 29, 186, 208, 40, 210, 26, 71, 247, 222, 51, 83, 69, 116, 132, 74, 183, 165, 166, 228, 26, 210, 52, 3, 194, 41, 74, 166, 208, 41, 48, 235, 92, 233, 195, 41, 236, 203, 154, 238, 28, 177, 54, 186, 194, 41, 74, 166, 208, 41, 48, 235, 92, 233, 195, 41, 236, 203, 154, 238, 28, 177, 54, 186, 194, 41, 74, 166, 208, 41, 48, 235, 92, 233, 195, 41, 236, 203, 154, 238, 28, 177, 54, 186, 194, 41, 74, 167] = [178, 123, 45, 123, 43, 241, 77, 223, 38, 160, 18, 44, 251, 124, 171, 227, 7, 8, 150, 47] := by
    rw [show (128 : Nat) = 64 + 64 from rfl, iterHash_add, a1, sha1ChainBc02]
  have a3 : iterHash sha1 192 [1, 1, 1, 1, 1, 1, 1, 1, 1, 1, 1, 1, 1, 1, 1, 1, 1, 1, 1, 1, 1, 1, 1, 1, 1, 1, 1, 1, 1, 1, 1, 1, 1, 1, 1, 1, 1, 1, 1, 1, 1, 1, 1, 1, 1, 1, 1, 1, 1, 1, 1, 1, 1, 1, 1, 1, 1, 1, 1, 1, 1, 1, 1, 1, 93, 29, 186, 208, 40, 210, 26, 71, 247, 222, 51, 83, 69, 116, 132, 74, 183, 165, 166, 228, 26, 210, 52, 3, 107, 29, 161, 20, 181, 146, 172, 134, 135, 192, 11, 23, 117, 90, 32, 23, 93, 29, 186, 208, 40, 210, 26, 71, 247, 222, 51, 83, 69, 116, 132, 74, 183, 165, 166, 228, 26, 210, 52, 3, 194, 41, 74, 166, 208, 41, 48, 235, 92, 233, 195, 41, 236, 203, 154, 238, 28, 177, 54, 186, 194, 41, 74, 166, 208, 41, 48, 235, 92, 233, 195, 41, 236, 203, 154, 238, 28, 177, 54, 186, 194, 41, 74, 166, 208, 41, 48, 235, 92, 233, 195, 41, 236, 203, 154, 238, 28, 177, 54, 186, 194, 41, 74, 167] = [73, 149, 52, 35, 56, 56, 51, 47, 113, 223, 68, 148, 229, 164, 155, 53, 176, 12, 114, 112] := by
    rw [show (192 : Nat) = 128 + 64 from rfl, iterHash_add, a2, sha1ChainBc03]
  have a4 : iterHash sha1 256 [1, 1, 1, 1, 1, 1, 1, 1, 1, 1, 1, 1, 1, 1, 1, 1, 1, 1, 1, 1, 1, 1, 1, 1, 1, 1, 1, 1, 1, 1, 1, 1, 1, 1, 1, 1, 1, 1, 1, 1, 1, 1, 1, 1, 1, 1, 1, 1, 1, 1, 1, 1, 1, 1, 1, 1, 1, 1, 1, 1, 1, 1, 1, 1, 93, 29, 186, 208, 40, 210, 26, 71, 247, 222, 51, 83, 69, 116, 132, 74, 183, 165, 166, 228, 26, 210, 52, 3, 107, 29, 161, 20, 181, 146, 172, 134, 135, 192, 11, 23, 117, 90, 32, 23, 93, 29, 186, 208, 40, 210, 26, 71, 247, 222, 51, 83, 69, 116, 132, 74, 183, 165, 166, 228, 26, 210, 52, 3, 194, 41, 74, 166, 208, 41, 48, 235, 92, 233, 195, 41, 236, 203, 154, 238, 28, 177, 54, 186, 194, 41, 74, 166, 208, 41, 48, 235, 92, 233, 195, 41, 236, 203, 154, 238, 28, 177, 54, 186, 194, 41, 74, 166, 208, 41, 48, 235, 92, 233, 195, 41, 236, 203, 154, 238, 28, 177, 54, 186, 194, 41, 74, 167] = [112, 64, 238, 105, 136, 204, 103, 29, 141, 243, 27, 46, 126, 184, 126, 242, 127, 41, 79, 85] := by
    rw [show (256 : Nat) = 192 + 64 from rfl, iterHash_add, a3, sha1ChainBc04]
  have a5 : iterHash sha1 320 [1, 1, 1, 1, 1, 1, 1, 1, 1, 1, 1, 1, 1, 1, 1, 1, 1, 1, 1, 1, 1, 1, 1, 1, 1, 1, 1, 1, 1, 1, 1, 1, 1, 1, 1, 1, 1, 1, 1, 1, 1, 1, 1, 1, 1, 1, 1, 1, 1, 1, 1, 1, 1, 1, 1, 1, 1, 1, 1, 1, 1, 1, 1, 1, 93, 29, 186, 208, 40, 210, 26, 71, 247, 222, 51, 83, 69, 116, 132, 74, 183, 165, 166, 228, 26, 210, 52, 3, 107, 29, 161, 20, 181, 146, 172, 134, 135, 192, 11, 23, 117, 90, 32, 23, 93, 29, 186, 208, 40, 210, 26, 71, 247, 222, 51, 83, 69, 116, 132, 74, 183, 165, 166, 228, 26, 210, 52, 3, 194, 41, 74, 166, 208, 41, 48, 235, 92, 233, 195, 41, 236, 203, 154, 238, 28, 177, 54, 186, 194, 41, 74, 166, 208, 41, 48, 235, 92, 233, 195, 41, 236, 203, 154, 238, 28, 177, 54, 186, 194, 41, 74, 166, 208, 41, 48, 235, 92, 233, 195, 41, 236, 203, 154, 238, 28, 177, 54, 186, 194, 41, 74, 167] = [10, 222, 40, 123, 54, 253, 7, 237, 240, 252, 237, 130, 8, 14, 185, 26, 185, 174, 68, 76] := by
    rw [show (320 : Nat) = 256 + 64 from rfl, iterHash_add, a4, sha1ChainBc05]
  have a6 : iterHash sha1 384 [1, 1, 1, 1, 1, 1, 1, 1, 1, 1, 1, 1, 1, 1, 1, 1, 1, 1, 1, 1, 1, 1, 1, 1, 1, 1, 1, 1, 1, 1, 1, 1, 1, 1, 1, 1, 1, 1, 1, 1, 1, 1, 1, 1, 1, 1, 1, 1, 1, 1, 1, 1, 1, 1, 1, 1, 1, 1, 1, 1, 1, 1, 1, 1, 93, 29, 186, 208, 40, 210, 26, 71, 247, 222, 51, 83, 69, 116, 132, 74, 183, 165, 166, 228, 26, 210, 52, 3, 107, 29, 161, 20, 181, 146, 172, 134, 135, 192, 11, 23, 117, 90, 32, 23, 93, 29, 186, 208, 40, 210, 26, 71, 247, 222, 51, 83, 69, 116, 132, 74, 183, 165, 166, 228, 26, 210, 52, 3, 194, 41, 74, 166, 208, 41, 48, 235, 92, 233, 195, 41, 236, 203, 154, 238, 28, 177, 54, 186, 194, 41, 74, 166, 208, 41, 48, 235, 92, 233, 195, 41, 236, 203, 154, 238, 28, 177, 54, 186, 194, 41, 74, 166, 208, 41, 48, 235, 92, 233, 195, 41, 236, 203, 154, 238, 28, 177, 54, 186, 194, 41, 74, 167] = [235, 74, 235, 111, 73, 64, 22, 51, 240, 221, 59, 77, 149, 212, 23, 34, 88, 191, 219, 71] := by
    rw [show (384 : Nat) = 320 + 64 from rfl, iterHash_add, a5, sha1ChainBc06]
  have a7 : iterHash sha1 448 [1, 1, 1, 1, 1, 1, 1, 1, 1, 1, 1, 1, 1, 1, 1, 1, 1, 1, 1, 1, 1, 1, 1, 1, 1, 1, 1, 1, 1, 1, 1, 1, 1, 1, 1, 1, 1, 1, 1, 1, 1, 1, 1, 1, 1, 1, 1, 1, 1, 1, 1, 1, 1, 1, 1, 1, 1, 1, 1, 1, 1, 1, 1, 1, 93, 29, 186, 208, 40, 210, 26, 71, 247, 222, 51, 83, 69, 116, 132, 74, 183, 165, 166, 228, 26, 210, 52, 3, 107, 29, 161, 20, 181, 146, 172, 134, 135, 192, 11, 23, 117, 90, 32, 23, 93, 29, 186, 208, 40, 210, 26, 71, 247, 222, 51, 83, 69, 116, 132, 74, 183, 165, 166, 228, 26, 210, 52, 3, 194, 41, 74, 166, 208, 41, 48, 235, 92, 233, 195, 41, 236, 203, 154, 238, 28, 177, 54, 186, 194, 41, 74, 166, 208, 41, 48, 235, 92, 233, 195, 41, 236, 203, 154, 238, 28, 177, 54, 186, 194, 41, 74, 166, 208, 41, 48, 235, 92, 233, 195, 41, 236, 203, 154, 238, 28, 177, 54, 186, 194, 41, 74, 167] = [225, 24, 184, 159, 109, 132, 119, 176, 240, 171, 157, 11, 61, 157, 237, 104, 246, 36, 84, 6] := by
    rw [show (448 : Nat) = 384 + 64 from rfl, iterHash_add, a6, sha1ChainBc07]
  have a8 : iterHash sha1 512 [1, 1, 1, 1, 1, 1, 1, 1, 1, 1, 1, 1, 1, 1, 1, 1, 1, 1, 1, 1, 1, 1, 1, 1, 1, 1, 1, 1, 1, 1, 1, 1, 1, 1, 1, 1, 1, 1, 1, 1, 1, 1, 1, 1, 1, 1, 1, 1, 1, 1, 1, 1, 1, 1, 1, 1, 1, 1, 1, 1, 1, 1, 1, 1, 93, 29, 186, 208, 40, 210, 26, 71, 247, 222, 51, 83, 69, 116, 132, 74, 183, 165, 166, 228, 26, 210, 52, 3, 107, 29, 161, 20, 181, 146, 172, 134, 135, 192, 11, 23, 117, 90, 32, 23, 93, 29, 186, 208, 40, 210, 26, 71, 247, 222, 51, 83, 69, 116, 132, 74, 183, 165, 166, 228, 26, 210, 52, 3, 194, 41, 74, 166, 208, 41, 48, 235, 92, 233, 195, 41, 236, 203, 154, 238, 28, 177, 54, 186, 194, 41, 74, 166, 208, 41, 48, 235, 92, 233, 195, 41, 236, 203, 154, 238, 28, 177, 54, 186, 194, 41, 74, 166, 208, 41, 48, 235, 92, 233, 195, 41, 236, 203, 154, 238, 28, 177, 54, 186, 194, 41, 74, 167] = [179, 101, 152, 52, 197, 40, 29, 31, 127, 58, 210, 137, 0, 125, 234, 239, 201, 234, 101, 99] := by
    rw [show (512 : Nat) = 448 + 64 from rfl, iterHash_add, a7, sha1ChainBc08]
  have a9 : iterHash sha1 576 [1, 1, 1, 1, 1, 1, 1, 1, 1, 1, 1, 1, 1, 1, 1, 1, 1, 1, 1, 1, 1, 1, 1, 1, 1, 1, 1, 1, 1, 1, 1, 1, 1, 1, 1, 1, 1, 1, 1, 1, 1, 1, 1, 1, 1, 1, 1, 1, 1, 1, 1, 1, 1, 1, 1, 1, 1, 1, 1, 1, 1, 1, 1, 1, 93, 29, 186, 208, 40, 210, 26, 71, 247, 222, 51, 83, 69, 116, 132, 74, 183, 165, 166, 228, 26, 210, 52, 3, 107, 29, 161, 20, 181, 146, 172, 134, 135, 192, 11, 23, 117, 90, 32, 23, 93, 29, 186, 208, 40, 210, 26, 71, 247, 222, 51, 83, 69, 116, 132, 74, 183, 165, 166, 228, 26, 210, 52, 3, 194, 41, 74, 166, 208, 41, 48, 235, 92, 233, 195, 41, 236, 203, 154, 238, 28, 177, 54, 186, 194, 41, 74, 166, 208, 41, 48, 235, 92, 233, 195, 41, 236, 203, 154, 238, 28, 177, 54, 186, 194, 41, 74, 166, 208, 41, 48, 235, 92, 233, 195, 41, 236, 203, 154, 238, 28, 177, 54, 186, 194, 41, 74, 167] = [126, 243, 113, 76, 115, 203, 206, 7, 29, 124, 41, 95, 137, 226, 115, 31, 51, 220, 191, 162] := by
    rw [show (576 : Nat) = 512 + 64 from rfl, iterHash_add, a8, sha1ChainBc09]
  have a10 : iterHash sha1 640 [1, 1, 1, 1, 1, 1, 1, 1, 1, 1, 1, 1, 1, 1, 1, 1, 1, 1, 1, 1, 1, 1, 1, 1, 1, 1, 1, 1, 1, 1, 1, 1, 1, 1, 1, 1, 1, 1, 1, 1, 1, 1, 1, 1, 1, 1, 1, 1, 1, 1, 1, 1, 1, 1, 1, 1, 1, 1, 1, 1, 1, 1, 1, 1, 93, 29, 186, 208, 40, 210, 26, 71, 247, 222, 51, 83, 69, 116, 132, 74, 183, 165, 166, 228, 26, 210, 52, 3, 107, 29, 161, 20, 181, 146, 172, 134, 135, 192, 11, 23, 117, 90, 32, 23, 93, 29, 186, 208, 40, 210, 26, 71, 247, 222, 51, 83, 69, 116, 132, 74, 183, 165, 166, 228, 26, 210, 52, 3, 194, 41, 74, 166, 208, 41, 48, 235, 92, 233, 195, 41, 236, 203, 154, 238, 28, 177, 54, 186, 194, 41, 74, 166, 208, 41, 48, 235, 92, 233, 195, 41, 236, 203, 154, 238, 28, 177, 54, 186, 194, 41, 74, 166, 208, 41, 48, 235, 92, 233, 195, 41, 236, 203, 154, 238, 28, 177, 54, 186, 194, 41, 74, 167] = [194, 150, 240, 200, 216, 8, 242, 13, 144, 125, 222, 144, 231, 228, 222, 29, 28, 214, 203, 170] := by
    rw [show (640 : Nat) = 576 + 64 from rfl, iterHash_add, a9, sha1ChainBc10]
  have a11 : iterHash sha1 704 [1, 1, 1, 1, 1, 1, 1, 1, 1, 1, 1, 1, 1, 1, 1, 1, 1, 1, 1, 1, 1, 1, 1, 1, 1, 1, 1, 1, 1, 1, 1, 1, 1, 1, 1, 1, 1, 1, 1, 1, 1, 1, 1, 1, 1, 1, 1, 1, 1, 1, 1, 1, 1, 1, 1, 1, 1, 1, 1, 1, 1, 1, 1, 1, 93, 29, 186, 208, 40, 210, 26, 71, 247, 222, 51, 83, 69, 116, 132, 74, 183, 165, 166, 228, 26, 210, 52, 3, 107, 29, 161, 20, 181, 146, 172, 134, 135, 192, 11, 23, 117, 90, 32, 23, 93, 29, 186, 208, 40, 210, 26, 71, 247, 222, 51, 83, 69, 116, 132, 74, 183, 165, 166, 228, 26, 210, 52, 3, 194, 41, 74, 166, 208, 41, 48, 235, 92, 233, 195, 41, 236, 203, 154, 238, 28, 177, 54, 186, 194, 41, 74, 166, 208, 41, 48, 235, 92, 233, 195, 41, 236, 203, 154, 238, 28, 177, 54, 186, 194, 41, 74, 166, 208, 41, 48, 235, 92, 233, 195, 41, 236, 203, 154, 238, 28, 177, 54, 186, 194, 41, 74, 167] = [247, 123, 185, 40, 185, 111, 167, 53, 15, 156, 217, 55, 129, 20, 108, 81, 0, 156, 85, 157] := by
    rw [show (704 : Nat) = 640 + 64 from rfl, iterHash_add, a10, sha1ChainBc11]
  have a12 : iterHash sha1 768 [1, 1, 1, 1, 1, 1, 1, 1, 1, 1, 1, 1, 1, 1, 1, 1, 1, 1, 1, 1, 1, 1, 1, 1, 1, 1, 1, 1, 1, 1, 1, 1, 1, 1, 1, 1, 1, 1, 1, 1, 1, 1, 1, 1, 1, 1, 1, 1, 1, 1, 1, 1, 1, 1, 1, 1, 1, 1, 1, 1, 1, 1, 1, 1, 93, 29, 186, 208, 40, 210, 26, 71, 247, 222, 51, 83, 69, 116, 132, 74, 183, 165, 166, 228, 26, 210, 52, 3, 107, 29, 161, 20, 181, 146, 172, 134, 135, 192, 11, 23, 117, 90, 32, 23, 93, 29, 186, 208, 40, 210, 26, 71, 247, 222, 51, 83, 69, 116, 132, 74, 183, 165, 166, 228, 26, 210, 52, 3, 194, 41, 74, 166, 208, 41, 48, 235, 92, 233, 195, 41, 236, 203, 154, 238, 28, 177, 54, 186, 194, 41, 74, 166, 208, 41, 48, 235, 92, 233, 195, 41, 236, 203, 154, 238, 28, 177, 54, 186, 194, 41, 74, 166, 208, 41, 48, 235, 92, 233, 195, 41, 236, 203, 154, 238, 28, 177, 54, 186, 194, 41, 74, 167] = [253, 35, 97, 120, 27, 101, 33, 17, 172, 20, 39, 149, 111, 38, 153, 175, 232, 112, 123, 170] := by
    rw [show (768 : Nat) = 704 + 64 from rfl, iterHash_add, a11, sha1ChainBc12]
  have a13 : iterHash sha1 832 [1, 1, 1, 1, 1, 1, 1, 1, 1, 1, 1, 1, 1, 1, 1, 1, 1, 1, 1, 1, 1, 1, 1, 1, 1, 1, 1, 1, 1, 1, 1, 1, 1, 1, 1, 1, 1, 1, 1, 1, 1, 1, 1, 1, 1, 1, 1, 1, 1, 1, 1, 1, 1, 1, 1, 1, 1, 1, 1, 1, 1, 1, 1, 1, 93, 29, 186, 208, 40, 210, 26, 71, 247, 222, 51, 83, 69, 116, 132, 74, 183, 165, 166, 228, 26, 210, 52, 3, 107, 29, 161, 20, 181, 146, 172, 134, 135, 192, 11, 23, 117, 90, 32, 23, 93, 29, 186, 208, 40, 210, 26, 71, 247, 222, 51, 83, 69, 116, 132, 74, 183, 165, 166, 228, 26, 210, 52, 3, 194, 41, 74, 166, 208, 41, 48, 235, 92, 233, 195, 41, 236, 203, 154, 238, 28, 177, 54, 186, 194, 41, 74, 166, 208, 41, 48, 235, 92, 233, 195, 41, 236, 203, 154, 238, 28, 177, 54, 186, 194, 41, 74, 166, 208, 41, 48, 235, 92, 233, 195, 41, 236, 203, 154, 238, 28, 177, 54, 186, 194, 41, 74, 167] = [197, 206, 198, 100, 108, 204, 9, 109, 198, 189, 1, 44, 229, 255, 188, 65, 101, 144, 121, 205] := by
    rw [show (832 : Nat) = 768 + 64 from rfl, iterHash_add, a12, sha1ChainBc13]
  have a14 : iterHash sha1 896 [1, 1, 1, 1, 1, 1, 1, 1, 1, 1, 1, 1, 1, 1, 1, 1, 1, 1, 1, 1, 1, 1, 1, 1, 1, 1, 1, 1, 1, 1, 1, 1, 1, 1, 1, 1, 1, 1, 1, 1, 1, 1, 1, 1, 1, 1, 1, 1, 1, 1, 1, 1, 1, 1, 1, 1, 1, 1, 1, 1, 1, 1, 1, 1, 93, 29, 186, 208, 40, 210, 26, 71, 247, 222, 51, 83, 69, 116, 132, 74, 183, 165, 166, 228, 26, 210, 52, 3, 107, 29, 161, 20, 181, 146, 172, 134, 135, 192, 11, 23, 117, 90, 32, 23, 93, 29, 186, 208, 40, 210, 26, 71, 247, 222, 51, 83, 69, 116, 132, 74, 183, 165, 166, 228, 26, 210, 52, 3, 194, 41, 74, 166, 208, 41, 48, 235, 92, 233, 195, 41, 236, 203, 154, 238, 28, 177, 54, 186, 194, 41, 74, 166, 208, 41, 48, 235, 92, 233, 195, 41, 236, 203, 154, 238, 28, 177, 54, 186, 194, 41, 74, 166, 208, 41, 48, 235, 92, 233, 195, 41, 236, 203, 154, 238, 28, 177, 54, 186, 194, 41, 74, 167] = [215, 244, 223, 97, 1, 84, 99, 153, 193, 125, 125, 101, 61, 64, 82, 58, 86, 79, 90, 11] := by
    rw [show (896 : Nat) = 832 + 64 from rfl, iterHash_add, a13, sha1ChainBc14]
  have a15 : iterHash sha1 960 [1, 1, 1, 1, 1, 1, 1, 1, 1, 1, 1, 1, 1, 1, 1, 1, 1, 1, 1, 1, 1, 1, 1, 1, 1, 1, 1, 1, 1, 1, 1, 1, 1, 1, 1, 1, 1, 1, 1, 1, 1, 1, 1, 1, 1, 1, 1, 1, 1, 1, 1, 1, 1, 1, 1, 1, 1, 1, 1, 1, 1, 1, 1, 1, 93, 29, 186, 208, 40, 210, 26, 71, 247, 222, 51, 83, 69, 116, 132, 74, 183, 165, 166, 228, 26, 210, 52, 3, 107, 29, 161, 20, 181, 146, 172, 134, 135, 192, 11, 23, 117, 90, 32, 23, 93, 29, 186, 208, 40, 210, 26, 71, 247, 222, 51, 83, 69, 116, 132, 74, 183, 165, 166, 228, 26, 210, 52, 3, 194, 41, 74, 166, 208, 41, 48, 235, 92, 233, 195, 41, 236, 203, 154, 238, 28, 177, 54, 186, 194, 41, 74, 166, 208, 41, 48, 235, 92, 233, 195, 41, 236, 203, 154, 238, 28, 177, 54, 186, 194, 41, 74, 166, 208, 41, 48, 235, 92, 233, 195, 41, 236, 203, 154, 238, 28, 177, 54, 186, 194, 41, 74, 167] = [67, 27, 182, 191, 86, 35, 73, 149, 56, 55, 215, 186, 253, 141, 75, 68, 3, 229, 235, 17] := by
    rw [show (960 : Nat) = 896 + 64 from rfl, iterHash_add, a14, sha1ChainBc15]
  have a16 : iterHash sha1 1024 [1, 1, 1, 1, 1, 1, 1, 1, 1, 1, 1, 1, 1, 1, 1, 1, 1, 1, 1, 1, 1, 1, 1, 1, 1, 1, 1, 1, 1, 1, 1, 1, 1, 1, 1, 1, 1, 1, 1, 1, 1, 1, 1, 1, 1, 1, 1, 1, 1, 1, 1, 1, 1, 1, 1, 1, 1, 1, 1, 1, 1, 1, 1, 1, 93, 29, 186, 208, 40, 210, 26, 71, 247, 222, 51, 83, 69, 116, 132, 74, 183, 165, 166, 228, 26, 210, 52, 3, 107, 29, 161, 20, 181, 146, 172, 134, 135, 192, 11, 23, 117, 90, 32, 23, 93, 29, 186, 208, 40, 210, 26, 71, 247, 222, 51, 83, 69, 116, 132, 74, 183, 165, 166, 228, 26, 210, 52, 3, 194, 41, 74, 166, 208, 41, 48, 235, 92, 233, 195, 41, 236, 203, 154, 238, 28, 177, 54, 186, 194, 41, 74, 166, 208, 41, 48, 235, 92, 233, 195, 41, 236, 203, 154, 238, 28, 177, 54, 186, 194, 41, 74, 166, 208, 41, 48, 235, 92, 233, 195, 41, 236, 203, 154, 238, 28, 177, 54, 186, 194, 41, 74, 167] = [213, 68, 158, 201, 35, 73, 178, 48, 238, 39, 66, 111, 91, 214, 36, 182, 204, 196, 220, 23] := by
    rw [show (1024 : Nat) = 960 + 64 from rfl, iterHash_add, a15, sha1ChainBc16]
  have a17 : iterHash sha1 1088 [1, 1, 1, 1, 1, 1, 1, 1, 1, 1, 1, 1, 1, 1, 1, 1, 1, 1, 1, 1, 1, 1, 1, 1, 1, 1, 1, 1, 1, 1, 1, 1, 1, 1, 1, 1, 1, 1, 1, 1, 1, 1, 1, 1, 1, 1, 1, 1, 1, 1, 1, 1, 1, 1, 1, 1, 1, 1, 1, 1, 1, 1, 1, 1, 93, 29, 186, 208, 40, 210, 26, 71, 247, 222, 51, 83, 69, 116, 132, 74, 183, 165, 166, 228, 26, 210, 52, 3, 107, 29, 161, 20, 181, 146, 172, 134, 135, 192, 11, 23, 117, 90, 32, 23, 93, 29, 186, 208, 40, 210, 26, 71, 247, 222, 51, 83, 69, 116, 132, 74, 183, 165, 166, 228, 26, 210, 52, 3, 194, 41, 74, 166, 208, 41, 48, 235, 92, 233, 195, 41, 236, 203, 154, 238, 28, 177, 54, 186, 194, 41, 74, 166, 208, 41, 48, 235, 92, 233, 195, 41, 236, 203, 154, 238, 28, 177, 54, 186, 194, 41, 74, 166, 208, 41, 48, 235, 92, 233, 195, 41, 236, 203, 154, 238, 28, 177, 54, 186, 194, 41, 74, 167] = [209, 114, 7, 39, 17, 209, 240, 38, 74, 249, 30, 219, 29, 90, 139, 212, 134, 110, 145, 240] := by
    rw [show (1088 : Nat) = 1024 + 64 from rfl, iterHash_add, a16, sha1ChainBc17]
  have a18 : iterHash sha1 1152 [1, 1, 1, 1, 1, 1, 1, 1, 1, 1, 1, 1, 1, 1, 1, 1, 1, 1, 1, 1, 1, 1, 1, 1, 1, 1, 1, 1, 1, 1, 1, 1, 1, 1, 1, 1, 1, 1, 1, 1, 1, 1, 1, 1, 1, 1, 1, 1, 1, 1, 1, 1, 1, 1, 1, 1, 1, 1, 1, 1, 1, 1, 1, 1, 93, 29, 186, 208, 40, 210, 26, 71, 247, 222, 51, 83, 69, 116, 132, 74, 183, 165, 166, 228, 26, 210, 52, 3, 107, 29, 161, 20, 181, 146, 172, 134, 135, 192, 11, 23, 117, 90, 32, 23, 93, 29, 186, 208, 40, 210, 26, 71, 247, 222, 51, 83, 69, 116, 132, 74, 183, 165, 166, 228, 26, 210, 52, 3, 194, 41, 74, 166, 208, 41, 48, 235, 92, 233, 195, 41, 236, 203, 154, 238, 28, 177, 54, 186, 194, 41, 74, 166, 208, 41, 48, 235, 92, 233, 195, 41, 236, 203, 154, 238, 28, 177, 54, 186, 194, 41, 74, 166, 208, 41, 48, 235, 92, 233, 195, 41, 236, 203, 154, 238, 28, 177, 54, 186, 194, 41, 74, 167] = [74, 160, 186, 157, 44, 198, 46, 49, 249, 167, 222, 31, 16, 142, 202, 41, 27, 47, 98, 58] := by
    rw [show (1152 : Nat) = 1088 + 64 from rfl, iterHash_add, a17, sha1ChainBc18]
  have a19 : iterHash sha1 1216 [1, 1, 1, 1, 1, 1, 1, 1, 1, 1, 1, 1, 1, 1, 1, 1, 1, 1, 1, 1, 1, 1, 1, 1, 1, 1, 1, 1, 1, 1, 1, 1, 1, 1, 1, 1, 1, 1, 1, 1, 1, 1, 1, 1, 1, 1, 1, 1, 1, 1, 1, 1, 1, 1, 1, 1, 1, 1, 1, 1, 1, 1, 1, 1, 93, 29, 186, 208, 40, 210, 26, 71, 247, 222, 51, 83, 69, 116, 132, 74, 183, 165, 166, 228, 26, 210, 52, 3, 107, 29, 161, 20, 181, 146, 172, 134, 135, 192, 11, 23, 117, 90, 32, 23, 93, 29, 186, 208, 40, 210, 26, 71, 247, 222, 51, 83, 69, 116, 132, 74, 183, 165, 166, 228, 26, 210, 52, 3, 194, 41, 74, 166, 208, 41, 48, 235, 92, 233, 195, 41, 236, 203, 154, 238, 28, 177, 54, 186, 194, 41, 74, 166, 208, 41, 48, 235, 92, 233, 195, 41, 236, 203, 154, 238, 28, 177, 54, 186, 194, 41, 74, 166, 208, 41, 48, 235, 92, 233, 195, 41, 236, 203, 154, 238, 28, 177, 54, 186, 194, 41, 74, 167] = [123, 57, 187, 139, 39, 4, 104, 148, 185, 158, 34, 146, 222, 65, 7, 247, 51, 163, 249, 89] := by
    rw [show (1216 : Nat) = 1152 + 64 from rfl, iterHash_add, a18, sha1ChainBc19]
  have a20 : iterHash sha1 1280 [1, 1, 1, 1, 1, 1, 1, 1, 1, 1, 1, 1, 1, 1, 1, 1, 1, 1, 1, 1, 1, 1, 1, 1, 1, 1, 1, 1, 1, 1, 1, 1, 1, 1, 1, 1, 1, 1, 1, 1, 1, 1, 1, 1, 1, 1, 1, 1, 1, 1, 1, 1, 1, 1, 1, 1, 1, 1, 1, 1, 1, 1, 1, 1, 93, 29, 186, 208, 40, 210, 26, 71, 247, 222, 51, 83, 69, 116, 132, 74, 183, 165, 166, 228, 26, 210, 52, 3, 107, 29, 161, 20, 181, 146, 172, 134, 135, 192, 11, 23, 117, 90, 32, 23, 93, 29, 186, 208, 40, 210, 26, 71, 247, 222, 51, 83, 69, 116, 132, 74, 183, 165, 166, 228, 26, 210, 52, 3, 194, 41, 74, 166, 208, 41, 48, 235, 92, 233, 195, 41, 236, 203, 154, 238, 28, 177, 54, 186, 194, 41, 74, 166, 208, 41, 48, 235, 92, 233, 195, 41, 236, 203, 154, 238, 28, 177, 54, 186, 194, 41, 74, 166, 208, 41, 48, 235, 92, 233, 195, 41, 236, 203, 154, 238, 28, 177, 54, 186, 194, 41, 74, 167] = [126, 157, 110, 1, 197, 64, 167, 71, 195, 72, 106, 207, 74, 45, 95, 136, 85, 129, 130, 126] := by
    rw [show (1280 : Nat) = 1216 + 64 from rfl, iterHash_add, a19, sha1ChainBc20]
  have a21 : iterHash sha1 1344 [1, 1, 1, 1, 1, 1, 1, 1, 1, 1, 1, 1, 1, 1, 1, 1, 1, 1, 1, 1, 1, 1, 1, 1, 1, 1, 1, 1, 1, 1, 1, 1, 1, 1, 1, 1, 1, 1, 1, 1, 1, 1, 1, 1, 1, 1, 1, 1, 1, 1, 1, 1, 1, 1, 1, 1, 1, 1, 1, 1, 1, 1, 1, 1, 93, 29, 186, 208, 40, 210, 26, 71, 247, 222, 51, 83, 69, 116, 132, 74, 183, 165, 166, 228, 26, 210, 52, 3, 107, 29, 161, 20, 181, 146, 172, 134, 135, 192, 11, 23, 117, 90, 32, 23, 93, 29, 186, 208, 40, 210, 26, 71, 247, 222, 51, 83, 69, 116, 132, 74, 183, 165, 166, 228, 26, 210, 52, 3, 194, 41, 74, 166, 208, 41, 48, 235, 92, 233, 195, 41, 236, 203, 154, 238, 28, 177, 54, 186, 194, 41, 74, 166, 208, 41, 48, 235, 92, 233, 195, 41, 236, 203, 154, 238, 28, 177, 54, 186, 194, 41, 74, 166, 208, 41, 48, 235, 92, 233, 195, 41, 236, 203, 154, 238, 28, 177, 54, 186, 194, 41, 74, 167] = [42, 71, 64, 92, 31, 10, 250, 97, 55, 191, 66, 95, 83, 23, 159, 186, 38, 5, 125, 146] := by
    rw [show (1344 : Nat) = 1280 + 64 from rfl, iterHash_add, a20, sha1ChainBc21]
  have a22 : iterHash sha1 1408 [1, 1, 1, 1, 1, 1, 1, 1, 1, 1, 1, 1, 1, 1, 1, 1, 1, 1, 1, 1, 1, 1, 1, 1, 1, 1, 1, 1, 1, 1, 1, 1, 1, 1, 1, 1, 1, 1, 1, 1, 1, 1, 1, 1, 1, 1, 1, 1, 1, 1, 1, 1, 1, 1, 1, 1, 1, 1, 1, 1, 1, 1, 1, 1, 93, 29, 186, 208, 40, 210, 26, 71, 247, 222, 51, 83, 69, 116, 132, 74, 183, 165, 166, 228, 26, 210, 52, 3, 107, 29, 161, 20, 181, 146, 172, 134, 135, 192, 11, 23, 117, 90, 32, 23, 93, 29, 186, 208, 40, 210, 26, 71, 247, 222, 51, 83, 69, 116, 132, 74, 183, 165, 166, 228, 26, 210, 52, 3, 194, 41, 74, 166, 208, 41, 48, 235, 92, 233, 195, 41, 236, 203, 154, 238, 28, 177, 54, 186, 194, 41, 74, 166, 208, 41, 48, 235, 92, 233, 195, 41, 236, 203, 154, 238, 28, 177, 54, 186, 194, 41, 74, 166, 208, 41, 48, 235, 92, 233, 195, 41, 236, 203, 154, 238, 28, 177, 54, 186, 194, 41, 74, 167] = [71, 60, 82, 62, 212, 19, 225, 18, 140, 98, 202, 129, 64, 72, 23, 86, 96, 57, 115, 47] := by
    rw [show (1408 : Nat) = 1344 + 64 from rfl, iterHash_add, a21, sha1ChainBc22]
  have a23 : iterHash sha1 1472 [1, 1, 1, 1, 1, 1, 1, 1, 1, 1, 1, 1, 1, 1, 1, 1, 1, 1, 1, 1, 1, 1, 1, 1, 1, 1, 1, 1, 1, 1, 1, 1, 1, 1, 1, 1, 1, 1, 1, 1, 1, 1, 1, 1, 1, 1, 1, 1, 1, 1, 1, 1, 1, 1, 1, 1, 1, 1, 1, 1, 1, 1, 1, 1, 93, 29, 186, 208, 40, 210, 26, 71, 247, 222, 51, 83, 69, 116, 132, 74, 183, 165, 166, 228, 26, 210, 52, 3, 107, 29, 161, 20, 181, 146, 172, 134, 135, 192, 11, 23, 117, 90, 32, 23, 93, 29, 186, 208, 40, 210, 26, 71, 247, 222, 51, 83, 69, 116, 132, 74, 183, 165, 166, 228, 26, 210, 52, 3, 194, 41, 74, 166, 208, 41, 48, 235, 92, 233, 195, 41, 236, 203, 154, 238, 28, 177, 54, 186, 194, 41, 74, 166, 208, 41, 48, 235, 92, 233, 195, 41, 236, 203, 154, 238, 28, 177, 54, 186, 194, 41, 74, 166, 208, 41, 48, 235, 92, 233, 195, 41, 236, 203, 154, 238, 28, 177, 54, 186, 194, 41, 74, 167] = [58, 125, 198, 147, 242, 146, 28, 241, 239, 125, 86, 221, 46, 133, 126, 39, 252, 106, 22, 151] := by
    rw [show (1472 : Nat) = 1408 + 64 from rfl, iterHash_add, a22, sha1ChainBc23]
  have a24 : iterHash sha1 1536 [1, 1, 1, 1, 1, 1, 1, 1, 1, 1, 1, 1, 1, 1, 1, 1, 1, 1, 1, 1, 1, 1, 1, 1, 1, 1, 1, 1, 1, 1, 1, 1, 1, 1, 1, 1, 1, 1, 1, 1, 1, 1, 1, 1, 1, 1, 1, 1, 1, 1, 1, 1, 1, 1, 1, 1, 1, 1, 1, 1, 1, 1, 1, 1, 93, 29, 186, 208, 40, 210, 26, 71, 247, 222, 51, 83, 69, 116, 132, 74, 183, 165, 166, 228, 26, 210, 52, 3, 107, 29, 161, 20, 181, 146, 172, 134, 135, 192, 11, 23, 117, 90, 32, 23, 93, 29, 186, 208, 40, 210, 26, 71, 247, 222, 51, 83, 69, 116, 132, 74, 183, 165, 166, 228, 26, 210, 52, 3, 194, 41, 74, 166, 208, 41, 48, 235, 92, 233, 195, 41, 236, 203, 154, 238, 28, 177, 54, 186, 194, 41, 74, 166, 208, 41, 48, 235, 92, 233, 195, 41, 236, 203, 154, 238, 28, 177, 54, 186, 194, 41, 74, 166, 208, 41, 48, 235, 92, 233, 195, 41, 236, 203, 154, 238, 28, 177, 54, 186, 194, 41, 74, 167] = [139, 177, 207, 62, 50, 54, 46, 74, 40, 44, 50, 98, 11, 19, 63, 178, 176, 184, 219, 186] := by
    rw [show (1536 : Nat) = 1472 + 64 from rfl, iterHash_add, a23, sha1ChainBc24]
  have a25 : iterHash sha1 1600 [1, 1, 1, 1, 1, 1, 1, 1, 1, 1, 1, 1, 1, 1, 1, 1, 1, 1, 1, 1, 1, 1, 1, 1, 1, 1, 1, 1, 1, 1, 1, 1, 1, 1, 1, 1, 1, 1, 1, 1, 1, 1, 1, 1, 1, 1, 1, 1, 1, 1, 1, 1, 1, 1, 1, 1, 1, 1, 1, 1, 1, 1, 1, 1, 93, 29, 186, 208, 40, 210, 26, 71, 247, 222, 51, 83, 69, 116, 132, 74, 183, 165, 166, 228, 26, 210, 52, 3, 107, 29, 161, 20, 181, 146, 172, 134, 135, 192, 11, 23, 117, 90, 32, 23, 93, 29, 186, 208, 40, 210, 26, 71, 247, 222, 51, 83, 69, 116, 132, 74, 183, 165, 166, 228, 26, 210, 52, 3, 194, 41, 74, 166, 208, 41, 48, 235, 92, 233, 195, 41, 236, 203, 154, 238, 28, 177, 54, 186, 194, 41, 74, 166, 208, 41, 48, 235, 92, 233, 195, 41, 236, 203, 154, 238, 28, 177, 54, 186, 194, 41, 74, 166, 208, 41, 48, 235, 92, 233, 195, 41, 236, 203, 154, 238, 28, 177, 54, 186, 194, 41, 74, 167] = [44, 105, 95, 112, 248, 76, 174, 20, 22, 162, 226, 90, 191, 77, 151, 140, 84, 167, 237, 18] := by
    rw [show (1600 : Nat) = 1536 + 64 from rfl, iterHash_add, a24, sha1ChainBc25]
  have a26 : iterHash sha1 1664 [1, 1, 1, 1, 1, 1, 1, 1, 1, 1, 1, 1, 1, 1, 1, 1, 1, 1, 1, 1, 1, 1, 1, 1, 1, 1, 1, 1, 1, 1, 1, 1, 1, 1, 1, 1, 1, 1, 1, 1, 1, 1, 1, 1, 1, 1, 1, 1, 1, 1, 1, 1, 1, 1, 1, 1, 1, 1, 1, 1, 1, 1, 1, 1, 93, 29, 186, 208, 40, 210, 26, 71, 247, 222, 51, 83, 69, 116, 132, 74, 183, 165, 166, 228, 26, 210, 52, 3, 107, 29, 161, 20, 181, 146, 172, 134, 135, 192, 11, 23, 117, 90, 32, 23, 93, 29, 186, 208, 40, 210, 26, 71, 247, 222, 51, 83, 69, 116, 132, 74, 183, 165, 166, 228, 26, 210, 52, 3, 194, 41, 74, 166, 208, 41, 48, 235, 92, 233, 195, 41, 236, 203, 154, 238, 28, 177, 54, 186, 194, 41, 74, 166, 208, 41, 48, 235, 92, 233, 195, 41, 236, 203, 154, 238, 28, 177, 54, 186, 194, 41, 74, 166, 208, 41, 48, 235, 92, 233, 195, 41, 236, 203, 154, 238, 28, 177, 54, 186, 194, 41, 74, 167] = [87, 47, 44, 116, 229, 51, 191, 242, 23, 243, 203, 41, 107, 206, 159, 6, 12, 97, 245, 100] := by
    rw [show (1664 : Nat) = 1600 + 64 from rfl, iterHash_add, a25, sha1ChainBc26]
  have a27 : iterHash sha1 1728 [1, 1, 1, 1, 1, 1, 1, 1, 1, 1, 1, 1, 1, 1, 1, 1, 1, 1, 1, 1, 1, 1, 1, 1, 1, 1, 1, 1, 1, 1, 1, 1, 1, 1, 1, 1, 1, 1, 1, 1, 1, 1, 1, 1, 1, 1, 1, 1, 1, 1, 1, 1, 1, 1, 1, 1, 1, 1, 1, 1, 1, 1, 1, 1, 93, 29, 186, 208, 40, 210, 26, 71, 247, 222, 51, 83, 69, 116, 132, 74, 183, 165, 166, 228, 26, 210, 52, 3, 107, 29, 161, 20, 181, 146, 172, 134, 135, 192, 11, 23, 117, 90, 32, 23, 93, 29, 186, 208, 40, 210, 26, 71, 247, 222, 51, 83, 69, 116, 132, 74, 183, 165, 166, 228, 26, 210, 52, 3, 194, 41, 74, 166, 208, 41, 48, 235, 92, 233, 195, 41, 236, 203, 154, 238, 28, 177, 54, 186, 194, 41, 74, 166, 208, 41, 48, 235, 92, 233, 195, 41, 236, 203, 154, 238, 28, 177, 54, 186, 194, 41, 74, 166, 208, 41, 48, 235, 92, 233, 195, 41, 236, 203, 154, 238, 28, 177, 54, 186, 194, 41, 74, 167] = [5, 176, 227, 183, 59, 9, 1, 5, 21, 184, 19, 43, 103, 16, 98, 85, 192, 32, 183, 235] := by
    rw [show (1728 : Nat) = 1664 + 64 from rfl, iterHash_add, a26, sha1ChainBc27]
  have a28 : iterHash sha1 1792 [1, 1, 1, 1, 1, 1, 1, 1, 1, 1, 1, 1, 1, 1, 1, 1, 1, 1, 1, 1, 1, 1, 1, 1, 1, 1, 1, 1, 1, 1, 1, 1, 1, 1, 1, 1, 1, 1, 1, 1, 1, 1, 1, 1, 1, 1, 1, 1, 1, 1, 1, 1, 1, 1, 1, 1, 1, 1, 1, 1, 1, 1, 1, 1, 93, 29, 186, 208, 40, 210, 26, 71, 247, 222, 51, 83, 69, 116, 132, 74, 183, 165, 166, 228, 26, 210, 52, 3, 107, 29, 161, 20, 181, 146, 172, 134, 135, 192, 11, 23, 117, 90, 32, 23, 93, 29, 186, 208, 40, 210, 26, 71, 247, 222, 51, 83, 69, 116, 132, 74, 183, 165, 166, 228, 26, 210, 52, 3, 194, 41, 74, 166, 208, 41, 48, 235, 92, 233, 195, 41, 236, 203, 154, 238, 28, 177, 54, 186, 194, 41, 74, 166, 208, 41, 48, 235, 92, 233, 195, 41, 236, 203, 154, 238, 28, 177, 54, 186, 194, 41, 74, 166, 208, 41, 48, 235, 92, 233, 195, 41, 236, 203, 154, 238, 28, 177, 54, 186, 194, 41, 74, 167] = [76, 63, 199, 238, 112, 31, 171, 96, 220, 237, 164, 246, 140, 132, 141, 168, 29, 15, 100, 189] := by
    rw [show (1792 : Nat) = 1728 + 64 from rfl, iterHash_add, a27, sha1ChainBc28]
  have a29 : iterHash sha1 1856 [1, 1, 1, 1, 1, 1, 1, 1, 1, 1, 1, 1, 1, 1, 1, 1, 1, 1, 1, 1, 1, 1, 1, 1, 1, 1, 1, 1, 1, 1, 1, 1, 1, 1, 1, 1, 1, 1, 1, 1, 1, 1, 1, 1, 1, 1, 1, 1, 1, 1, 1, 1, 1, 1, 1, 1, 1, 1, 1, 1, 1, 1, 1, 1, 93, 29, 186, 208, 40, 210, 26, 71, 247, 222, 51, 83, 69, 116, 132, 74, 183, 165, 166, 228, 26, 210, 52, 3, 107, 29, 161, 20, 181, 146, 172, 134, 135, 192, 11, 23, 117, 90, 32, 23, 93, 29, 186, 208, 40, 210, 26, 71, 247, 222, 51, 83, 69, 116, 132, 74, 183, 165, 166, 228, 26, 210, 52, 3, 194, 41, 74, 166, 208, 41, 48, 235, 92, 233, 195, 41, 236, 203, 154, 238, 28, 177, 54, 186, 194, 41, 74, 166, 208, 41, 48, 235, 92, 233, 195, 41, 236, 203, 154, 238, 28, 177, 54, 186, 194, 41, 74, 166, 208, 41, 48, 235, 92, 233, 195, 41, 236, 203, 154, 238, 28, 177, 54, 186, 194, 41, 74, 167] = [59, 88, 135, 34, 53, 39, 31, 189, 78, 190, 177, 217, 102, 184, 108, 35, 9, 94, 55, 214] := by
    rw [show (1856 : Nat) = 1792 + 64 from rfl, iterHash_add, a28, sha1ChainBc29]
  have a30 : iterHash sha1 1920 [1, 1, 1, 1, 1, 1, 1, 1, 1, 1, 1, 1, 1, 1, 1, 1, 1, 1, 1, 1, 1, 1, 1, 1, 1, 1, 1, 1, 1, 1, 1, 1, 1, 1, 1, 1, 1, 1, 1, 1, 1, 1, 1, 1, 1, 1, 1, 1, 1, 1, 1, 1, 1, 1, 1, 1, 1, 1, 1, 1, 1, 1, 1, 1, 93, 29, 186, 208, 40, 210, 26, 71, 247, 222, 51, 83, 69, 116, 132, 74, 183, 165, 166, 228, 26, 210, 52, 3, 107, 29, 161, 20, 181, 146, 172, 134, 135, 192, 11, 23, 117, 90, 32, 23, 93, 29, 186, 208, 40, 210, 26, 71, 247, 222, 51, 83, 69, 116, 132, 74, 183, 165, 166, 228, 26, 210, 52, 3, 194, 41, 74, 166, 208, 41, 48, 235, 92, 233, 195, 41, 236, 203, 154, 238, 28, 177, 54, 186, 194, 41, 74, 166, 208, 41, 48, 235, 92, 233, 195, 41, 236, 203, 154, 238, 28, 177, 54, 186, 194, 41, 74, 166, 208, 41, 48, 235, 92, 233, 195, 41, 236, 203, 154, 238, 28, 177, 54, 186, 194, 41, 74, 167] = [216, 135, 115, 84, 176, 139, 231, 253, 36, 81, 68, 53, 28, 41, 148, 58, 221, 84, 169, 43] := by
    rw [show (1920 : Nat) = 1856 + 64 from rfl, iterHash_add, a29, sha1ChainBc30]
  have a31 : iterHash sha1 1984 [1, 1, 1, 1, 1, 1, 1, 1, 1, 1, 1, 1, 1, 1, 1, 1, 1, 1, 1, 1, 1, 1, 1, 1, 1, 1, 1, 1, 1, 1, 1, 1, 1, 1, 1, 1, 1, 1, 1, 1, 1, 1, 1, 1, 1, 1, 1, 1, 1, 1, 1, 1, 1, 1, 1, 1, 1, 1, 1, 1, 1, 1, 1, 1, 93, 29, 186, 208, 40, 210, 26, 71, 247, 222, 51, 83, 69, 116, 132, 74, 183, 165, 166, 228, 26, 210, 52, 3, 107, 29, 161, 20, 181, 146, 172, 134, 135, 192, 11, 23, 117, 90, 32, 23, 93, 29, 186, 208, 40, 210, 26, 71, 247, 222, 51, 83, 69, 116, 132, 74, 183, 165, 166, 228, 26, 210, 52, 3, 194, 41, 74, 166, 208, 41, 48, 235, 92, 233, 195, 41, 236, 203, 154, 238, 28, 177, 54, 186, 194, 41, 74, 166, 208, 41, 48, 235, 92, 233, 195, 41, 236, 203, 154, 238, 28, 177, 54, 186, 194, 41, 74, 166, 208, 41, 48, 235, 92, 233, 195, 41, 236, 203, 154, 238, 28, 177, 54, 186, 194, 41, 74, 167] = [33, 186, 181, 78, 232, 66, 243, 17, 90, 23, 80, 137, 48, 1, 114, 40, 16, 71, 21, 35] := by
    rw [show (1984 : Nat) = 1920 + 64 from rfl, iterHash_add, a30, sha1ChainBc31]
  have a32 : iterHash sha1 2048 [1, 1, 1, 1, 1, 1, 1, 1, 1, 1, 1, 1, 1, 1, 1, 1, 1, 1, 1, 1, 1, 1, 1, 1, 1, 1, 1, 1, 1, 1, 1, 1, 1, 1, 1, 1, 1, 1, 1, 1, 1, 1, 1, 1, 1, 1, 1, 1, 1, 1, 1, 1, 1, 1, 1, 1, 1, 1, 1, 1, 1, 1, 1, 1, 93, 29, 186, 208, 40, 210, 26, 71, 247, 222, 51, 83, 69, 116, 132, 74, 183, 165, 166, 228, 26, 210, 52, 3, 107, 29, 161, 20, 181, 146, 172, 134, 135, 192, 11, 23, 117, 90, 32, 23, 93, 29, 186, 208, 40, 210, 26, 71, 247, 222, 51, 83, 69, 116, 132, 74, 183, 165, 166, 228, 26, 210, 52, 3, 194, 41, 74, 166, 208, 41, 48, 235, 92, 233, 195, 41, 236, 203, 154, 238, 28, 177, 54, 186, 194, 41, 74, 166, 208, 41, 48, 235, 92, 233, 195, 41, 236, 203, 154, 238, 28, 177, 54, 186, 194, 41, 74, 166, 208, 41, 48, 235, 92, 233, 195, 41, 236, 203, 154, 238, 28, 177, 54, 186, 194, 41, 74, 167] = [234, 116, 101, 87, 113, 49, 238, 126, 99, 54, 108, 66, 190, 105, 69, 17, 132, 145, 167, 194] := by
    rw [show (2048 : Nat) = 1984 + 64 from rfl, iterHash_add, a31, sha1ChainBc32]
  exact a32

theorem sha1ChainCc01 : iterHash sha1 64 [2, 2, 2, 2, 2, 2, 2, 2, 2, 2, 2, 2, 2, 2, 2, 2, 2, 2, 2, 2, 2, 2, 2, 2, 2, 2, 2, 2, 2, 2, 2, 2, 2, 2, 2, 2, 2, 2, 2, 2, 2, 2, 2, 2, 2, 2, 2, 2, 2, 2, 2, 2, 2, 2, 2, 2, 2, 2, 2, 2, 2, 2, 2, 2, 154, 244, 112, 41, 88, 168, 233, 92, 154, 244, 112, 41, 88, 168, 233, 92, 154, 244, 112, 41, 88, 168, 233, 92, 154, 244, 112, 41, 88, 168, 233, 92, 154, 244, 112, 41, 88, 168, 233, 92, 154, 244, 112, 41, 88, 168, 233, 92, 154, 244, 112, 41, 88, 168, 233, 92, 154, 244, 112, 41, 88, 168, 233, 92, 0, 0, 0, 0, 0, 0, 0, 0, 0, 0, 0, 0, 0, 0, 0, 0, 0, 0, 0, 0, 0, 0, 0, 0, 0, 0, 0, 0, 0, 0, 0, 0, 0, 0, 0, 0, 0, 0, 0, 0, 0, 0, 0, 0, 0, 0, 0, 0, 0, 0, 0, 0, 0, 0, 0, 0, 0, 0, 0, 0, 0, 0, 0, 0] = [127, 187, 222, 24, 47, 197, 52, 133, 80, 231, 253, 80, 116, 76, 64, 101, 235, 116, 200, 241] := by
  rw [← sha1IterF_eq_iterHash]; decide

theorem sha1ChainCc02 : iterHash sha1 64 [127, 187, 222, 24, 47, 197, 52, 133, 80, 231, 253, 80, 116, 76, 64, 101, 235, 116, 200, 241] = [98, 62, 189, 96, 43, 209, 223, 61, 46, 155, 221, 217, 199, 99, 2, 230, 68, 222, 228, 1] := by
  rw [← sha1IterF_eq_iterHash]; decide

theorem sha1ChainCc03 : iterHash sha1 64 [98, 62, 189, 96, 43, 209, 223, 61, 46, 155, 221, 217, 199, 99, 2, 230, 68, 222, 228, 1] = [98, 83, 86, 25, 125, 65, 198, 25, 30, 16, 222, 151, 132, 100, 92, 43, 48, 153, 21, 246] := by
  rw [← sha1IterF_eq_iterHash]; decide

theorem sha1ChainCc04 : iterHash sha1 64 [98, 83, 86, 25, 125, 65, 198, 25, 30, 16, 222, 151, 132, 100, 92, 43, 48, 153, 21, 246] = [89, 127, 29, 162, 61, 238, 111, 109, 229, 248, 45, 255, 68, 181, 251, 237, 102, 26, 191, 171] := by
  rw [← sha1IterF_eq_iterHash]; decide

theorem sha1ChainCc05 : iterHash sha1 64 [89, 127, 29, 162, 61, 238, 111, 109, 229, 248, 45, 255, 68, 181, 251, 237, 102, 26, 191, 171] = [44, 201, 93, 103, 224, 171, 63, 116, 17, 147, 244, 180, 137, 147, 156, 191, 190, 104, 163, 36] := by
  rw [← sha1IterF_eq_iterHash]; decide

theorem sha1ChainCc06 : iterHash sha1 64 [44, 201, 93, 103, 224, 171, 63, 116, 17, 147, 244, 180, 137, 147, 156, 191, 190, 104, 163, 36] = [237, 186, 213, 78, 178, 209, 202, 50, 18, 196, 28, 20, 184, 229, 122, 156, 7, 83, 164, 40] := by
  rw [← sha1IterF_eq_iterHash]; decide

theorem sha1ChainCc07 : iterHash sha1 64 [237, 186, 213, 78, 178, 209, 202, 50, 18, 196, 28, 20, 184, 229, 122, 156, 7, 83, 164, 40] = [83, 110, 187, 164, 52, 229, 209, 84, 231, 98, 147, 181, 74, 54, 126, 41, 160, 124, 130, 212] := by
  rw [← sha1IterF_eq_iterHash]; decide

theorem sha1ChainCc08 : iterHash sha1 64 [83, 110, 187, 164, 52, 229, 209, 84, 231, 98, 147, 181, 74, 54, 126, 41, 160, 124, 130, 212] = [25, 76, 185, 118, 214, 218, 27, 244, 2, 39, 99, 242, 254, 64, 187, 195, 13, 153, 132, 122] := by
  rw [← sha1IterF_eq_iterHash]; decide

theorem sha1ChainCc09 : iterHash sha1 64 [25, 76, 185, 118, 214, 218, 27, 244, 2, 39, 99, 242, 254, 64, 187, 195, 13, 153, 132, 122] = [156, 125, 4, 98, 9, 108, 101, 224, 25, 161, 53, 54, 222, 190, 251, 248, 228, 146, 7, 156] := by
  rw [← sha1IterF_eq_iterHash]; decide

theorem sha1ChainCc10 : iterHash sha1 64 [156, 125, 4, 98, 9, 108, 101, 224, 25, 161, 53, 54, 222, 190, 251, 248, 228, 146, 7, 156] = [151, 8, 255, 9, 161, 157, 17, 146, 191, 12, 3, 77, 235, 145, 40, 143, 140, 182, 90, 62] := by
  rw [← sha1IterF_eq_iterHash]; decide

theorem sha1ChainCc11 : iterHash sha1 64 [151, 8, 255, 9, 161, 157, 17, 146, 191, 12, 3, 77, 235, 145, 40, 143, 140, 182, 90, 62] = [36, 70, 5, 235, 48, 186, 176, 27, 85, 208, 11, 217, 134, 41, 44, 180, 7, 187, 128, 150] := by
  rw [← sha1IterF_eq_iterHash]; decide

theorem sha1ChainCc12 : iterHash sha1 64 [36, 70, 5, 235, 48, 186, 176, 27, 85, 208, 11, 217, 134, 41, 44, 180, 7, 187, 128, 150] = [198, 144, 4, 112, 66, 68, 152, 164, 193, 233, 207, 218, 53, 78, 193, 248, 12, 13, 222, 25] := by
  rw [← sha1IterF_eq_iterHash]; decide

theorem sha1ChainCc13 : iterHash sha1 64 [198, 144, 4, 112, 66, 68, 152, 164, 193, 233, 207, 218, 53, 78, 193, 248, 12, 13, 222, 25] = [166, 35, 98, 9, 242, 236, 51, 77, 89, 99, 108, 200, 96, 58, 64, 58, 133, 122, 96, 203] := by
  rw [← sha1IterF_eq_iterHash]; decide

theorem sha1ChainCc14 : iterHash sha1 64 [166, 35, 98, 9, 242, 236, 51, 77, 89, 99, 108, 200, 96, 58, 64, 58, 133, 122, 96, 203] = [192, 77, 86, 102, 104, 86, 5, 236, 45, 22, 115, 30, 240, 8, 148, 183, 14, 183, 183, 106] := by
  rw [← sha1IterF_eq_iterHash]; decide

theorem sha1ChainCc15 : iterHash sha1 64 [192, 77, 86, 102, 104, 86, 5, 236, 45, 22, 115, 30, 240, 8, 148, 183, 14, 183, 183, 106] = [188, 123, 80, 235, 204, 219, 61, 125, 70, 82, 204, 63, 62, 221, 7, 80, 102, 231, 74, 39] := by
  rw [← sha1IterF_eq_iterHash]; decide

theorem sha1ChainCc16 : iterHash sha1 64 [188, 123, 80, 235, 204, 219, 61, 125, 70, 82, 204, 63, 62, 221, 7, 80, 102, 231, 74, 39] = [46, 227, 3, 144, 126, 128, 165, 174, 216, 84, 231, 40, 55, 205, 23, 92, 180, 184, 85, 3] := by
  rw [← sha1IterF_eq_iterHash]; decide

theorem sha1ChainCc17 : iterHash sha1 64 [46, 227, 3, 144, 126, 128, 165, 174, 216, 84, 231, 40, 55, 205, 23, 92, 180, 184, 85, 3] = [174, 114, 158, 120, 18, 216, 226, 71, 68, 133, 54, 102, 13, 223, 185, 15, 209, 0, 199, 138] := by
  rw [← sha1IterF_eq_iterHash]; decide

theorem sha1ChainCc18 : iterHash sha1 64 [174, 114, 158, 120, 18, 216, 226, 71, 68, 133, 54, 102, 13, 223, 185, 15, 209, 0, 199, 138] = [212, 179, 191, 17, 13, 76, 101, 24, 191, 140, 1, 52, 102, 205, 48, 24, 173, 152, 40, 152] := by
  rw [← sha1IterF_eq_iterHash]; decide

theorem sha1ChainCc19 : iterHash sha1 64 [212, 179, 191, 17, 13, 76, 101, 24, 191, 140, 1, 52, 102, 205, 48, 24, 173, 152, 40, 152] = [5, 197, 75, 95, 158, 218, 59, 121, 147, 2, 186, 48, 74, 162, 150, 2, 234, 146, 216, 139] := by
  rw [← sha1IterF_eq_iterHash]; decide

theorem sha1ChainCc20 : iterHash sha1 64 [5, 197, 75, 95, 158, 218, 59, 121, 147, 2, 186, 48, 74, 162, 150, 2, 234, 146, 216, 139] = [55, 77, 8, 178, 83, 101, 133, 189, 82, 126, 56, 153, 80, 64, 137, 37, 165, 7, 254, 132] := by
  rw [← sha1IterF_eq_iterHash]; decide

theorem sha1ChainCc21 : iterHash sha1 64 [55, 77, 8, 178, 83, 101, 133, 189, 82, 126, 56, 153, 80, 64, 137, 37, 165, 7, 254, 132] = [198, 222, 248, 138, 61, 40, 98, 90, 206, 40, 234, 64, 231, 52, 218, 254, 127, 80, 173, 75] := by
  rw [← sha1IterF_eq_iterHash]; decide

theorem sha1ChainCc22 : iterHash sha1 64 [198, 222, 248, 138, 61, 40, 98, 90, 206, 40, 234, 64, 231, 52, 218, 254, 127, 80, 173, 75] = [214, 245, 217, 135, 90, 10, 5, 168, 147, 236, 88, 252, 218, 182, 234, 163, 235, 235, 149, 45] := by
  rw [← sha1IterF_eq_iterHash]; decide

theorem sha1ChainCc23 : iterHash sha1 64 [214, 245, 217, 135, 90, 10, 5, 168, 147, 236, 88, 252, 218, 182, 234, 163, 235, 235, 149, 45] = [254, 182, 153, 231, 231, 167, 200, 179, 217, 71, 73, 171, 9, 174, 79, 50, 128, 23, 48, 18] := by
  rw [← sha1IterF_eq_iterHash]; decide

theorem sha1ChainCc24 : iterHash sha1 64 [254, 182, 153, 231, 231, 167, 200, 179, 217, 71, 73, 171, 9, 174, 79, 50, 128, 23, 48, 18] = [72, 190, 56, 82, 206, 95, 141, 115, 188, 9, 36, 158, 156, 22, 3, 159, 13, 68, 215, 82] := by
  rw [← sha1IterF_eq_iterHash]; decide

theorem sha1ChainCc25 : iterHash sha1 64 [72, 190, 56, 82, 206, 95, 141, 115, 188, 9, 36, 158, 156, 22, 3, 159, 13, 68, 215, 82] = [232, 25, 172, 21, 251, 61, 73, 42, 60, 245, 32, 225, 42, 106, 219, 14, 99, 94, 131, 174] := by
  rw [← sha1IterF_eq_iterHash]; decide

theorem sha1ChainCc26 : iterHash sha1 64 [232, 25, 172, 21, 251, 61, 73, 42, 60, 245, 32, 225, 42, 106, 219, 14, 99, 94, 131, 174] = [66, 30, 69, 127, 126, 75, 33, 215, 68, 185, 9, 7, 92, 253, 250, 36, 27, 25, 131, 86] := by
  rw [← sha1IterF_eq_iterHash]; decide

theorem sha1ChainCc27 : iterHash sha1 64 [66, 30, 69, 127, 126, 75, 33, 215, 68, 185, 9, 7, 92, 253, 250, 36, 27, 25, 131, 86] = [27, 144, 128, 34, 137, 125, 33, 35, 169, 101, 116, 145, 31, 169, 14, 227, 249, 19, 20, 137] := by
  rw [← sha1IterF_eq_iterHash]; decide

theorem sha1ChainCc28 : iterHash sha1 64 [27, 144, 128, 34, 137, 125, 33, 35, 169, 101, 116, 145, 31, 169, 14, 227, 249, 19, 20, 137] = [29, 75, 85, 100, 138, 121, 59, 73, 213, 98, 21, 237, 124, 5, 255, 204, 46, 29, 145, 234] := by
  rw [← sha1IterF_eq_iterHash]; decide

theorem sha1ChainCc29 : iterHash sha1 64 [29, 75, 85, 100, 138, 121, 59, 73, 213, 98, 21, 237, 124, 5, 255, 204, 46, 29, 145, 234] = [65, 220, 189, 179, 12, 43, 111, 149, 123, 14, 196, 216, 77, 27, 95, 109, 246, 86, 128, 48] := by
  rw [← sha1IterF_eq_iterHash]; decide

theorem sha1ChainCc30 : iterHash sha1 64 [65, 220, 189, 179, 12, 43, 111, 149, 123, 14, 196, 216, 77, 27, 95, 109, 246, 86, 128, 48] = [99, 181, 46, 226, 206, 25, 235, 237, 181, 71, 119, 158, 119, 21, 78, 229, 7, 45, 222, 20] := by
  rw [← sha1IterF_eq_iterHash]; decide

theorem sha1ChainCc31 : iterHash sha1 64 [99, 181, 46, 226, 206, 25, 235, 237, 181, 71, 119, 158, 119, 21, 78, 229, 7, 45, 222, 20] = [84, 211, 172, 156, 40, 51, 249, 67, 122, 19, 173, 65, 214, 168, 187, 190, 96, 177, 239, 52] := by
  rw [← sha1IterF_eq_iterHash]; decide

theorem sha1ChainCc32 : iterHash sha1 64 [84, 211, 172, 156, 40, 51, 249, 67, 122, 19, 173, 65, 214, 168, 187, 190, 96, 177, 239, 52] = [142, 159, 143, 199, 102, 67, 120, 188, 63, 208, 244, 118, 186, 185, 188, 147, 143, 92, 48, 234] := by
  rw [← sha1IterF_eq_iterHash]; decide

/-- Glued 2048-fold SHA-1 iteration for one KDF chunk. -/
theorem sha1ChainC : iterHash sha1 2048 [2, 2, 2, 2, 2, 2, 2, 2, 2, 2, 2, 2, 2, 2, 2, 2, 2, 2, 2, 2, 2, 2, 2, 2, 2, 2, 2, 2, 2, 2, 2, 2, 2, 2, 2, 2, 2, 2, 2, 2, 2, 2, 2, 2, 2, 2, 2, 2, 2, 2, 2, 2, 2, 2, 2, 2, 2, 2, 2, 2, 2, 2, 2, 2, 154, 244, 112, 41, 88, 168, 233, 92, 154, 244, 112, 41, 88, 168, 233, 92, 154, 244, 112, 41, 88, 168, 233, 92, 154, 244, 112, 41, 88, 168, 233, 92, 154, 244, 112, 41, 88, 168, 233, 92, 154, 244, 112, 41, 88, 168, 233, 92, 154, 244, 112, 41, 88, 168, 233, 92, 154, 244, 112, 41, 88, 168, 233, 92, 0, 0, 0, 0, 0, 0, 0, 0, 0, 0, 0, 0, 0, 0, 0, 0, 0, 0, 0, 0, 0, 0, 0, 0, 0, 0, 0, 0, 0, 0, 0, 0, 0, 0, 0, 0, 0, 0, 0, 0, 0, 0, 0, 0, 0, 0, 0, 0, 0, 0, 0, 0, 0, 0, 0, 0, 0, 0, 0, 0, 0, 0, 0, 0] = [142, 159, 143, 199, 102, 67, 120, 188, 63, 208, 244, 118, 186, 185, 188, 147, 143, 92, 48, 234] := by
  have a1 : iterHash sha1 64 [2, 2, 2, 2, 2, 2, 2, 2, 2, 2, 2, 2, 2, 2, 2, 2, 2, 2, 2, 2, 2, 2, 2, 2, 2, 2, 2, 2, 2, 2, 2, 2, 2, 2, 2, 2, 2, 2, 2, 2, 2, 2, 2, 2, 2, 2, 2, 2, 2, 2, 2, 2, 2, 2, 2, 2, 2, 2, 2, 2, 2, 2, 2, 2, 154, 244, 112, 41, 88, 168, 233, 92, 154, 244, 112, 41, 88, 168, 233, 92, 154, 244, 112, 41, 88, 168, 233, 92, 154, 244, 112, 41, 88, 168, 233, 92, 154, 244, 112, 41, 88, 168, 233, 92, 154, 244, 112, 41, 88, 168, 233, 92, 154, 244, 112, 41, 88, 168, 233, 92, 154, 244, 112, 41, 88, 168, 233, 92, 0, 0, 0, 0, 0, 0, 0, 0, 0, 0, 0, 0, 0, 0, 0, 0, 0, 0, 0, 0, 0, 0, 0, 0, 0, 0, 0, 0, 0, 0, 0, 0, 0, 0, 0, 0, 0, 0, 0, 0, 0, 0, 0, 0, 0, 0, 0, 0, 0, 0, 0, 0, 0, 0, 0, 0, 0, 0, 0, 0, 0, 0, 0, 0] = [127, 187, 222, 24, 47, 197, 52, 133, 80, 231, 253, 80, 116, 76, 64, 101, 235, 116, 200, 241] := sha1ChainCc01
  have a2 : iterHash sha1 128 [2, 2, 2, 2, 2, 2, 2, 2, 2, 2, 2, 2, 2, 2, 2, 2, 2, 2, 2, 2, 2, 2, 2, 2, 2, 2, 2, 2, 2, 2, 2, 2, 2, 2, 2, 2, 2, 2, 2, 2, 2, 2, 2, 2, 2, 2, 2, 2, 2, 2, 2, 2, 2, 2, 2, 2, 2, 2, 2, 2, 2, 2, 2, 2, 154, 244, 112, 41, 88, 168, 233, 92, 154, 244, 112, 41, 88, 168, 233, 92, 154, 244, 112, 41, 88, 168, 233, 92, 154, 244, 112, 41, 88, 168, 233, 92, 154, 244, 112, 41, 88, 168, 233, 92, 154, 244, 112, 41, 88, 168, 233, 92, 154, 244, 112, 41, 88, 168, 233, 92, 154, 244, 112, 41, 88, 168, 233, 92, 0, 0, 0, 0, 0, 0, 0, 0, 0, 0, 0, 0, 0, 0, 0, 0, 0, 0, 0, 0, 0, 0, 0, 0, 0, 0, 0, 0, 0, 0, 0, 0, 0, 0, 0, 0, 0, 0, 0, 0, 0, 0, 0, 0, 0, 0, 0, 0, 0, 0, 0, 0, 0, 0, 0, 0, 0, 0, 0, 0, 0, 0, 0, 0] = [98, 62, 189, 96, 43, 209, 223, 61, 46, 155, 221, 217, 199, 99, 2, 230, 68, 222, 228, 1] := by
    rw [show (128 : Nat) = 64 + 64 from rfl, iterHash_add, a1, sha1ChainCc02]
  have a3 : iterHash sha1 192 [2, 2, 2, 2, 2, 2, 2, 2, 2, 2, 2, 2, 2, 2, 2, 2, 2, 2, 2, 2, 2, 2, 2, 2, 2, 2, 2, 2, 2, 2, 2, 2, 2, 2, 2, 2, 2, 2, 2, 2, 2, 2, 2, 2, 2, 2, 2, 2, 2, 2, 2, 2, 2, 2, 2, 2, 2, 2, 2, 2, 2, 2, 2, 2, 154, 244, 112, 41, 88, 168, 233, 92, 154, 244, 112, 41, 88, 168, 233, 92, 154, 244, 112, 41, 88, 168, 233, 92, 154, 244, 112, 41, 88, 168, 233, 92, 154, 244, 112, 41, 88, 168, 233, 92, 154, 244, 112, 41, 88, 168, 233, 92, 154, 244, 112, 41, 88, 168, 233, 92, 154, 244, 112, 41, 88, 168, 233, 92, 0, 0, 0, 0, 0, 0, 0, 0, 0, 0, 0, 0, 0, 0, 0, 0, 0, 0, 0, 0, 0, 0, 0, 0, 0, 0, 0, 0, 0, 0, 0, 0, 0, 0, 0, 0, 0, 0, 0, 0, 0, 0, 0, 0, 0, 0, 0, 0, 0, 0, 0, 0, 0, 0, 0, 0, 0, 0, 0, 0, 0, 0, 0, 0] = [98, 83, 86, 25, 125, 65, 198, 25, 30, 16, 222, 151, 132, 100, 92, 43, 48, 153, 21, 246] := by
    rw [show (192 : Nat) = 128 + 64 from rfl, iterHash_add, a2, sha1ChainCc03]
  have a4 : iterHash sha1 256 [2, 2, 2, 2, 2, 2, 2, 2, 2, 2, 2, 2, 2, 2, 2, 2, 2, 2, 2, 2, 2, 2, 2, 2, 2, 2, 2, 2, 2, 2, 2, 2, 2, 2, 2, 2, 2, 2, 2, 2, 2, 2, 2, 2, 2, 2, 2, 2, 2, 2, 2, 2, 2, 2, 2, 2, 2, 2, 2, 2, 2, 2, 2, 2, 154, 244, 112, 41, 88, 168, 233, 92, 154, 244, 112, 41, 88, 168, 233, 92, 154, 244, 112, 41, 88, 168, 233, 92, 154, 244, 112, 41, 88, 168, 233, 92, 154, 244, 112, 41, 88, 168, 233, 92, 154, 244, 112, 41, 88, 168, 233, 92, 154, 244, 112, 41, 88, 168, 233, 92, 154, 244, 112, 41, 88, 168, 233, 92, 0, 0, 0, 0, 0, 0, 0, 0, 0, 0, 0, 0, 0, 0, 0, 0, 0, 0, 0, 0, 0, 0, 0, 0, 0, 0, 0, 0, 0, 0, 0, 0, 0, 0, 0, 0, 0, 0, 0, 0, 0, 0, 0, 0, 0, 0, 0, 0, 0, 0, 0, 0, 0, 0, 0, 0, 0, 0, 0, 0, 0, 0, 0, 0] = [89, 127, 29, 162, 61, 238, 111, 109, 229, 248, 45, 255, 68, 181, 251, 237, 102, 26, 191, 171] := by
    rw [show (256 : Nat) = 192 + 64 from rfl, iterHash_add, a3, sha1ChainCc04]
  have a5 : iterHash sha1 320 [2, 2, 2, 2, 2, 2, 2, 2, 2, 2, 2, 2, 2, 2, 2, 2, 2, 2, 2, 2, 2, 2, 2, 2, 2, 2, 2, 2, 2, 2, 2, 2, 2, 2, 2, 2, 2, 2, 2, 2, 2, 2, 2, 2, 2, 2, 2, 2, 2, 2, 2, 2, 2, 2, 2, 2, 2, 2, 2, 2, 2, 2, 2, 2, 154, 244, 112, 41, 88, 168, 233, 92, 154, 244, 112, 41, 88, 168, 233, 92, 154, 244, 112, 41, 88, 168, 233, 92, 154, 244, 112, 41, 88, 168, 233, 92, 154, 244, 112, 41, 88, 168, 233, 92, 154, 244, 112, 41, 88, 168, 233, 92, 154, 244, 112, 41, 88, 168, 233, 92, 154, 244, 112, 41, 88, 168, 233, 92, 0, 0, 0, 0, 0, 0, 0, 0, 0, 0, 0, 0, 0, 0, 0, 0, 0, 0, 0, 0, 0, 0, 0, 0, 0, 0, 0, 0, 0, 0, 0, 0, 0, 0, 0, 0, 0, 0, 0, 0, 0, 0, 0, 0, 0, 0, 0, 0, 0, 0, 0, 0, 0, 0, 0, 0, 0, 0, 0, 0, 0, 0, 0, 0] = [44, 201, 93, 103, 224, 171, 63, 116, 17, 147, 244, 180, 137, 147, 156, 191, 190, 104, 163, 36] := by
    rw [show (320 : Nat) = 256 + 64 from rfl, iterHash_add, a4, sha1ChainCc05]
  have a6 : iterHash sha1 384 [2, 2, 2, 2, 2, 2, 2, 2, 2, 2, 2, 2, 2, 2, 2, 2, 2, 2, 2, 2, 2, 2, 2, 2, 2, 2, 2, 2, 2, 2, 2, 2, 2, 2, 2, 2, 2, 2, 2, 2, 2, 2, 2, 2, 2, 2, 2, 2, 2, 2, 2, 2, 2, 2, 2, 2, 2, 2, 2, 2, 2, 2, 2, 2, 154, 244, 112, 41, 88, 168, 233, 92, 154, 244, 112, 41, 88, 168, 233, 92, 154, 244, 112, 41, 88, 168, 233, 92, 154, 244, 112, 41, 88, 168, 233, 92, 154, 244, 112, 41, 88, 168, 233, 92, 154, 244, 112, 41, 88, 168, 233, 92, 154, 244, 112, 41, 88, 168, 233, 92, 154, 244, 112, 41, 88, 168, 233, 92, 0, 0, 0, 0, 0, 0, 0, 0, 0, 0, 0, 0, 0, 0, 0, 0, 0, 0, 0, 0, 0, 0, 0, 0, 0, 0, 0, 0, 0, 0, 0, 0, 0, 0, 0, 0, 0, 0, 0, 0, 0, 0, 0, 0, 0, 0, 0, 0, 0, 0, 0, 0, 0, 0, 0, 0, 0, 0, 0, 0, 0, 0, 0, 0] = [237, 186, 213, 78, 178, 209, 202, 50, 18, 196, 28, 20, 184, 229, 122, 156, 7, 83, 164, 40] := by
    rw [show (384 : Nat) = 320 + 64 from rfl, iterHash_add, a5, sha1ChainCc06]
  have a7 : iterHash sha1 448 [2, 2, 2, 2, 2, 2, 2, 2, 2, 2, 2, 2, 2, 2, 2, 2, 2, 2, 2, 2, 2, 2, 2, 2, 2, 2, 2, 2, 2, 2, 2, 2, 2, 2, 2, 2, 2, 2, 2, 2, 2, 2, 2, 2, 2, 2, 2, 2, 2, 2, 2, 2, 2, 2, 2, 2, 2, 2, 2, 2, 2, 2, 2, 2, 154, 244, 112, 41, 88, 168, 233, 92, 154, 244, 112, 41, 88, 168, 233, 92, 154, 244, 112, 41, 88, 168, 233, 92, 154, 244, 112, 41, 88, 168, 233, 92, 154, 244, 112, 41, 88, 168, 233, 92, 154, 244, 112, 41, 88, 168, 233, 92, 154, 244, 112, 41, 88, 168, 233, 92, 154, 244, 112, 41, 88, 168, 233, 92, 0, 0, 0, 0, 0, 0, 0, 0, 0, 0, 0, 0, 0, 0, 0, 0, 0, 0, 0, 0, 0, 0, 0, 0, 0, 0, 0, 0, 0, 0, 0, 0, 0, 0, 0, 0, 0, 0, 0, 0, 0, 0, 0, 0, 0, 0, 0, 0, 0, 0, 0, 0, 0, 0, 0, 0, 0, 0, 0, 0, 0, 0, 0, 0] = [83, 110, 187, 164, 52, 229, 209, 84, 231, 98, 147, 181, 74, 54, 126, 41, 160, 124, 130, 212] := by
    rw [show (448 : Nat) = 384 + 64 from rfl, iterHash_add, a6, sha1ChainCc07]
  have a8 : iterHash sha1 512 [2, 2, 2, 2, 2, 2, 2, 2, 2, 2, 2, 2, 2, 2, 2, 2, 2, 2, 2, 2, 2, 2, 2, 2, 2, 2, 2, 2, 2, 2, 2, 2, 2, 2, 2, 2, 2, 2, 2, 2, 2, 2, 2, 2, 2, 2, 2, 2, 2, 2, 2, 2, 2, 2, 2, 2, 2, 2, 2, 2, 2, 2, 2, 2, 154, 244, 112, 41, 88, 168, 233, 92, 154, 244, 112, 41, 88, 168, 233, 92, 154, 244, 112, 41, 88, 168, 233, 92, 154, 244, 112, 41, 88, 168, 233, 92, 154, 244, 112, 41, 88, 168, 233, 92, 154, 244, 112, 41, 88, 168, 233, 92, 154, 244, 112, 41, 88, 168, 233, 92, 154, 244, 112, 41, 88, 168, 233, 92, 0, 0, 0, 0, 0, 0, 0, 0, 0, 0, 0, 0, 0, 0, 0, 0, 0, 0, 0, 0, 0, 0, 0, 0, 0, 0, 0, 0, 0, 0, 0, 0, 0, 0, 0, 0, 0, 0, 0, 0, 0, 0, 0, 0, 0, 0, 0, 0, 0, 0, 0, 0, 0, 0, 0, 0, 0, 0, 0, 0, 0, 0, 0, 0] = [25, 76, 185, 118, 214, 218, 27, 244, 2, 39, 99, 242, 254, 64, 187, 195, 13, 153, 132, 122] := by
    rw [show (512 : Nat) = 448 + 64 from rfl, iterHash_add, a7, sha1ChainCc08]
  have a9 : iterHash sha1 576 [2, 2, 2, 2, 2, 2, 2, 2, 2, 2, 2, 2, 2, 2, 2, 2, 2, 2, 2, 2, 2, 2, 2, 2, 2, 2, 2, 2, 2, 2, 2, 2, 2, 2, 2, 2, 2, 2, 2, 2, 2, 2, 2, 2, 2, 2, 2, 2, 2, 2, 2, 2, 2, 2, 2, 2, 2, 2, 2, 2, 2, 2, 2, 2, 154, 244, 112, 41, 88, 168, 233, 92, 154, 244, 112, 41, 88, 168, 233, 92, 154, 244, 112, 41, 88, 168, 233, 92, 154, 244, 112, 41, 88, 168, 233, 92, 154, 244, 112, 41, 88, 168, 233, 92, 154, 244, 112, 41, 88, 168, 233, 92, 154, 244, 112, 41, 88, 168, 233, 92, 154, 244, 112, 41, 88, 168, 233, 92, 0, 0, 0, 0, 0, 0, 0, 0, 0, 0, 0, 0, 0, 0, 0, 0, 0, 0, 0, 0, 0, 0, 0, 0, 0, 0, 0, 0, 0, 0, 0, 0, 0, 0, 0, 0, 0, 0, 0, 0, 0, 0, 0, 0, 0, 0, 0, 0, 0, 0, 0, 0, 0, 0, 0, 0, 0, 0, 0, 0, 0, 0, 0, 0] = [156, 125, 4, 98, 9, 108, 101, 224, 25, 161, 53, 54, 222, 190, 251, 248, 228, 146, 7, 156] := by
    rw [show (576 : Nat) = 512 + 64 from rfl, iterHash_add, a8, sha1ChainCc09]
  have a10 : iterHash sha1 640 [2, 2, 2, 2, 2, 2, 2, 2, 2, 2, 2, 2, 2, 2, 2, 2, 2, 2, 2, 2, 2, 2, 2, 2, 2, 2, 2, 2, 2, 2, 2, 2, 2, 2, 2, 2, 2, 2, 2, 2, 2, 2, 2, 2, 2, 2, 2, 2, 2, 2, 2, 2, 2, 2, 2, 2, 2, 2, 2, 2, 2, 2, 2, 2, 154, 244, 112, 41, 88, 168, 233, 92, 154, 244, 112, 41, 88, 168, 233, 92, 154, 244, 112, 41, 88, 168, 233, 92, 154, 244, 112, 41, 88, 168, 233, 92, 154, 244, 112, 41, 88, 168, 233, 92, 154, 244, 112, 41, 88, 168, 233, 92, 154, 244, 112, 41, 88, 168, 233, 92, 154, 244, 112, 41, 88, 168, 233, 92, 0, 0, 0, 0, 0, 0, 0, 0, 0, 0, 0, 0, 0, 0, 0, 0, 0, 0, 0, 0, 0, 0, 0, 0, 0, 0, 0, 0, 0, 0, 0, 0, 0, 0, 0, 0, 0, 0, 0, 0, 0, 0, 0, 0, 0, 0, 0, 0, 0, 0, 0, 0, 0, 0, 0, 0, 0, 0, 0, 0, 0, 0, 0, 0] = [151, 8, 255, 9, 161, 157, 17, 146, 191, 12, 3, 77, 235, 145, 40, 143, 140, 182, 90, 62] := by
    rw [show (640 : Nat) = 576 + 64 from rfl, iterHash_add, a9, sha1ChainCc10]
  have a11 : iterHash sha1 704 [2, 2, 2, 2, 2, 2, 2, 2, 2, 2, 2, 2, 2, 2, 2, 2, 2, 2, 2, 2, 2, 2, 2, 2, 2, 2, 2, 2, 2, 2, 2, 2, 2, 2, 2, 2, 2, 2, 2, 2, 2, 2, 2, 2, 2, 2, 2, 2, 2, 2, 2, 2, 2, 2, 2, 2, 2, 2, 2, 2, 2, 2, 2, 2, 154, 244, 112, 41, 88, 168, 233, 92, 154, 244, 112, 41, 88, 168, 233, 92, 154, 244, 112, 41, 88, 168, 233, 92, 154, 244, 112, 41, 88, 168, 233, 92, 154, 244, 112, 41, 88, 168, 233, 92, 154, 244, 112, 41, 88, 168, 233, 92, 154, 244, 112, 41, 88, 168, 233, 92, 154, 244, 112, 41, 88, 168, 233, 92, 0, 0, 0, 0, 0, 0, 0, 0, 0, 0, 0, 0, 0, 0, 0, 0, 0, 0, 0, 0, 0, 0, 0, 0, 0, 0, 0, 0, 0, 0, 0, 0, 0, 0, 0, 0, 0, 0, 0, 0, 0, 0, 0, 0, 0, 0, 0, 0, 0, 0, 0, 0, 0, 0, 0, 0, 0, 0, 0, 0, 0, 0, 0, 0] = [36, 70, 5, 235, 48, 186, 176, 27, 85, 208, 11, 217, 134, 41, 44, 180, 7, 187, 128, 150] := by
    rw [show (704 : Nat) = 640 + 64 from rfl, iterHash_add, a10, sha1ChainCc11]
  have a12 : iterHash sha1 768 [2, 2, 2, 2, 2, 2, 2, 2, 2, 2, 2, 2, 2, 2, 2, 2, 2, 2, 2, 2, 2, 2, 2, 2, 2, 2, 2, 2, 2, 2, 2, 2, 2, 2, 2, 2, 2, 2, 2, 2, 2, 2, 2, 2, 2, 2, 2, 2, 2, 2, 2, 2, 2, 2, 2, 2, 2, 2, 2, 2, 2, 2, 2, 2, 154, 244, 112, 41, 88, 168, 233, 92, 154, 244, 112, 41, 88, 168, 233, 92, 154, 244, 112, 41, 88, 168, 233, 92, 154, 244, 112, 41, 88, 168, 233, 92, 154, 244, 112, 41, 88, 168, 233, 92, 154, 244, 112, 41, 88, 168, 233, 92, 154, 244, 112, 41, 88, 168, 233, 92, 154, 244, 112, 41, 88, 168, 233, 92, 0, 0, 0, 0, 0, 0, 0, 0, 0, 0, 0, 0, 0, 0, 0, 0, 0, 0, 0, 0, 0, 0, 0, 0, 0, 0, 0, 0, 0, 0, 0, 0, 0, 0, 0, 0, 0, 0, 0, 0, 0, 0, 0, 0, 0, 0, 0, 0, 0, 0, 0, 0, 0, 0, 0, 0, 0, 0, 0, 0, 0, 0, 0, 0] = [198, 144, 4, 112, 66, 68, 152, 164, 193, 233, 207, 218, 53, 78, 193, 248, 12, 13, 222, 25] := by
    rw [show (768 : Nat) = 704 + 64 from rfl, iterHash_add, a11, sha1ChainCc12]
  have a13 : iterHash sha1 832 [2, 2, 2, 2, 2, 2, 2, 2, 2, 2, 2, 2, 2, 2, 2, 2, 2, 2, 2, 2, 2, 2, 2, 2, 2, 2, 2, 2, 2, 2, 2, 2, 2, 2, 2, 2, 2, 2, 2, 2, 2, 2, 2, 2, 2, 2, 2, 2, 2, 2, 2, 2, 2, 2, 2, 2, 2, 2, 2, 2, 2, 2, 2, 2, 154, 244, 112, 41, 88, 168, 233, 92, 154, 244, 112, 41, 88, 168, 233, 92, 154, 244, 112, 41, 88, 168, 233, 92, 154, 244, 112, 41, 88, 168, 233, 92, 154, 244, 112, 41, 88, 168, 233, 92, 154, 244, 112, 41, 88, 168, 233, 92, 154, 244, 112, 41, 88, 168, 233, 92, 154, 244, 112, 41, 88, 168, 233, 92, 0, 0, 0, 0, 0, 0, 0, 0, 0, 0, 0, 0, 0, 0, 0, 0, 0, 0, 0, 0, 0, 0, 0, 0, 0, 0, 0, 0, 0, 0, 0, 0, 0, 0, 0, 0, 0, 0, 0, 0, 0, 0, 0, 0, 0, 0, 0, 0, 0, 0, 0, 0, 0, 0, 0, 0, 0, 0, 0, 0, 0, 0, 0, 0] = [166, 35, 98, 9, 242, 236, 51, 77, 89, 99, 108, 200, 96, 58, 64, 58, 133, 122, 96, 203] := by
    rw [show (832 : Nat) = 768 + 64 from rfl, iterHash_add, a12, sha1ChainCc13]
  have a14 : iterHash sha1 896 [2, 2, 2, 2, 2, 2, 2, 2, 2, 2, 2, 2, 2, 2, 2, 2, 2, 2, 2, 2, 2, 2, 2, 2, 2, 2, 2, 2, 2, 2, 2, 2, 2, 2, 2, 2, 2, 2, 2, 2, 2, 2, 2, 2, 2, 2, 2, 2, 2, 2, 2, 2, 2, 2, 2, 2, 2, 2, 2, 2, 2, 2, 2, 2, 154, 244, 112, 41, 88, 168, 233, 92, 154, 244, 112, 41, 88, 168, 233, 92, 154, 244, 112, 41, 88, 168, 233, 92, 154, 244, 112, 41, 88, 168, 233, 92, 154, 244, 112, 41, 88, 168, 233, 92, 154, 244, 112, 41, 88, 168, 233, 92, 154, 244, 112, 41, 88, 168, 233, 92, 154, 244, 112, 41, 88, 168, 233, 92, 0, 0, 0, 0, 0, 0, 0, 0, 0, 0, 0, 0, 0, 0, 0, 0, 0, 0, 0, 0, 0, 0, 0, 0, 0, 0, 0, 0, 0, 0, 0, 0, 0, 0, 0, 0, 0, 0, 0, 0, 0, 0, 0, 0, 0, 0, 0, 0, 0, 0, 0, 0, 0, 0, 0, 0, 0, 0, 0, 0, 0, 0, 0, 0] = [192, 77, 86, 102, 104, 86, 5, 236, 45, 22, 115, 30, 240, 8, 148, 183, 14, 183, 183, 106] := by
    rw [show (896 : Nat) = 832 + 64 from rfl, iterHash_add, a13, sha1ChainCc14]
  have a15 : iterHash sha1 960 [2, 2, 2, 2, 2, 2, 2, 2, 2, 2, 2, 2, 2, 2, 2, 2, 2, 2, 2, 2, 2, 2, 2, 2, 2, 2, 2, 2, 2, 2, 2, 2, 2, 2, 2, 2, 2, 2, 2, 2, 2, 2, 2, 2, 2, 2, 2, 2, 2, 2, 2, 2, 2, 2, 2, 2, 2, 2, 2, 2, 2, 2, 2, 2, 154, 244, 112, 41, 88, 168, 233, 92, 154, 244, 112, 41, 88, 168, 233, 92, 154, 244, 112, 41, 88, 168, 233, 92, 154, 244, 112, 41, 88, 168, 233, 92, 154, 244, 112, 41, 88, 168, 233, 92, 154, 244, 112, 41, 88, 168, 233, 92, 154, 244, 112, 41, 88, 168, 233, 92, 154, 244, 112, 41, 88, 168, 233, 92, 0, 0, 0, 0, 0, 0, 0, 0, 0, 0, 0, 0, 0, 0, 0, 0, 0, 0, 0, 0, 0, 0, 0, 0, 0, 0, 0, 0, 0, 0, 0, 0, 0, 0, 0, 0, 0, 0, 0, 0, 0, 0, 0, 0, 0, 0, 0, 0, 0, 0, 0, 0, 0, 0, 0, 0, 0, 0, 0, 0, 0, 0, 0, 0] = [188, 123, 80, 235, 204, 219, 61, 125, 70, 82, 204, 63, 62, 221, 7, 80, 102, 231, 74, 39] := by
    rw [show (960 : Nat) = 896 + 64 from rfl, iterHash_add, a14, sha1ChainCc15]
  have a16 : iterHash sha1 1024 [2, 2, 2, 2, 2, 2, 2, 2, 2, 2, 2, 2, 2, 2, 2, 2, 2, 2, 2, 2, 2, 2, 2, 2, 2, 2, 2, 2, 2, 2, 2, 2, 2, 2, 2, 2, 2, 2, 2, 2, 2, 2, 2, 2, 2, 2, 2, 2, 2, 2, 2, 2, 2, 2, 2, 2, 2, 2, 2, 2, 2, 2, 2, 2, 154, 244, 112, 41, 88, 168, 233, 92, 154, 244, 112, 41, 88, 168, 233, 92, 154, 244, 112, 41, 88, 168, 233, 92, 154, 244, 112, 41, 88, 168, 233, 92, 154, 244, 112, 41, 88, 168, 233, 92, 154, 244, 112, 41, 88, 168, 233, 92, 154, 244, 112, 41, 88, 168, 233, 92, 154, 244, 112, 41, 88, 168, 233, 92, 0, 0, 0, 0, 0, 0, 0, 0, 0, 0, 0, 0, 0, 0, 0, 0, 0, 0, 0, 0, 0, 0, 0, 0, 0, 0, 0, 0, 0, 0, 0, 0, 0, 0, 0, 0, 0, 0, 0, 0, 0, 0, 0, 0, 0, 0, 0, 0, 0, 0, 0, 0, 0, 0, 0, 0, 0, 0, 0, 0, 0, 0, 0, 0] = [46, 227, 3, 144, 126, 128, 165, 174, 216, 84, 231, 40, 55, 205, 23, 92, 180, 184, 85, 3] := by
    rw [show (1024 : Nat) = 960 + 64 from rfl, iterHash_add, a15, sha1ChainCc16]
  have a17 : iterHash sha1 1088 [2, 2, 2, 2, 2, 2, 2, 2, 2, 2, 2, 2, 2, 2, 2, 2, 2, 2, 2, 2, 2, 2, 2, 2, 2, 2, 2, 2, 2, 2, 2, 2, 2, 2, 2, 2, 2, 2, 2, 2, 2, 2, 2, 2, 2, 2, 2, 2, 2, 2, 2, 2, 2, 2, 2, 2, 2, 2, 2, 2, 2, 2, 2, 2, 154, 244, 112, 41, 88, 168, 233, 92, 154, 244, 112, 41, 88, 168, 233, 92, 154, 244, 112, 41, 88, 168, 233, 92, 154, 244, 112, 41, 88, 168, 233, 92, 154, 244, 112, 41, 88, 168, 233, 92, 154, 244, 112, 41, 88, 168, 233, 92, 154, 244, 112, 41, 88, 168, 233, 92, 154, 244, 112, 41, 88, 168, 233, 92, 0, 0, 0, 0, 0, 0, 0, 0, 0, 0, 0, 0, 0, 0, 0, 0, 0, 0, 0, 0, 0, 0, 0, 0, 0, 0, 0, 0, 0, 0, 0, 0, 0, 0, 0, 0, 0, 0, 0, 0, 0, 0, 0, 0, 0, 0, 0, 0, 0, 0, 0, 0, 0, 0, 0, 0, 0, 0, 0, 0, 0, 0, 0, 0] = [174, 114, 158, 120, 18, 216, 226, 71, 68, 133, 54, 102, 13, 223, 185, 15, 209, 0, 199, 138] := by
    rw [show (1088 : Nat) = 1024 + 64 from rfl, iterHash_add, a16, sha1ChainCc17]
  have a18 : iterHash sha1 1152 [2, 2, 2, 2, 2, 2, 2, 2, 2, 2, 2, 2, 2, 2, 2, 2, 2, 2, 2, 2, 2, 2, 2, 2, 2, 2, 2, 2, 2, 2, 2, 2, 2, 2, 2, 2, 2, 2, 2, 2, 2, 2, 2, 2, 2, 2, 2, 2, 2, 2, 2, 2, 2, 2, 2, 2, 2, 2, 2, 2, 2, 2, 2, 2, 154, 244, 112, 41, 88, 168, 233, 92, 154, 244, 112, 41, 88, 168, 233, 92, 154, 244, 112, 41, 88, 168, 233, 92, 154, 244, 112, 41, 88, 168, 233, 92, 154, 244, 112, 41, 88, 168, 233, 92, 154, 244, 112, 41, 88, 168, 233, 92, 154, 244, 112, 41, 88, 168, 233, 92, 154, 244, 112, 41, 88, 168, 233, 92, 0, 0, 0, 0, 0, 0, 0, 0, 0, 0, 0, 0, 0, 0, 0, 0, 0, 0, 0, 0, 0, 0, 0, 0, 0, 0, 0, 0, 0, 0, 0, 0, 0, 0, 0, 0, 0, 0, 0, 0, 0, 0, 0, 0, 0, 0, 0, 0, 0, 0, 0, 0, 0, 0, 0, 0, 0, 0, 0, 0, 0, 0, 0, 0] = [212, 179, 191, 17, 13, 76, 101, 24, 191, 140, 1, 52, 102, 205, 48, 24, 173, 152, 40, 152] := by
    rw [show (1152 : Nat) = 1088 + 64 from rfl, iterHash_add, a17, sha1ChainCc18]
  have a19 : iterHash sha1 1216 [2, 2, 2, 2, 2, 2, 2, 2, 2, 2, 2, 2, 2, 2, 2, 2, 2, 2, 2, 2, 2, 2, 2, 2, 2, 2, 2, 2, 2, 2, 2, 2, 2, 2, 2, 2, 2, 2, 2, 2, 2, 2, 2, 2, 2, 2, 2, 2, 2, 2, 2, 2, 2, 2, 2, 2, 2, 2, 2, 2, 2, 2, 2, 2, 154, 244, 112, 41, 88, 168, 233, 92, 154, 244, 112, 41, 88, 168, 233, 92, 154, 244, 112, 41, 88, 168, 233, 92, 154, 244, 112, 41, 88, 168, 233, 92, 154, 244, 112, 41, 88, 168, 233, 92, 154, 244, 112, 41, 88, 168, 233, 92, 154, 244, 112, 41, 88, 168, 233, 92, 154, 244, 112, 41, 88, 168, 233, 92, 0, 0, 0, 0, 0, 0, 0, 0, 0, 0, 0, 0, 0, 0, 0, 0, 0, 0, 0, 0, 0, 0, 0, 0, 0, 0, 0, 0, 0, 0, 0, 0, 0, 0, 0, 0, 0, 0, 0, 0, 0, 0, 0, 0, 0, 0, 0, 0, 0, 0, 0, 0, 0, 0, 0, 0, 0, 0, 0, 0, 0, 0, 0, 0] = [5, 197, 75, 95, 158, 218, 59, 121, 147, 2, 186, 48, 74, 162, 150, 2, 234, 146, 216, 139] := by
    rw [show (1216 : Nat) = 1152 + 64 from rfl, iterHash_add, a18, sha1ChainCc19]
  have a20 : iterHash sha1 1280 [2, 2, 2, 2, 2, 2, 2, 2, 2, 2, 2, 2, 2, 2, 2, 2, 2, 2, 2, 2, 2, 2, 2, 2, 2, 2, 2, 2, 2, 2, 2, 2, 2, 2, 2, 2, 2, 2, 2, 2, 2, 2, 2, 2, 2, 2, 2, 2, 2, 2, 2, 2, 2, 2, 2, 2, 2, 2, 2, 2, 2, 2, 2, 2, 154, 244, 112, 41, 88, 168, 233, 92, 154, 244, 112, 41, 88, 168, 233, 92, 154, 244, 112, 41, 88, 168, 233, 92, 154, 244, 112, 41, 88, 168, 233, 92, 154, 244, 112, 41, 88, 168, 233, 92, 154, 244, 112, 41, 88, 168, 233, 92, 154, 244, 112, 41, 88, 168, 233, 92, 154, 244, 112, 41, 88, 168, 233, 92, 0, 0, 0, 0, 0, 0, 0, 0, 0, 0, 0, 0, 0, 0, 0, 0, 0, 0, 0, 0, 0, 0, 0, 0, 0, 0, 0, 0, 0, 0, 0, 0, 0, 0, 0, 0, 0, 0, 0, 0, 0, 0, 0, 0, 0, 0, 0, 0, 0, 0, 0, 0, 0, 0, 0, 0, 0, 0, 0, 0, 0, 0, 0, 0] = [55, 77, 8, 178, 83, 101, 133, 189, 82, 126, 56, 153, 80, 64, 137, 37, 165, 7, 254, 132] := by
    rw [show (1280 : Nat) = 1216 + 64 from rfl, iterHash_add, a19, sha1ChainCc20]
  have a21 : iterHash sha1 1344 [2, 2, 2, 2, 2, 2, 2, 2, 2, 2, 2, 2, 2, 2, 2, 2, 2, 2, 2, 2, 2, 2, 2, 2, 2, 2, 2, 2, 2, 2, 2, 2, 2, 2, 2, 2, 2, 2, 2, 2, 2, 2, 2, 2, 2, 2, 2, 2, 2, 2, 2, 2, 2, 2, 2, 2, 2, 2, 2, 2, 2, 2, 2, 2, 154, 244, 112, 41, 88, 168, 233, 92, 154, 244, 112, 41, 88, 168, 233, 92, 154, 244, 112, 41, 88, 168, 233, 92, 154, 244, 112, 41, 88, 168, 233, 92, 154, 244, 112, 41, 88, 168, 233, 92, 154, 244, 112, 41, 88, 168, 233, 92, 154, 244, 112, 41, 88, 168, 233, 92, 154, 244, 112, 41, 88, 168, 233, 92, 0, 0, 0, 0, 0, 0, 0, 0, 0, 0, 0, 0, 0, 0, 0, 0, 0, 0, 0, 0, 0, 0, 0, 0, 0, 0, 0, 0, 0, 0, 0, 0, 0, 0, 0, 0, 0, 0, 0, 0, 0, 0, 0, 0, 0, 0, 0, 0, 0, 0, 0, 0, 0, 0, 0, 0, 0, 0, 0, 0, 0, 0, 0, 0] = [198, 222, 248, 138, 61, 40, 98, 90, 206, 40, 234, 64, 231, 52, 218, 254, 127, 80, 173, 75] := by
    rw [show (1344 : Nat) = 1280 + 64 from rfl, iterHash_add, a20, sha1ChainCc21]
  have a22 : iterHash sha1 1408 [2, 2, 2, 2, 2, 2, 2, 2, 2, 2, 2, 2, 2, 2, 2, 2, 2, 2, 2, 2, 2, 2, 2, 2, 2, 2, 2, 2, 2, 2, 2, 2, 2, 2, 2, 2, 2, 2, 2, 2, 2, 2, 2, 2, 2, 2, 2, 2, 2, 2, 2, 2, 2, 2, 2, 2, 2, 2, 2, 2, 2, 2, 2, 2, 154, 244, 112, 41, 88, 168, 233, 92, 154, 244, 112, 41, 88, 168, 233, 92, 154, 244, 112, 41, 88, 168, 233, 92, 154, 244, 112, 41, 88, 168, 233, 92, 154, 244, 112, 41, 88, 168, 233, 92, 154, 244, 112, 41, 88, 168, 233, 92, 154, 244, 112, 41, 88, 168, 233, 92, 154, 244, 112, 41, 88, 168, 233, 92, 0, 0, 0, 0, 0, 0, 0, 0, 0, 0, 0, 0, 0, 0, 0, 0, 0, 0, 0, 0, 0, 0, 0, 0, 0, 0, 0, 0, 0, 0, 0, 0, 0, 0, 0, 0, 0, 0, 0, 0, 0, 0, 0, 0, 0, 0, 0, 0, 0, 0, 0, 0, 0, 0, 0, 0, 0, 0, 0, 0, 0, 0, 0, 0] = [214, 245, 217, 135, 90, 10, 5, 168, 147, 236, 88, 252, 218, 182, 234, 163, 235, 235, 149, 45] := by
    rw [show (1408 : Nat) = 1344 + 64 from rfl, iterHash_add, a21, sha1ChainCc22]
  have a23 : iterHash sha1 1472 [2, 2, 2, 2, 2, 2, 2, 2, 2, 2, 2, 2, 2, 2, 2, 2, 2, 2, 2, 2, 2, 2, 2, 2, 2, 2, 2, 2, 2, 2, 2, 2, 2, 2, 2, 2, 2, 2, 2, 2, 2, 2, 2, 2, 2, 2, 2, 2, 2, 2, 2, 2, 2, 2, 2, 2, 2, 2, 2, 2, 2, 2, 2, 2, 154, 244, 112, 41, 88, 168, 233, 92, 154, 244, 112, 41, 88, 168, 233, 92, 154, 244, 112, 41, 88, 168, 233, 92, 154, 244, 112, 41, 88, 168, 233, 92, 154, 244, 112, 41, 88, 168, 233, 92, 154, 244, 112, 41, 88, 168, 233, 92, 154, 244, 112, 41, 88, 168, 233, 92, 154, 244, 112, 41, 88, 168, 233, 92, 0, 0, 0, 0, 0, 0, 0, 0, 0, 0, 0, 0, 0, 0, 0, 0, 0, 0, 0, 0, 0, 0, 0, 0, 0, 0, 0, 0, 0, 0, 0, 0, 0, 0, 0, 0, 0, 0, 0, 0, 0, 0, 0, 0, 0, 0, 0, 0, 0, 0, 0, 0, 0, 0, 0, 0, 0, 0, 0, 0, 0, 0, 0, 0] = [254, 182, 153, 231, 231, 167, 200, 179, 217, 71, 73, 171, 9, 174, 79, 50, 128, 23, 48, 18] := by
    rw [show (1472 : Nat) = 1408 + 64 from rfl, iterHash_add, a22, sha1ChainCc23]
  have a24 : iterHash sha1 1536 [2, 2, 2, 2, 2, 2, 2, 2, 2, 2, 2, 2, 2, 2, 2, 2, 2, 2, 2, 2, 2, 2, 2, 2, 2, 2, 2, 2, 2, 2, 2, 2, 2, 2, 2, 2, 2, 2, 2, 2, 2, 2, 2, 2, 2, 2, 2, 2, 2, 2, 2, 2, 2, 2, 2, 2, 2, 2, 2, 2, 2, 2, 2, 2, 154, 244, 112, 41, 88, 168, 233, 92, 154, 244, 112, 41, 88, 168, 233, 92, 154, 244, 112, 41, 88, 168, 233, 92, 154, 244, 112, 41, 88, 168, 233, 92, 154, 244, 112, 41, 88, 168, 233, 92, 154, 244, 112, 41, 88, 168, 233, 92, 154, 244, 112, 41, 88, 168, 233, 92, 154, 244, 112, 41, 88, 168, 233, 92, 0, 0, 0, 0, 0, 0, 0, 0, 0, 0, 0, 0, 0, 0, 0, 0, 0, 0, 0, 0, 0, 0, 0, 0, 0, 0, 0, 0, 0, 0, 0, 0, 0, 0, 0, 0, 0, 0, 0, 0, 0, 0, 0, 0, 0, 0, 0, 0, 0, 0, 0, 0, 0, 0, 0, 0, 0, 0, 0, 0, 0, 0, 0, 0] = [72, 190, 56, 82, 206, 95, 141, 115, 188, 9, 36, 158, 156, 22, 3, 159, 13, 68, 215, 82] := by
    rw [show (1536 : Nat) = 1472 + 64 from rfl, iterHash_add, a23, sha1ChainCc24]
  have a25 : iterHash sha1 1600 [2, 2, 2, 2, 2, 2, 2, 2, 2, 2, 2, 2, 2, 2, 2, 2, 2, 2, 2, 2, 2, 2, 2, 2, 2, 2, 2, 2, 2, 2, 2, 2, 2, 2, 2, 2, 2, 2, 2, 2, 2, 2, 2, 2, 2, 2, 2, 2, 2, 2, 2, 2, 2, 2, 2, 2, 2, 2, 2, 2, 2, 2, 2, 2, 154, 244, 112, 41, 88, 168, 233, 92, 154, 244, 112, 41, 88, 168, 233, 92, 154, 244, 112, 41, 88, 168, 233, 92, 154, 244, 112, 41, 88, 168, 233, 92, 154, 244, 112, 41, 88, 168, 233, 92, 154, 244, 112, 41, 88, 168, 233, 92, 154, 244, 112, 41, 88, 168, 233, 92, 154, 244, 112, 41, 88, 168, 233, 92, 0, 0, 0, 0, 0, 0, 0, 0, 0, 0, 0, 0, 0, 0, 0, 0, 0, 0, 0, 0, 0, 0, 0, 0, 0, 0, 0, 0, 0, 0, 0, 0, 0, 0, 0, 0, 0, 0, 0, 0, 0, 0, 0, 0, 0, 0, 0, 0, 0, 0, 0, 0, 0, 0, 0, 0, 0, 0, 0, 0, 0, 0, 0, 0] = [232, 25, 172, 21, 251, 61, 73, 42, 60, 245, 32, 225, 42, 106, 219, 14, 99, 94, 131, 174] := by
    rw [show (1600 : Nat) = 1536 + 64 from rfl, iterHash_add, a24, sha1ChainCc25]
  have a26 : iterHash sha1 1664 [2, 2, 2, 2, 2, 2, 2, 2, 2, 2, 2, 2, 2, 2, 2, 2, 2, 2, 2, 2, 2, 2, 2, 2, 2, 2, 2, 2, 2, 2, 2, 2, 2, 2, 2, 2, 2, 2, 2, 2, 2, 2, 2, 2, 2, 2, 2, 2, 2, 2, 2, 2, 2, 2, 2, 2, 2, 2, 2, 2, 2, 2, 2, 2, 154, 244, 112, 41, 88, 168, 233, 92, 154, 244, 112, 41, 88, 168, 233, 92, 154, 244, 112, 41, 88, 168, 233, 92, 154, 244, 112, 41, 88, 168, 233, 92, 154, 244, 112, 41, 88, 168, 233, 92, 154, 244, 112, 41, 88, 168, 233, 92, 154, 244, 112, 41, 88, 168, 233, 92, 154, 244, 112, 41, 88, 168, 233, 92, 0, 0, 0, 0, 0, 0, 0, 0, 0, 0, 0, 0, 0, 0, 0, 0, 0, 0, 0, 0, 0, 0, 0, 0, 0, 0, 0, 0, 0, 0, 0, 0, 0, 0, 0, 0, 0, 0, 0, 0, 0, 0, 0, 0, 0, 0, 0, 0, 0, 0, 0, 0, 0, 0, 0, 0, 0, 0, 0, 0, 0, 0, 0, 0] = [66, 30, 69, 127, 126, 75, 33, 215, 68, 185, 9, 7, 92, 253, 250, 36, 27, 25, 131, 86] := by
    rw [show (1664 : Nat) = 1600 + 64 from rfl, iterHash_add, a25, sha1ChainCc26]
  have a27 : iterHash sha1 1728 [2, 2, 2, 2, 2, 2, 2, 2, 2, 2, 2, 2, 2, 2, 2, 2, 2, 2, 2, 2, 2, 2, 2, 2, 2, 2, 2, 2, 2, 2, 2, 2, 2, 2, 2, 2, 2, 2, 2, 2, 2, 2, 2, 2, 2, 2, 2, 2, 2, 2, 2, 2, 2, 2, 2, 2, 2, 2, 2, 2, 2, 2, 2, 2, 154, 244, 112, 41, 88, 168, 233, 92, 154, 244, 112, 41, 88, 168, 233, 92, 154, 244, 112, 41, 88, 168, 233, 92, 154, 244, 112, 41, 88, 168, 233, 92, 154, 244, 112, 41, 88, 168, 233, 92, 154, 244, 112, 41, 88, 168, 233, 92, 154, 244, 112, 41, 88, 168, 233, 92, 154, 244, 112, 41, 88, 168, 233, 92, 0, 0, 0, 0, 0, 0, 0, 0, 0, 0, 0, 0, 0, 0, 0, 0, 0, 0, 0, 0, 0, 0, 0, 0, 0, 0, 0, 0, 0, 0, 0, 0, 0, 0, 0, 0, 0, 0, 0, 0, 0, 0, 0, 0, 0, 0, 0, 0, 0, 0, 0, 0, 0, 0, 0, 0, 0, 0, 0, 0, 0, 0, 0, 0] = [27, 144, 128, 34, 137, 125, 33, 35, 169, 101, 116, 145, 31, 169, 14, 227, 249, 19, 20, 137] := by
    rw [show (1728 : Nat) = 1664 + 64 from rfl, iterHash_add, a26, sha1ChainCc27]
  have a28 : iterHash sha1 1792 [2, 2, 2, 2, 2, 2, 2, 2, 2, 2, 2, 2, 2, 2, 2, 2, 2, 2, 2, 2, 2, 2, 2, 2, 2, 2, 2, 2, 2, 2, 2, 2, 2, 2, 2, 2, 2, 2, 2, 2, 2, 2, 2, 2, 2, 2, 2, 2, 2, 2, 2, 2, 2, 2, 2, 2, 2, 2, 2, 2, 2, 2, 2, 2, 154, 244, 112, 41, 88, 168, 233, 92, 154, 244, 112, 41, 88, 168, 233, 92, 154, 244, 112, 41, 88, 168, 233, 92, 154, 244, 112, 41, 88, 168, 233, 92, 154, 244, 112, 41, 88, 168, 233, 92, 154, 244, 112, 41, 88, 168, 233, 92, 154, 244, 112, 41, 88, 168, 233, 92, 154, 244, 112, 41, 88, 168, 233, 92, 0, 0, 0, 0, 0, 0, 0, 0, 0, 0, 0, 0, 0, 0, 0, 0, 0, 0, 0, 0, 0, 0, 0, 0, 0, 0, 0, 0, 0, 0, 0, 0, 0, 0, 0, 0, 0, 0, 0, 0, 0, 0, 0, 0, 0, 0, 0, 0, 0, 0, 0, 0, 0, 0, 0, 0, 0, 0, 0, 0, 0, 0, 0, 0] = [29, 75, 85, 100, 138, 121, 59, 73, 213, 98, 21, 237, 124, 5, 255, 204, 46, 29, 145, 234] := by
    rw [show (1792 : Nat) = 1728 + 64 from rfl, iterHash_add, a27, sha1ChainCc28]
  have a29 : iterHash sha1 1856 [2, 2, 2, 2, 2, 2, 2, 2, 2, 2, 2, 2, 2, 2, 2, 2, 2, 2, 2, 2, 2, 2, 2, 2, 2, 2, 2, 2, 2, 2, 2, 2, 2, 2, 2, 2, 2, 2, 2, 2, 2, 2, 2, 2, 2, 2, 2, 2, 2, 2, 2, 2, 2, 2, 2, 2, 2, 2, 2, 2, 2, 2, 2, 2, 154, 244, 112, 41, 88, 168, 233, 92, 154, 244, 112, 41, 88, 168, 233, 92, 154, 244, 112, 41, 88, 168, 233, 92, 154, 244, 112, 41, 88, 168, 233, 92, 154, 244, 112, 41, 88, 168, 233, 92, 154, 244, 112, 41, 88, 168, 233, 92, 154, 244, 112, 41, 88, 168, 233, 92, 154, 244, 112, 41, 88, 168, 233, 92, 0, 0, 0, 0, 0, 0, 0, 0, 0, 0, 0, 0, 0, 0, 0, 0, 0, 0, 0, 0, 0, 0, 0, 0, 0, 0, 0, 0, 0, 0, 0, 0, 0, 0, 0, 0, 0, 0, 0, 0, 0, 0, 0, 0, 0, 0, 0, 0, 0, 0, 0, 0, 0, 0, 0, 0, 0, 0, 0, 0, 0, 0, 0, 0] = [65, 220, 189, 179, 12, 43, 111, 149, 123, 14, 196, 216, 77, 27, 95, 109, 246, 86, 128, 48] := by
    rw [show (1856 : Nat) = 1792 + 64 from rfl, iterHash_add, a28, sha1ChainCc29]
  have a30 : iterHash sha1 1920 [2, 2, 2, 2, 2, 2, 2, 2, 2, 2, 2, 2, 2, 2, 2, 2, 2, 2, 2, 2, 2, 2, 2, 2, 2, 2, 2, 2, 2, 2, 2, 2, 2, 2, 2, 2, 2, 2, 2, 2, 2, 2, 2, 2, 2, 2, 2, 2, 2, 2, 2, 2, 2, 2, 2, 2, 2, 2, 2, 2, 2, 2, 2, 2, 154, 244, 112, 41, 88, 168, 233, 92, 154, 244, 112, 41, 88, 168, 233, 92, 154, 244, 112, 41, 88, 168, 233, 92, 154, 244, 112, 41, 88, 168, 233, 92, 154, 244, 112, 41, 88, 168, 233, 92, 154, 244, 112, 41, 88, 168, 233, 92, 154, 244, 112, 41, 88, 168, 233, 92, 154, 244, 112, 41, 88, 168, 233, 92, 0, 0, 0, 0, 0, 0, 0, 0, 0, 0, 0, 0, 0, 0, 0, 0, 0, 0, 0, 0, 0, 0, 0, 0, 0, 0, 0, 0, 0, 0, 0, 0, 0, 0, 0, 0, 0, 0, 0, 0, 0, 0, 0, 0, 0, 0, 0, 0, 0, 0, 0, 0, 0, 0, 0, 0, 0, 0, 0, 0, 0, 0, 0, 0] = [99, 181, 46, 226, 206, 25, 235, 237, 181, 71, 119, 158, 119, 21, 78, 229, 7, 45, 222, 20] := by
    rw [show (1920 : Nat) = 1856 + 64 from rfl, iterHash_add, a29, sha1ChainCc30]
  have a31 : iterHash sha1 1984 [2, 2, 2, 2, 2, 2, 2, 2, 2, 2, 2, 2, 2, 2, 2, 2, 2, 2, 2, 2, 2, 2, 2, 2, 2, 2, 2, 2, 2, 2, 2, 2, 2, 2, 2, 2, 2, 2, 2, 2, 2, 2, 2, 2, 2, 2, 2, 2, 2, 2, 2, 2, 2, 2, 2, 2, 2, 2, 2, 2, 2, 2, 2, 2, 154, 244, 112, 41, 88, 168, 233, 92, 154, 244, 112, 41, 88, 168, 233, 92, 154, 244, 112, 41, 88, 168, 233, 92, 154, 244, 112, 41, 88, 168, 233, 92, 154, 244, 112, 41, 88, 168, 233, 92, 154, 244, 112, 41, 88, 168, 233, 92, 154, 244, 112, 41, 88, 168, 233, 92, 154, 244, 112, 41, 88, 168, 233, 92, 0, 0, 0, 0, 0, 0, 0, 0, 0, 0, 0, 0, 0, 0, 0, 0, 0, 0, 0, 0, 0, 0, 0, 0, 0, 0, 0, 0, 0, 0, 0, 0, 0, 0, 0, 0, 0, 0, 0, 0, 0, 0, 0, 0, 0, 0, 0, 0, 0, 0, 0, 0, 0, 0, 0, 0, 0, 0, 0, 0, 0, 0, 0, 0] = [84, 211, 172, 156, 40, 51, 249, 67, 122, 19, 173, 65, 214, 168, 187, 190, 96, 177, 239, 52] := by
    rw [show (1984 : Nat) = 1920 + 64 from rfl, iterHash_add, a30, sha1ChainCc31]
  have a32 : iterHash sha1 2048 [2, 2, 2, 2, 2, 2, 2, 2, 2, 2, 2, 2, 2, 2, 2, 2, 2, 2, 2, 2, 2, 2, 2, 2, 2, 2, 2, 2, 2, 2, 2, 2, 2, 2, 2, 2, 2, 2, 2, 2, 2, 2, 2, 2, 2, 2, 2, 2, 2, 2, 2, 2, 2, 2, 2, 2, 2, 2, 2, 2, 2, 2, 2, 2, 154, 244, 112, 41, 88, 168, 233, 92, 154, 244, 112, 41, 88, 168, 233, 92, 154, 244, 112, 41, 88, 168, 233, 92, 154, 244, 112, 41, 88, 168, 233, 92, 154, 244, 112, 41, 88, 168, 233, 92, 154, 244, 112, 41, 88, 168, 233, 92, 154, 244, 112, 41, 88, 168, 233, 92, 154, 244, 112, 41, 88, 168, 233, 92, 0, 0, 0, 0, 0, 0, 0, 0, 0, 0, 0, 0, 0, 0, 0, 0, 0, 0, 0, 0, 0, 0, 0, 0, 0, 0, 0, 0, 0, 0, 0, 0, 0, 0, 0, 0, 0, 0, 0, 0, 0, 0, 0, 0, 0, 0, 0, 0, 0, 0, 0, 0, 0, 0, 0, 0, 0, 0, 0, 0, 0, 0, 0, 0] = [142, 159, 143, 199, 102, 67, 120, 188, 63, 208, 244, 118, 186, 185, 188, 147, 143, 92, 48, 234] := by
    rw [show (2048 : Nat) = 1984 + 64 from rfl, iterHash_add, a31, sha1ChainCc32]
  exact a32


/-! ## Claim C3: the KDF test vectors -/

/-- C3: the PKCS12-SHA KDF with SHA-1 on the BMP encoding of the empty
password, salt 9af4702958a8e95c and 2048 iterations returns
c2294aa6d02930eb5ce9c329eccb9aee1cb136baea746557 for id 1 / size 24 and
8e9f8fc7664378bc for id 2 / size 8. -/
theorem pbepkcs12sha_sha1_test_vectors :
    pbepkcs12sha sha1 (bmp_string []) [154, 244, 112, 41, 88, 168, 233, 92] 2048 1 24 = [194, 41, 74, 166, 208, 41, 48, 235, 92, 233, 195, 41, 236, 203, 154, 238, 28, 177, 54, 186, 234, 116, 101, 87] ∧
    pbepkcs12sha sha1 (bmp_string []) [154, 244, 112, 41, 88, 168, 233, 92] 2048 2 8 = [142, 159, 143, 199, 102, 67, 120, 188] := by
  have hbmp : bmp_string ([] : List Nat) = [0, 0] := by decide
  have hi0 : cycleTake [154, 244, 112, 41, 88, 168, 233, 92] (get_len ([154, 244, 112, 41, 88, 168, 233, 92] : List Nat).length) ++
      cycleTake [0, 0] (get_len (([0, 0] : List Nat)).length) = [154, 244, 112, 41, 88, 168, 233, 92, 154, 244, 112, 41, 88, 168, 233, 92, 154, 244, 112, 41, 88, 168, 233, 92, 154, 244, 112, 41, 88, 168, 233, 92, 154, 244, 112, 41, 88, 168, 233, 92, 154, 244, 112, 41, 88, 168, 233, 92, 154, 244, 112, 41, 88, 168, 233, 92, 154, 244, 112, 41, 88, 168, 233, 92, 0, 0, 0, 0, 0, 0, 0, 0, 0, 0, 0, 0, 0, 0, 0, 0, 0, 0, 0, 0, 0, 0, 0, 0, 0, 0, 0, 0, 0, 0, 0, 0, 0, 0, 0, 0, 0, 0, 0, 0, 0, 0, 0, 0, 0, 0, 0, 0, 0, 0, 0, 0, 0, 0, 0, 0, 0, 0, 0, 0, 0, 0, 0, 0] := by decide
  constructor
  · rw [hbmp, pbepkcs12sha_c2_shape, hi0]
    rw [show (List.replicate 64 1 ++ [154, 244, 112, 41, 88, 168, 233, 92, 154, 244, 112, 41, 88, 168, 233, 92, 154, 244, 112, 41, 88, 168, 233, 92, 154, 244, 112, 41, 88, 168, 233, 92, 154, 244, 112, 41, 88, 168, 233, 92, 154, 244, 112, 41, 88, 168, 233, 92, 154, 244, 112, 41, 88, 168, 233, 92, 154, 244, 112, 41, 88, 168, 233, 92, 0, 0, 0, 0, 0, 0, 0, 0, 0, 0, 0, 0, 0, 0, 0, 0, 0, 0, 0, 0, 0, 0, 0, 0, 0, 0, 0, 0, 0, 0, 0, 0, 0, 0, 0, 0, 0, 0, 0, 0, 0, 0, 0, 0, 0, 0, 0, 0, 0, 0, 0, 0, 0, 0, 0, 0, 0, 0, 0, 0, 0, 0, 0, 0] : List Nat) = [1, 1, 1, 1, 1, 1, 1, 1, 1, 1, 1, 1, 1, 1, 1, 1, 1, 1, 1, 1, 1, 1, 1, 1, 1, 1, 1, 1, 1, 1, 1, 1, 1, 1, 1, 1, 1, 1, 1, 1, 1, 1, 1, 1, 1, 1, 1, 1, 1, 1, 1, 1, 1, 1, 1, 1, 1, 1, 1, 1, 1, 1, 1, 1, 154, 244, 112, 41, 88, 168, 233, 92, 154, 244, 112, 41, 88, 168, 233, 92, 154, 244, 112, 41, 88, 168, 233, 92, 154, 244, 112, 41, 88, 168, 233, 92, 154, 244, 112, 41, 88, 168, 233, 92, 154, 244, 112, 41, 88, 168, 233, 92, 154, 244, 112, 41, 88, 168, 233, 92, 154, 244, 112, 41, 88, 168, 233, 92, 0, 0, 0, 0, 0, 0, 0, 0, 0, 0, 0, 0, 0, 0, 0, 0, 0, 0, 0, 0, 0, 0, 0, 0, 0, 0, 0, 0, 0, 0, 0, 0, 0, 0, 0, 0, 0, 0, 0, 0, 0, 0, 0, 0, 0, 0, 0, 0, 0, 0, 0, 0, 0, 0, 0, 0, 0, 0, 0, 0, 0, 0, 0, 0] from by decide]
    rw [sha1ChainA]
    rw [show kdfUpdate [154, 244, 112, 41, 88, 168, 233, 92, 154, 244, 112, 41, 88, 168, 233, 92, 154, 244, 112, 41, 88, 168, 233, 92, 154, 244, 112, 41, 88, 168, 233, 92, 154, 244, 112, 41, 88, 168, 233, 92, 154, 244, 112, 41, 88, 168, 233, 92, 154, 244, 112, 41, 88, 168, 233, 92, 154, 244, 112, 41, 88, 168, 233, 92, 0, 0, 0, 0, 0, 0, 0, 0, 0, 0, 0, 0, 0, 0, 0, 0, 0, 0, 0, 0, 0, 0, 0, 0, 0, 0, 0, 0, 0, 0, 0, 0, 0, 0, 0, 0, 0, 0, 0, 0, 0, 0, 0, 0, 0, 0, 0, 0, 0, 0, 0, 0, 0, 0, 0, 0, 0, 0, 0, 0, 0, 0, 0, 0] [194, 41, 74, 166, 208, 41, 48, 235, 92, 233, 195, 41, 236, 203, 154, 238, 28, 177, 54, 186] = [93, 29, 186, 208, 40, 210, 26, 71, 247, 222, 51, 83, 69, 116, 132, 74, 183, 165, 166, 228, 26, 210, 52, 3, 107, 29, 161, 20, 181, 146, 172, 134, 135, 192, 11, 23, 117, 90, 32, 23, 93, 29, 186, 208, 40, 210, 26, 71, 247, 222, 51, 83, 69, 116, 132, 74, 183, 165, 166, 228, 26, 210, 52, 3, 194, 41, 74, 166, 208, 41, 48, 235, 92, 233, 195, 41, 236, 203, 154, 238, 28, 177, 54, 186, 194, 41, 74, 166, 208, 41, 48, 235, 92, 233, 195, 41, 236, 203, 154, 238, 28, 177, 54, 186, 194, 41, 74, 166, 208, 41, 48, 235, 92, 233, 195, 41, 236, 203, 154, 238, 28, 177, 54, 186, 194, 41, 74, 167] from by decide]
    rw [show (List.replicate 64 1 ++ [93, 29, 186, 208, 40, 210, 26, 71, 247, 222, 51, 83, 69, 116, 132, 74, 183, 165, 166, 228, 26, 210, 52, 3, 107, 29, 161, 20, 181, 146, 172, 134, 135, 192, 11, 23, 117, 90, 32, 23, 93, 29, 186, 208, 40, 210, 26, 71, 247, 222, 51, 83, 69, 116, 132, 74, 183, 165, 166, 228, 26, 210, 52, 3, 194, 41, 74, 166, 208, 41, 48, 235, 92, 233, 195, 41, 236, 203, 154, 238, 28, 177, 54, 186, 194, 41, 74, 166, 208, 41, 48, 235, 92, 233, 195, 41, 236, 203, 154, 238, 28, 177, 54, 186, 194, 41, 74, 166, 208, 41, 48, 235, 92, 233, 195, 41, 236, 203, 154, 238, 28, 177, 54, 186, 194, 41, 74, 167] : List Nat) = [1, 1, 1, 1, 1, 1, 1, 1, 1, 1, 1, 1, 1, 1, 1, 1, 1, 1, 1, 1, 1, 1, 1, 1, 1, 1, 1, 1, 1, 1, 1, 1, 1, 1, 1, 1, 1, 1, 1, 1, 1, 1, 1, 1, 1, 1, 1, 1, 1, 1, 1, 1, 1, 1, 1, 1, 1, 1, 1, 1, 1, 1, 1, 1, 93, 29, 186, 208, 40, 210, 26, 71, 247, 222, 51, 83, 69, 116, 132, 74, 183, 165, 166, 228, 26, 210, 52, 3, 107, 29, 161, 20, 181, 146, 172, 134, 135, 192, 11, 23, 117, 90, 32, 23, 93, 29, 186, 208, 40, 210, 26, 71, 247, 222, 51, 83, 69, 116, 132, 74, 183, 165, 166, 228, 26, 210, 52, 3, 194, 41, 74, 166, 208, 41, 48, 235, 92, 233, 195, 41, 236, 203, 154, 238, 28, 177, 54, 186, 194, 41, 74, 166, 208, 41, 48, 235, 92, 233, 195, 41, 236, 203, 154, 238, 28, 177, 54, 186, 194, 41, 74, 166, 208, 41, 48, 235, 92, 233, 195, 41, 236, 203, 154, 238, 28, 177, 54, 186, 194, 41, 74, 167] from by decide]
    rw [sha1ChainB]
    decide
  · rw [hbmp, pbepkcs12sha_c1_shape, hi0]
    rw [show (List.replicate 64 2 ++ [154, 244, 112, 41, 88, 168, 233, 92, 154, 244, 112, 41, 88, 168, 233, 92, 154, 244, 112, 41, 88, 168, 233, 92, 154, 244, 112, 41, 88, 168, 233, 92, 154, 244, 112, 41, 88, 168, 233, 92, 154, 244, 112, 41, 88, 168, 233, 92, 154, 244, 112, 41, 88, 168, 233, 92, 154, 244, 112, 41, 88, 168, 233, 92, 0, 0, 0, 0, 0, 0, 0, 0, 0, 0, 0, 0, 0, 0, 0, 0, 0, 0, 0, 0, 0, 0, 0, 0, 0, 0, 0, 0, 0, 0, 0, 0, 0, 0, 0, 0, 0, 0, 0, 0, 0, 0, 0, 0, 0, 0, 0, 0, 0, 0, 0, 0, 0, 0, 0, 0, 0, 0, 0, 0, 0, 0, 0, 0] : List Nat) = [2, 2, 2, 2, 2, 2, 2, 2, 2, 2, 2, 2, 2, 2, 2, 2, 2, 2, 2, 2, 2, 2, 2, 2, 2, 2, 2, 2, 2, 2, 2, 2, 2, 2, 2, 2, 2, 2, 2, 2, 2, 2, 2, 2, 2, 2, 2, 2, 2, 2, 2, 2, 2, 2, 2, 2, 2, 2, 2, 2, 2, 2, 2, 2, 154, 244, 112, 41, 88, 168, 233, 92, 154, 244, 112, 41, 88, 168, 233, 92, 154, 244, 112, 41, 88, 168, 233, 92, 154, 244, 112, 41, 88, 168, 233, 92, 154, 244, 112, 41, 88, 168, 233, 92, 154, 244, 112, 41, 88, 168, 233, 92, 154, 244, 112, 41, 88, 168, 233, 92, 154, 244, 112, 41, 88, 168, 233, 92, 0, 0, 0, 0, 0, 0, 0, 0, 0, 0, 0, 0, 0, 0, 0, 0, 0, 0, 0, 0, 0, 0, 0, 0, 0, 0, 0, 0, 0, 0, 0, 0, 0, 0, 0, 0, 0, 0, 0, 0, 0, 0, 0, 0, 0, 0, 0, 0, 0, 0, 0, 0, 0, 0, 0, 0, 0, 0, 0, 0, 0, 0, 0, 0] from by decide]
    rw [sha1ChainC]
    decide


/-! ## Claim C4: KDF output length and totality -/

/-- C4 (corrected): for every password, salt, iteration count, id byte and
size whose u64 chunk-count computation `size + U - 1` does not overflow
(`size + 19 < 2^64`), `pbepkcs12sha` with SHA-1 or SHA-256 returns exactly
`size` bytes and does not fail.  The unrestricted claim is false: at
`size ≥ 2^64 - 19` the source's u64 addition wraps (see
`pbepkcs12sha_size_overflow`), so a debug build panics and a release build
returns 20 bytes instead of `size`. -/
theorem pbepkcs12sha_output_length (pass salt : List Nat) (iterations id size : Nat)
    (hsz : size + 19 < 18446744073709551616) :
    (pbepkcs12sha sha1 pass salt iterations id size).length = size ∧
    (pbepkcs12sha sha256 pass salt iterations id size).length = size :=
  ⟨pbepkcs12sha_length sha1 (fun b => by rw [sha1_length]) pass salt iterations id size hsz,
   pbepkcs12sha_length sha256 (fun b => by rw [sha256_length]; omega) pass salt iterations id size hsz⟩

/-- C4 witness: the corrected theorem at a concrete in-range size. -/
theorem pbepkcs12sha_output_length_witness :
    24 + 19 < 18446744073709551616 ∧
    ((pbepkcs12sha sha1 [1] [2] 1 1 24).length = 24 ∧
     (pbepkcs12sha sha256 [1] [2] 1 1 24).length = 24) :=
  ⟨by decide, pbepkcs12sha_output_length [1] [2] 1 1 24 (by decide)⟩

/-- C4 counterexample: at `size = 2^64 - 19` the source's u64 computation
`size + U - 1` wraps to 0, the main loop runs zero rounds, and the
function returns the 20 bytes of a single SHA-1 chunk rather than `size`
bytes (a debug build would panic at the overflowing addition instead). -/
theorem pbepkcs12sha_size_overflow :
    (pbepkcs12sha sha1 [] [] 1 1 18446744073709551597).length = 20 ∧
    (18446744073709551597 : Nat) ≠ 20 := by
  exact ⟨by decide, by decide⟩

/-! ## Claim C5: bmp_string -/

/-- C5: `bmp_string` is the UTF-16 big-endian encoding followed by exactly
two NUL bytes (appended unconditionally), with the empty-string and
"Beavis" examples. -/
theorem bmp_string_spec :
    (∀ s : List Nat, bmp_string s = utf16beSpec s ++ [0, 0]) ∧
    bmp_string [] = [0, 0] ∧
    bmp_string [66, 101, 97, 118, 105, 115] =
      [0, 66, 0, 101, 0, 97, 0, 118, 0, 105, 0, 115, 0, 0] := by
  refine ⟨fun s => ?_, by decide, by decide⟩
  unfold bmp_string
  rw [bmp_foldl_eq, utf16_flat_eq]
  simp

/-! ## Claim C7: verify_mac with absent mac_data -/

/-- C7: for every PFX whose `mac_data` is absent, `verify_mac` returns
true for every password. -/
theorem verify_mac_none_mac_data (prims : CipherPrims) (p : PFX)
    (password : List Nat) (h : p.mac_data = none) :
    PFX.verify_mac prims p password = .ok true := by
  unfold PFX.verify_mac
  dsimp only
  rw [h]

theorem verify_mac_none_mac_data_witness :
    (PFX.mk 3 (.Data []) none).mac_data = none ∧
    PFX.verify_mac noneAesPrims (PFX.mk 3 (.Data []) none) [] = .ok true :=
  ⟨rfl, verify_mac_none_mac_data noneAesPrims (PFX.mk 3 (.Data []) none) [] rfl⟩

/-! ## Claim C10: verify_mac when the authenticated safe yields no
plaintext -/

/-- C10: for every PFX whose `mac_data` is present but whose `auth_safe`
yields no plaintext under the supplied password (an `OtherContext`, or an
`EncryptedData` whose PBE decryption refuses), `verify_mac` returns
false. -/
theorem verify_mac_no_plaintext (prims : CipherPrims) (p : PFX)
    (password : List Nat) (md : MacData)
    (h1 : p.mac_data = some md)
    (h2 : ContentInfo.data prims p.auth_safe (bmp_string password) = .ok none) :
    PFX.verify_mac prims p password = .ok false := by
  unfold PFX.verify_mac
  dsimp only
  rw [h1, h2]

theorem verify_mac_no_plaintext_witness :
    (PFX.mk 3 (.OtherContext { content_type := [1, 2], content := [5, 0] })
        (some (MacData.mk (DigestInfo.mk .Sha1 []) [] 1))).mac_data =
      some (MacData.mk (DigestInfo.mk .Sha1 []) [] 1) ∧
    ContentInfo.data noneAesPrims
      (PFX.mk 3 (.OtherContext { content_type := [1, 2], content := [5, 0] })
        (some (MacData.mk (DigestInfo.mk .Sha1 []) [] 1))).auth_safe
      (bmp_string [119, 114, 111, 110, 103]) = .ok none ∧
    PFX.verify_mac noneAesPrims
      (PFX.mk 3 (.OtherContext { content_type := [1, 2], content := [5, 0] })
        (some (MacData.mk (DigestInfo.mk .Sha1 []) [] 1)))
      [119, 114, 111, 110, 103] = .ok false :=
  ⟨rfl, rfl,
   verify_mac_no_plaintext noneAesPrims
     (PFX.mk 3 (.OtherContext { content_type := [1, 2], content := [5, 0] })
       (some (MacData.mk (DigestInfo.mk .Sha1 []) [] 1)))
     [119, 114, 111, 110, 103] (MacData.mk (DigestInfo.mk .Sha1 []) [] 1) rfl rfl⟩

/-! ## Claim C8: PBES2 decryption with a non-16-byte IV panics instead of
returning None -/

/-- C8 (refuting evaluation): with a well-formed PBKDF2 KDF (specified
salt, HMAC-SHA-1 PRF) but an empty AES-CBC IV, `pbes2_decrypt` does not
return `None`: it reaches the infallible slice conversion and panics
(`Except.error ()`), because the source never checks the IV length. -/
theorem pbes2_decrypt_iv_length_panic :
    pbes2_decrypt noneAesPrims
      (.Pbkdf2 (.mk (.Specified []) 1 none (.HmacWithSha1 none)))
      (.AesCbcPad []) [1, 2, 3] [] = .error () ∧
    (Except.error () : Except Unit (Option (List Nat))) ≠ .ok none :=
  ⟨by decide, by decide⟩

/-! ## Claim C1: key_bags under a wrong password can panic instead of
returning an error -/

/-- C1 (refuting evaluation): on a modern-pipeline-shaped PFX, `key_bags`
with a password whose derived key fails PKCS#7 unpadding (the generic
wrong-password outcome, the AES-CBC primitive reporting a padding error)
panics via the `expect("failed")` in `pbes2_decrypt` instead of returning
an `ASN1Error`. -/
theorem key_bags_wrong_password_panics :
    PFX.key_bags noneAesPrims pfxSample [119, 114, 111, 110, 103] = .panicked := by
  decide

/-! ## Claim C2: the round-trip law fails for HmacWithSha1 with present
parameters -/

/-- C2 (refuting evaluation): the parse-reachable value
`HmacWithSha1 (some 05 00)` (from an hmacWithSHA1 AlgorithmIdentifier
with NULL parameters) re-encodes via `write_bytes` into an extra OCTET
STRING wrapper, so `parse (write x)` returns
`HmacWithSha1 (some 04 02 05 00) ≠ x`. -/
theorem hmac_params_roundtrip_fails :
    AlgorithmIdentifier.from_der [48, 11, 6, 7, 42, 134, 72, 134, 247, 13, 2, 5, 0] =
      .ok (.HmacWithSha1 (some [5, 0]), []) ∧
    AlgorithmIdentifier.from_der (AlgorithmIdentifier.HmacWithSha1 (some [5, 0])).write =
      .ok (.HmacWithSha1 (some [4, 2, 5, 0]), []) ∧
    AlgorithmIdentifier.HmacWithSha1 (some [4, 2, 5, 0]) ≠
      AlgorithmIdentifier.HmacWithSha1 (some [5, 0]) :=
  ⟨by decide, by decide, by decide⟩

/-! ## Claim C6: invariants of the built PFX -/

/-- C6: whenever `PFX::new_with_cas` succeeds, the result has version 3,
`mac_data` present, and `auth_safe` a `Data` wrapping the DER SEQUENCE of
the two ContentInfos (EncryptedData cert bundle, Data key bag); the
MacData carries an 8-byte salt, 2048 iterations and an HMAC-SHA-1 digest
keyed by the 20-byte PKCS12-SHA/SHA-1 key with id 3 over the BMP-encoded
password; and `PFX::new` defers to `new_with_cas`. -/
theorem new_with_cas_invariants (E : DataEncryptorM) (rng : Nat → Nat)
    (cert_der key_der : List Nat) (ca_der_list : List (List Nat))
    (password name : List Nat) (kb : SafeBagKind) (ed : EncryptedData) (s : List Nat)
    (h1 : E.encrypt_keybag key_der (utf8Encode password) = some kb)
    (h2 : EncryptedData.from_safe_bags E
        (SafeBag.mk (SafeBagKind.CertBag (.X509 cert_der))
           [.FriendlyName name, .LocalKeyId (sha1 cert_der)] ::
         ca_der_list.map (fun ca => SafeBag.mk (SafeBagKind.CertBag (.X509 ca)) []))
        (utf8Encode password) = some ed)
    (h3 : utf8Decode (utf8Encode password) = some s) :
    PFX.new_with_cas E rng cert_der key_der ca_der_list password name =
      .ok (some (PFX.mk 3
        (.Data (derSeqOf [(ContentInfo.EncryptedData ed).write,
          (ContentInfo.Data (derSeqOf [SafeBag.write (SafeBag.mk kb
            [.FriendlyName name, .LocalKeyId (sha1 cert_der)])])).write]))
        (some (MacData.mk
          (DigestInfo.mk .Sha1 (hmacSha1
            (pbepkcs12sha sha1 (bmp_string s) ((List.range 8).map rng) 2048 3 20)
            (derSeqOf [(ContentInfo.EncryptedData ed).write,
              (ContentInfo.Data (derSeqOf [SafeBag.write (SafeBag.mk kb
                [.FriendlyName name, .LocalKeyId (sha1 cert_der)])])).write])))
          ((List.range 8).map rng) 2048)))) ∧
    ((List.range 8).map rng).length = 8 ∧
    (pbepkcs12sha sha1 (bmp_string s) ((List.range 8).map rng) 2048 3 20).length = 20 ∧
    (∀ ca : Option (List Nat), PFX.new E rng cert_der key_der ca password name =
      PFX.new_with_cas E rng cert_der key_der
        (match ca with | some c => [c] | none => []) password name) := by
  refine ⟨?_, by simp,
    pbepkcs12sha_length sha1 (fun b => by rw [sha1_length]) (bmp_string s)
      ((List.range 8).map rng) 2048 3 20 (by decide), fun ca => rfl⟩
  unfold PFX.new_with_cas
  rw [h1]
  dsimp only
  rw [h2]
  dsimp only
  unfold MacData.new
  rw [h3]
  rfl

theorem new_with_cas_invariants_witness :
    trivEnc.encrypt_keybag [] (utf8Encode []) =
      some (.Pkcs8ShroudedKeyBag (EncryptedPrivateKeyInfo.mk .Sha1 [])) ∧
    EncryptedData.from_safe_bags trivEnc
      (SafeBag.mk (SafeBagKind.CertBag (.X509 []))
         [.FriendlyName [], .LocalKeyId (sha1 [])] ::
       ([] : List (List Nat)).map (fun ca => SafeBag.mk (SafeBagKind.CertBag (.X509 ca)) []))
      (utf8Encode []) =
      some (EncryptedData.mk (EncryptedContentInfo.mk .Sha1 [1])) ∧
    utf8Decode (utf8Encode []) = some [] ∧
    (PFX.new_with_cas trivEnc zeroRng [] [] [] [] [] =
      .ok (some (PFX.mk 3
        (.Data (derSeqOf [(ContentInfo.EncryptedData
            (EncryptedData.mk (EncryptedContentInfo.mk .Sha1 [1]))).write,
          (ContentInfo.Data (derSeqOf [SafeBag.write (SafeBag.mk
            (.Pkcs8ShroudedKeyBag (EncryptedPrivateKeyInfo.mk .Sha1 []))
            [.FriendlyName [], .LocalKeyId (sha1 [])])])).write]))
        (some (MacData.mk
          (DigestInfo.mk .Sha1 (hmacSha1
            (pbepkcs12sha sha1 (bmp_string []) ((List.range 8).map zeroRng) 2048 3 20)
            (derSeqOf [(ContentInfo.EncryptedData
                (EncryptedData.mk (EncryptedContentInfo.mk .Sha1 [1]))).write,
              (ContentInfo.Data (derSeqOf [SafeBag.write (SafeBag.mk
                (.Pkcs8ShroudedKeyBag (EncryptedPrivateKeyInfo.mk .Sha1 []))
                [.FriendlyName [], .LocalKeyId (sha1 [])])])).write])))
          ((List.range 8).map zeroRng) 2048))))) :=
  ⟨rfl, rfl, rfl,
   (new_with_cas_invariants trivEnc zeroRng [] [] [] [] []
      (.Pkcs8ShroudedKeyBag (EncryptedPrivateKeyInfo.mk .Sha1 []))
      (EncryptedData.mk (EncryptedContentInfo.mk .Sha1 [1]))
      [] rfl rfl rfl).1⟩

/-! ## Claim C9: legacy pipeline algorithm identifiers -/

/-- C9: the legacy encryptor shrouds the key bag under
pbeWithSHAAnd3-KeyTripleDES-CBC and encrypts the cert-bag bundle under
pbeWithSHAAnd40BitRC2-CBC, each with a fresh 8-byte salt and 2048
iterations. -/
theorem legacy_encryptor_algorithms (prims : CipherPrims) (rng1 rng2 : Nat → Nat)
    (data password s e1 e2 : List Nat)
    (h3 : utf8Decode password = some s)
    (h1 : pbe_with_sha_and3_key_triple_des_cbc_encrypt prims data (bmp_string s)
        ((List.range 8).map rng1) ITERATIONS = some e1)
    (h2 : pbe_with_sha_and40_bit_rc2_cbc_encrypt prims sha1 data (bmp_string s)
        ((List.range 8).map rng2) ITERATIONS = some e2) :
    PbeWithShaAnd40BitRc2CbcEncryptor.encrypt_keybag_key_deriver prims rng1 data password =
      some (.Pkcs8ShroudedKeyBag
        { encryption_algorithm := .PbeWithSHAAnd3KeyTripleDESCBC
            { salt := (List.range 8).map rng1, iterations := 2048 },
          encrypted_data := e1 }) ∧
    PbeWithShaAnd40BitRc2CbcEncryptor.encrypt_key_deriver prims rng2 data password =
      some { content_encryption_algorithm := .PbewithSHAAnd40BitRC2CBC
               { salt := (List.range 8).map rng2, iterations := 2048 },
             encrypted_content := e2 } ∧
    ((List.range 8).map rng1).length = 8 ∧ ((List.range 8).map rng2).length = 8 := by
  refine ⟨?_, ?_, by simp, by simp⟩
  · unfold PbeWithShaAnd40BitRc2CbcEncryptor.encrypt_keybag_key_deriver
    rw [h3]
    dsimp only
    rw [h1]
    rfl
  · unfold PbeWithShaAnd40BitRc2CbcEncryptor.encrypt_key_deriver
    rw [h3]
    dsimp only
    rw [h2]
    rfl

theorem legacy_encryptor_algorithms_witness :
    utf8Decode [] = some [] ∧
    pbe_with_sha_and3_key_triple_des_cbc_encrypt constEncPrims [] (bmp_string [])
      ((List.range 8).map zeroRng) ITERATIONS = some [7] ∧
    pbe_with_sha_and40_bit_rc2_cbc_encrypt constEncPrims sha1 [] (bmp_string [])
      ((List.range 8).map zeroRng) ITERATIONS = some [8] ∧
    (PbeWithShaAnd40BitRc2CbcEncryptor.encrypt_keybag_key_deriver constEncPrims zeroRng [] [] =
      some (.Pkcs8ShroudedKeyBag
        { encryption_algorithm := .PbeWithSHAAnd3KeyTripleDESCBC
            { salt := (List.range 8).map zeroRng, iterations := 2048 },
          encrypted_data := [7] })) :=
  ⟨rfl, rfl, rfl,
   (legacy_encryptor_algorithms constEncPrims zeroRng zeroRng [] [] [] [7] [8]
     rfl rfl rfl).1⟩

end P12
